import Mathlib

/-!
# GstBaseIdleSrc: lifecycle of the idle source base class

A shallow embedding of `libs/gst/base/gstbaseidlesrc.c`.  The element is a
record of the fields of `GstBaseIdleSrc` and `GstBaseIdleSrcPrivate`; every
function of the C file is a function on that record.  Calls that leave the
file (subclass virtual methods, the pad, the buffer pool, the clock, the
parent class) are answered by the class record or by the environment record
and are appended, in program order, to the `trace` field.
-/

namespace GstBaseIdleSrc

/-! ## Types of the GStreamer core used by the file -/

/-- GstFlowReturn of the GStreamer core (gstpad.h). -/
inductive GstFlowReturn
  | GST_FLOW_CUSTOM_SUCCESS_2
  | GST_FLOW_CUSTOM_SUCCESS_1
  | GST_FLOW_CUSTOM_SUCCESS
  | GST_FLOW_OK
  | GST_FLOW_NOT_LINKED
  | GST_FLOW_FLUSHING
  | GST_FLOW_EOS
  | GST_FLOW_NOT_NEGOTIATED
  | GST_FLOW_ERROR
  | GST_FLOW_NOT_SUPPORTED
  | GST_FLOW_CUSTOM_ERROR
  | GST_FLOW_CUSTOM_ERROR_1
  | GST_FLOW_CUSTOM_ERROR_2
  deriving DecidableEq, Repr

/-- GstFormat of the GStreamer core (gstformat.h). -/
inductive GstFormat
  | GST_FORMAT_UNDEFINED
  | GST_FORMAT_DEFAULT
  | GST_FORMAT_BYTES
  | GST_FORMAT_TIME
  | GST_FORMAT_BUFFERS
  | GST_FORMAT_PERCENT
  deriving DecidableEq, Repr

/-- GstPadMode of the GStreamer core (gstpad.h). -/
inductive GstPadMode
  | GST_PAD_MODE_NONE
  | GST_PAD_MODE_PUSH
  | GST_PAD_MODE_PULL
  deriving DecidableEq, Repr

/-- GstStateChange of the GStreamer core (gstelement.h). -/
inductive GstStateChange
  | GST_STATE_CHANGE_NULL_TO_READY
  | GST_STATE_CHANGE_READY_TO_PAUSED
  | GST_STATE_CHANGE_PAUSED_TO_PLAYING
  | GST_STATE_CHANGE_PLAYING_TO_PAUSED
  | GST_STATE_CHANGE_PAUSED_TO_READY
  | GST_STATE_CHANGE_READY_TO_NULL
  | GST_STATE_CHANGE_NULL_TO_NULL
  | GST_STATE_CHANGE_READY_TO_READY
  | GST_STATE_CHANGE_PAUSED_TO_PAUSED
  | GST_STATE_CHANGE_PLAYING_TO_PLAYING
  deriving DecidableEq, Repr

/-- GstStateChangeReturn of the GStreamer core (gstelement.h). -/
inductive GstStateChangeReturn
  | GST_STATE_CHANGE_FAILURE
  | GST_STATE_CHANGE_SUCCESS
  | GST_STATE_CHANGE_ASYNC
  | GST_STATE_CHANGE_NO_PREROLL
  deriving DecidableEq, Repr

/-- GstEventType of the GStreamer core (gstevent.h). -/
inductive GstEventType
  | GST_EVENT_UNKNOWN
  | GST_EVENT_FLUSH_START
  | GST_EVENT_FLUSH_STOP
  | GST_EVENT_STREAM_START
  | GST_EVENT_CAPS
  | GST_EVENT_SEGMENT
  | GST_EVENT_STREAM_COLLECTION
  | GST_EVENT_TAG
  | GST_EVENT_BUFFERSIZE
  | GST_EVENT_SINK_MESSAGE
  | GST_EVENT_STREAM_GROUP_DONE
  | GST_EVENT_EOS
  | GST_EVENT_TOC
  | GST_EVENT_PROTECTION
  | GST_EVENT_SEGMENT_DONE
  | GST_EVENT_GAP
  | GST_EVENT_INSTANT_RATE_CHANGE
  | GST_EVENT_QOS
  | GST_EVENT_SEEK
  | GST_EVENT_NAVIGATION
  | GST_EVENT_LATENCY
  | GST_EVENT_STEP
  | GST_EVENT_RECONFIGURE
  | GST_EVENT_TOC_SELECT
  | GST_EVENT_SELECT_STREAMS
  | GST_EVENT_INSTANT_RATE_SYNC_TIME
  | GST_EVENT_CUSTOM_UPSTREAM
  | GST_EVENT_CUSTOM_DOWNSTREAM
  | GST_EVENT_CUSTOM_DOWNSTREAM_OOB
  | GST_EVENT_CUSTOM_DOWNSTREAM_STICKY
  | GST_EVENT_CUSTOM_BOTH
  | GST_EVENT_CUSTOM_BOTH_OOB
  deriving DecidableEq, Repr

/-- An event object: its type and the identity of the object. -/
structure GstEvent where
  type : GstEventType
  id : Nat
  deriving DecidableEq, Repr

/-- The value written `-1` into a guint64 in the C source. -/
def G_MAXUINT64 : Nat := 2 ^ 64 - 1

/-- GstSegment of the GStreamer core (gstsegment.h).  The guint64 members are
natural numbers below 2^64, the two gdouble members are only copied or reset
by the code embedded here. -/
structure GstSegment where
  flags : Nat
  rate : Rat
  applied_rate : Rat
  format : GstFormat
  base : Nat
  offset : Nat
  start : Nat
  stop : Nat
  time : Nat
  position : Nat
  duration : Nat
  deriving DecidableEq, Repr

/-- The core function gst_segment_init: every member is reset, the format is
the one given. -/
def gst_segment_init (format : GstFormat) : GstSegment :=
  { flags := 0, rate := 1, applied_rate := 1, format := format,
    base := 0, offset := 0, start := 0, stop := G_MAXUINT64, time := 0,
    position := 0, duration := G_MAXUINT64 }

/-- Identity of a buffer pool object. -/
abbrev GstBufferPool := Nat

/-- Identity of an allocator object. -/
abbrev GstAllocator := Nat

/-- Identity of a buffer list object. -/
abbrev GstBufferList := Nat

/-- Identity of a clock id. -/
abbrev GstClockID := Nat

/-- GstAllocationParams of the GStreamer core (gstallocator.h). -/
structure GstAllocationParams where
  flags : Nat
  align : Nat
  front : Nat
  padding : Nat
  deriving DecidableEq, Repr

/-- The core function gst_allocation_params_init. -/
def gst_allocation_params_init : GstAllocationParams :=
  { flags := 0, align := 0, front := 0, padding := 0 }

/-- A call that leaves the file, as recorded in the trace. -/
inductive Call
  | hook_start
  | hook_stop
  | hook_get_size
  | hook_is_seekable
  | hook_unlock
  | hook_unlock_stop
  | pool_set_flushing (pool : GstBufferPool) (flushing : Bool)
  | pool_set_active (pool : GstBufferPool) (active : Bool)
  | pad_stop_task
  | pad_start_task
  | pad_push_event (event : GstEvent)
  | pad_mark_reconfigure
  | clock_id_unschedule (id : GstClockID)
  | element_error
  | parent_change_state (transition : GstStateChange)
  deriving DecidableEq, Repr

end GstBaseIdleSrc

/-- The element: the members of struct _GstBaseIdleSrc followed by the members
of struct _GstBaseIdleSrcPrivate, the two lifecycle bits of the object flags,
the mode of the source pad, and the trace of the calls that left the file. -/
structure GstBaseIdleSrc where
  /-- Bit GST_BASE_IDLE_SRC_FLAG_STARTING of the object flags. -/
  flag_starting : Bool
  /-- Bit GST_BASE_IDLE_SRC_FLAG_STARTED of the object flags. -/
  flag_started : Bool
  /-- Value of GST_PAD_MODE (srcpad). -/
  pad_mode : GstBaseIdleSrc.GstPadMode
  is_live : Bool
  live_running : Bool
  blocksize : Nat
  can_activate_push : Bool
  random_access : Bool
  clock_id : Option GstBaseIdleSrc.GstClockID
  segment : GstBaseIdleSrc.GstSegment
  num_buffers : Int
  num_buffers_left : Int
  running : Bool
  pending_seek : Option GstBaseIdleSrc.GstEvent
  discont : Bool
  flushing : Bool
  start_result : GstBaseIdleSrc.GstFlowReturn
  async : Bool
  stream_start_pending : Bool
  segment_pending : Bool
  segment_seqnum : Nat
  pending_eos : Option GstBaseIdleSrc.GstEvent
  has_pending_eos : Bool
  forced_eos : Bool
  do_timestamp : Bool
  automatic_eos : Bool
  pending_events : List GstBaseIdleSrc.GstEvent
  have_events : Bool
  pool : Option GstBaseIdleSrc.GstBufferPool
  allocator : Option GstBaseIdleSrc.GstAllocator
  params : GstBaseIdleSrc.GstAllocationParams
  pending_bufferlist : Option GstBaseIdleSrc.GstBufferList
  trace : List GstBaseIdleSrc.Call
  deriving DecidableEq

namespace GstBaseIdleSrc

open GstFlowReturn GstFormat GstPadMode GstStateChange GstStateChangeReturn GstEventType

/-- Append one call to the trace. -/
def log (s : GstBaseIdleSrc) (c : Call) : GstBaseIdleSrc :=
  { s with trace := s.trace ++ [c] }

/-- The virtual methods of GstBaseIdleSrcClass that the embedded functions
call.  A method that is a NULL pointer is `none`.  A method observes the
element and answers; that it was called is recorded in the trace by the
caller.  A completion that a subclass delivers is a call of
gst_base_idle_src_start_complete of its own. -/
structure GstBaseIdleSrcClass where
  start : Option (GstBaseIdleSrc → Bool)
  stop : Option (GstBaseIdleSrc → Bool)
  get_size : Option (GstBaseIdleSrc → Bool × Nat)
  is_seekable : Option (GstBaseIdleSrc → Bool)
  unlock : Option (GstBaseIdleSrc → Bool)
  unlock_stop : Option (GstBaseIdleSrc → Bool)

/-- The functions called by the file whose bodies are outside it: the seek
routine gst_base_idle_src_perform_seek (defined nowhere in the file, called
at lines 1217 and 1920; it answers success or failure and may write any member
of the element), the counter gst_util_seqnum_next, gst_pad_push_event,
gst_buffer_pool_set_active and the change_state of the parent class, which
activates or deactivates the source pad and so decides its mode. -/
structure Env where
  perform_seek : GstBaseIdleSrc → Option GstEvent → Bool → Bool × GstBaseIdleSrc
  util_seqnum_next : GstBaseIdleSrc → Nat
  pad_push_event : GstBaseIdleSrc → GstEvent → Bool
  pool_set_active : GstBaseIdleSrc → GstBufferPool → Bool → Bool
  parent_change_state : GstBaseIdleSrc → GstStateChange → GstStateChangeReturn × GstPadMode

/-! ## Functions of the file -/

/-- Modelled from the spec: gst_base_idle_src_is_async is declared in the
header and called by gst_base_idle_src_start, its body is not in the file.
The source is asynchronous when the subclass start completes later through
start_complete; the answer is the member `async` of the private structure. -/
def gst_base_idle_src_is_async (s : GstBaseIdleSrc) : Bool :=
  s.async

/-- Modelled from the spec: gst_base_idle_src_is_live is declared in the
header and called by gst_base_idle_src_change_state, its body is not in the
file.  It answers the member `is_live` of the LiveGate. -/
def gst_base_idle_src_is_live (s : GstBaseIdleSrc) : Bool :=
  s.is_live

/-- Modelled from the spec: gst_base_idle_src_set_playing is called by
gst_base_idle_src_change_state, its body is not in the file.  According to
the spec set_playing(bool) sets live_playing and broadcasts. -/
def gst_base_idle_src_set_playing (live_play : Bool) (s : GstBaseIdleSrc) :
    Bool × GstBaseIdleSrc :=
  (true, { s with live_running := live_play })

/-- The macro CLEAR_PENDING_EOS. -/
def CLEAR_PENDING_EOS (s : GstBaseIdleSrc) : GstBaseIdleSrc :=
  { s with has_pending_eos := false, pending_eos := none }

/-- The function gst_base_idle_src_init on the zero-filled instance.  The
macros DEFAULT_NUM_BUFFERS and DEFAULT_BLOCKSIZE are used but not defined in
the file and are taken as arguments. -/
def gst_base_idle_src_init (DEFAULT_NUM_BUFFERS : Int) (DEFAULT_BLOCKSIZE : Nat) :
    GstBaseIdleSrc :=
  { flag_starting := false
    flag_started := false
    pad_mode := GST_PAD_MODE_NONE
    is_live := false
    live_running := false
    blocksize := DEFAULT_BLOCKSIZE
    can_activate_push := true
    random_access := false
    clock_id := none
    segment := gst_segment_init GST_FORMAT_BYTES
    num_buffers := DEFAULT_NUM_BUFFERS
    num_buffers_left := -1
    running := false
    pending_seek := none
    discont := false
    flushing := false
    start_result := GST_FLOW_FLUSHING
    async := false
    stream_start_pending := false
    segment_pending := false
    segment_seqnum := 0
    pending_eos := none
    has_pending_eos := false
    forced_eos := false
    do_timestamp := false
    automatic_eos := true
    pending_events := []
    have_events := false
    pool := none
    allocator := none
    params := gst_allocation_params_init
    pending_bufferlist := none
    trace := [] }

/-- The function gst_base_idle_src_seekable. -/
def gst_base_idle_src_seekable (k : GstBaseIdleSrcClass) (s : GstBaseIdleSrc) :
    Bool × GstBaseIdleSrc :=
  match k.is_seekable with
  | some h => (h s, s.log Call.hook_is_seekable)
  | none => (false, s)

/-- The function gst_base_idle_src_set_allocation. -/
def gst_base_idle_src_set_allocation (e : Env) (pool : Option GstBufferPool)
    (allocator : Option GstAllocator) (params : Option GstAllocationParams)
    (s : GstBaseIdleSrc) : Bool × GstBaseIdleSrc :=
  let activated : Bool × GstBaseIdleSrc :=
    match pool with
    | some p => (e.pool_set_active s p true, s.log (Call.pool_set_active p true))
    | none => (true, s)
  if !activated.1 then
    (false, activated.2)
  else
    let s1 := activated.2
    let oldpool := s1.pool
    let s2 := { s1 with
      pool := pool
      allocator := allocator
      params := match params with
        | some p => p
        | none => gst_allocation_params_init }
    let s3 :=
      match oldpool with
      | some op => if oldpool != pool then s2.log (Call.pool_set_active op false) else s2
      | none => s2
    (true, s3)

/-- The function gst_base_idle_src_set_pool_flushing. -/
def gst_base_idle_src_set_pool_flushing (flushing : Bool) (s : GstBaseIdleSrc) :
    GstBaseIdleSrc :=
  match s.pool with
  | some p => s.log (Call.pool_set_flushing p flushing)
  | none => s

/-- The function gst_base_idle_src_set_flushing. -/
def gst_base_idle_src_set_flushing (k : GstBaseIdleSrcClass) (flushing : Bool)
    (s : GstBaseIdleSrc) : Bool × GstBaseIdleSrc :=
  let s1 :=
    if flushing then
      let sa := gst_base_idle_src_set_pool_flushing true s
      match k.unlock with
      | some _ => sa.log Call.hook_unlock
      | none => sa
    else s
  let s2 := { s1 with flushing := flushing }
  let s3 :=
    if flushing then
      let sa :=
        if s2.has_pending_eos then
          { CLEAR_PENDING_EOS s2 with forced_eos := false }
        else s2
      match sa.clock_id with
      | some c => sa.log (Call.clock_id_unschedule c)
      | none => sa
    else
      let sa := gst_base_idle_src_set_pool_flushing false s2
      if !sa.pending_events.isEmpty then
        { sa with pending_events := [], have_events := false }
      else sa
  let s4 :=
    if !flushing then
      match k.unlock_stop with
      | some _ => s3.log Call.hook_unlock_stop
      | none => s3
    else s3
  (true, s4)

/-- The function gst_base_idle_src_stop. -/
def gst_base_idle_src_stop (k : GstBaseIdleSrcClass) (e : Env) (s : GstBaseIdleSrc) :
    Bool × GstBaseIdleSrc :=
  let s1 := (gst_base_idle_src_set_flushing k true s).2
  let s2 := s1.log Call.pad_stop_task
  let s3 := (gst_base_idle_src_set_flushing k false s2).2
  if !s3.flag_started && !s3.flag_starting then
    (true, s3)
  else
    let s4 := { s3 with
      flag_starting := false
      flag_started := false
      start_result := GST_FLOW_FLUSHING }
    let stopped : Bool × GstBaseIdleSrc :=
      match k.stop with
      | some h => (h s4, s4.log Call.hook_stop)
      | none => (true, s4)
    let s5 := stopped.2
    let s6 := if s5.pending_bufferlist != none then
      { s5 with pending_bufferlist := none } else s5
    let s7 := (gst_base_idle_src_set_allocation e none none none s6).2
    (stopped.1, s7)

/-- The label `error` of gst_base_idle_src_start_complete (lines 1973-1981). -/
def start_complete_error (ret : GstFlowReturn) (s : GstBaseIdleSrc) : GstBaseIdleSrc :=
  { s with start_result := ret, flag_starting := false }

/-- The size step of gst_base_idle_src_start_complete for GST_FLOW_OK (lines
1870-1886): in byte format the duration becomes the size the subclass reports,
or -1 when it reports none. -/
def start_complete_size (k : GstBaseIdleSrcClass) (s : GstBaseIdleSrc) : GstBaseIdleSrc :=
  if s.segment.format = GST_FORMAT_BYTES then
    let sized : Nat × GstBaseIdleSrc :=
      match k.get_size with
      | some h =>
        let r := h s
        (if !r.1 then G_MAXUINT64 else r.2, s.log Call.hook_get_size)
      | none => (G_MAXUINT64, s)
    { sized.2 with segment := { sized.2.segment with duration := sized.1 } }
  else s

/-- The first half of gst_base_idle_src_start_complete for GST_FLOW_OK (lines
1867-1905): size, random access flag, reconfigure mark. -/
def start_complete_setup (k : GstBaseIdleSrcClass) (s : GstBaseIdleSrc) : GstBaseIdleSrc :=
  let format := s.segment.format
  let s1 := start_complete_size k s
  let sk := gst_base_idle_src_seekable k s1
  let s2 := { sk.2 with random_access := sk.1 && decide (format = GST_FORMAT_BYTES) }
  s2.log Call.pad_mark_reconfigure

/-- The initial seek of gst_base_idle_src_start_complete in push mode (lines
1913-1920): the pending seek is taken out of the element and handed to
gst_base_idle_src_perform_seek. -/
def start_complete_seek (e : Env) (s : GstBaseIdleSrc) : Bool × GstBaseIdleSrc :=
  let event := s.pending_seek
  let s5 := { s with pending_seek := none }
  e.perform_seek s5 event false

/-- The function gst_base_idle_src_start_complete. -/
def gst_base_idle_src_start_complete (k : GstBaseIdleSrcClass) (e : Env)
    (ret : GstFlowReturn) (s : GstBaseIdleSrc) : GstBaseIdleSrc :=
  if ret ≠ GST_FLOW_OK then
    start_complete_error ret s
  else
    let s4 := start_complete_setup k s
    let fail (t : GstBaseIdleSrc) : GstBaseIdleSrc :=
      start_complete_error GST_FLOW_ERROR (gst_base_idle_src_stop k e t).2
    let done (t : GstBaseIdleSrc) : GstBaseIdleSrc :=
      { t with flag_started := true, flag_starting := false, start_result := ret }
    match s4.pad_mode with
    | GST_PAD_MODE_PUSH =>
      let sought := start_complete_seek e s4
      if !sought.1 then fail sought.2 else done sought.2
    | GST_PAD_MODE_PULL =>
      if !s4.random_access then fail s4 else done s4
    | GST_PAD_MODE_NONE => fail s4

/-- The function gst_base_idle_src_start_wait.  The loop waits on the
condition variable while the Starting bit is set; no step of the calling
thread clears the bit, so on such an element the call does not return and
the result is `none`. -/
def gst_base_idle_src_start_wait (s : GstBaseIdleSrc) :
    Option (GstFlowReturn × GstBaseIdleSrc) :=
  if s.flag_starting then none else some (s.start_result, s)

/-- The statements of gst_base_idle_src_start between taking and releasing
the live lock (lines 1787-1797), on an element that is neither starting nor
started. -/
def start_prepare (e : Env) (s : GstBaseIdleSrc) : GstBaseIdleSrc :=
  let s1 := { s with
    start_result := GST_FLOW_FLUSHING
    flag_starting := true
    segment := gst_segment_init s.segment.format }
  { s1 with
    num_buffers_left := s1.num_buffers
    running := false
    segment_pending := false
    segment_seqnum := e.util_seqnum_next s1 % 2 ^ 32
    forced_eos := false }

/-- The statements of gst_base_idle_src_start after the subclass start has
answered `result` (lines 1805-1841); `s` is the element at that moment. -/
def start_finish (k : GstBaseIdleSrcClass) (e : Env) (result : Bool)
    (s : GstBaseIdleSrc) : Option (Bool × GstBaseIdleSrc) :=
  if !result then
    some (false, gst_base_idle_src_start_complete k e GST_FLOW_ERROR (s.log Call.element_error))
  else if !gst_base_idle_src_is_async s then
    match gst_base_idle_src_start_wait (gst_base_idle_src_start_complete k e GST_FLOW_OK s) with
    | some w => some (decide (w.1 = GST_FLOW_OK), w.2)
    | none => none
  else
    some (true, s)

/-- The function gst_base_idle_src_start. -/
def gst_base_idle_src_start (k : GstBaseIdleSrcClass) (e : Env) (s : GstBaseIdleSrc) :
    Option (Bool × GstBaseIdleSrc) :=
  if s.flag_starting then
    some (true, s)
  else if s.flag_started then
    some (true, s)
  else
    let s2 := start_prepare e s
    match k.start with
    | some h => start_finish k e (h s2) (s2.log Call.hook_start)
    | none => start_finish k e true s2

/-- The function gst_base_idle_src_send_event. -/
def gst_base_idle_src_send_event (k : GstBaseIdleSrcClass) (e : Env) (event : GstEvent)
    (s : GstBaseIdleSrc) : Bool × GstBaseIdleSrc :=
  match event.type with
  | GST_EVENT_FLUSH_START =>
    let result := e.pad_push_event s event
    let s1 := s.log (Call.pad_push_event event)
    (result, (gst_base_idle_src_set_flushing k true s1).2)
  | GST_EVENT_FLUSH_STOP =>
    let s1 := (gst_base_idle_src_set_flushing k false s).2
    let result := e.pad_push_event s1 event
    let s2 := s1.log (Call.pad_push_event event)
    let s3 := { s2 with segment_pending := true }
    let start0 := decide (s3.pad_mode = GST_PAD_MODE_PUSH)
    let start := if s3.is_live then (if !s3.live_running then false else start0) else start0
    let s4 := if start then s3.log Call.pad_start_task else s3
    (result, s4)
  | GST_EVENT_EOS =>
    let push_mode := decide (s.pad_mode = GST_PAD_MODE_PUSH)
    if push_mode then
      let s1 := (gst_base_idle_src_set_flushing k true s).2
      let s2 := (gst_base_idle_src_set_flushing k false s1).2
      let s3 := { s2 with has_pending_eos := true, pending_eos := some event }
      (true, s3.log Call.pad_start_task)
    else
      let s1 := { s with has_pending_eos := true, pending_eos := some event }
      let s2 := gst_base_idle_src_set_pool_flushing true s1
      let s3 := match k.unlock with
        | some _ => s2.log Call.hook_unlock
        | none => s2
      let s4 := match k.unlock_stop with
        | some _ => s3.log Call.hook_unlock_stop
        | none => s3
      (true, gst_base_idle_src_set_pool_flushing true s4)
  | GST_EVENT_SEGMENT => (false, s)
  | GST_EVENT_TAG | GST_EVENT_SINK_MESSAGE | GST_EVENT_CUSTOM_DOWNSTREAM
  | GST_EVENT_CUSTOM_BOTH | GST_EVENT_PROTECTION =>
    (true, { s with pending_events := s.pending_events ++ [event], have_events := true })
  | GST_EVENT_BUFFERSIZE => (false, s)
  | GST_EVENT_QOS => (false, s)
  | GST_EVENT_NAVIGATION => (false, s)
  | GST_EVENT_LATENCY => (false, s)
  | GST_EVENT_CUSTOM_UPSTREAM => (false, s)
  | GST_EVENT_CUSTOM_DOWNSTREAM_OOB | GST_EVENT_CUSTOM_BOTH_OOB =>
    (e.pad_push_event s event, s.log (Call.pad_push_event event))
  | _ => (false, s)

/-- The function gst_base_idle_src_change_state. -/
def gst_base_idle_src_change_state (e : Env) (transition : GstStateChange)
    (s : GstBaseIdleSrc) : GstStateChangeReturn × GstBaseIdleSrc :=
  let pre : Bool × GstBaseIdleSrc :=
    match transition with
    | GST_STATE_CHANGE_NULL_TO_READY => (false, s)
    | GST_STATE_CHANGE_READY_TO_PAUSED => (gst_base_idle_src_is_live s, s)
    | GST_STATE_CHANGE_PAUSED_TO_PLAYING =>
      if gst_base_idle_src_is_live s then
        (false, (gst_base_idle_src_set_playing true s).2)
      else (false, s)
    | _ => (false, s)
  let parent := e.parent_change_state pre.2 transition
  let s1 := { pre.2.log (Call.parent_change_state transition) with pad_mode := parent.2 }
  let result := parent.1
  if result = GST_STATE_CHANGE_FAILURE then
    (result, s1)
  else
    let post : Bool × GstBaseIdleSrc :=
      match transition with
      | GST_STATE_CHANGE_PLAYING_TO_PAUSED =>
        if gst_base_idle_src_is_live s1 then
          (true, (gst_base_idle_src_set_playing false s1).2)
        else (pre.1, s1)
      | GST_STATE_CHANGE_PAUSED_TO_READY =>
        let sa := if s1.has_pending_eos then CLEAR_PENDING_EOS s1 else s1
        (pre.1, { sa with pending_seek := none })
      | GST_STATE_CHANGE_READY_TO_NULL => (pre.1, s1)
      | _ => (pre.1, s1)
    let no_preroll := post.1
    let result1 :=
      if no_preroll && decide (result = GST_STATE_CHANGE_SUCCESS) then
        GST_STATE_CHANGE_NO_PREROLL
      else result
    (result1, post.2)

/-- GstState of the GStreamer core (gstelement.h), in the order of its
numeric values. -/
inductive GstState
  | GST_STATE_VOID_PENDING
  | GST_STATE_NULL
  | GST_STATE_READY
  | GST_STATE_PAUSED
  | GST_STATE_PLAYING
  deriving DecidableEq, Repr

/-- The numeric value of a GstState. -/
def GstState.value (st : GstState) : Nat :=
  match st with
  | GstState.GST_STATE_VOID_PENDING => 0
  | GstState.GST_STATE_NULL => 1
  | GstState.GST_STATE_READY => 2
  | GstState.GST_STATE_PAUSED => 3
  | GstState.GST_STATE_PLAYING => 4

/-- The function gst_base_idle_src_set_format.  GST_STATE (src) is a member of
the parent GstElement and is given as an argument; when the check
g_return_if_fail (GST_STATE (src) <= GST_STATE_READY) fails the function
returns without writing. -/
def gst_base_idle_src_set_format (state : GstState) (format : GstFormat)
    (s : GstBaseIdleSrc) : GstBaseIdleSrc :=
  if state.value ≤ GstState.GST_STATE_READY.value then
    { s with segment := gst_segment_init format }
  else s

/-- The function gst_base_idle_src_set_do_timestamp. -/
def gst_base_idle_src_set_do_timestamp (timestamp : Bool) (s : GstBaseIdleSrc) :
    GstBaseIdleSrc :=
  let s1 := { s with do_timestamp := timestamp }
  if timestamp && decide (s1.segment.format ≠ GST_FORMAT_TIME) then
    { s1 with segment := gst_segment_init GST_FORMAT_TIME }
  else s1

/-- A gint64 argument stored into a guint64 member. -/
def gint64_to_guint64 (x : Int) : Nat :=
  (x % 2 ^ 64).toNat

/-- The function gst_base_idle_src_new_seamless_segment.  The core function
gst_segment_to_running_time is given as an argument. -/
def gst_base_idle_src_new_seamless_segment (e : Env)
    (gst_segment_to_running_time : GstSegment → GstFormat → Nat → Nat)
    (start stop time : Int) (s : GstBaseIdleSrc) : Bool × GstBaseIdleSrc :=
  let base := gst_segment_to_running_time s.segment s.segment.format s.segment.position
  let seg1 := { s.segment with base := base }
  let seg2 := { seg1 with position := gint64_to_guint64 start, start := gint64_to_guint64 start }
  let seg3 := { seg2 with stop := gint64_to_guint64 stop, time := gint64_to_guint64 time }
  let s1 := { s with segment := seg3 }
  let s2 := { s1 with segment_pending := true, segment_seqnum := e.util_seqnum_next s1 % 2 ^ 32 }
  (true, { s2 with discont := true, running := true })

/-- The function gst_base_idle_src_new_segment; gst_segment_copy_into copies
every member of the segment. -/
def gst_base_idle_src_new_segment (e : Env) (segment : GstSegment) (s : GstBaseIdleSrc) :
    Bool × GstBaseIdleSrc :=
  if s.segment.format = GST_FORMAT_UNDEFINED then
    (false, s)
  else if s.segment.format ≠ segment.format then
    (false, s)
  else
    let s1 := { s with segment := segment }
    let s2 := { s1 with segment_pending := true, segment_seqnum := e.util_seqnum_next s1 % 2 ^ 32 }
    (true, { s2 with running := true })

/-- The macro BASE_IDLE_SRC_HAS_PENDING_BUFFER_LIST. -/
def BASE_IDLE_SRC_HAS_PENDING_BUFFER_LIST (s : GstBaseIdleSrc) : Bool :=
  s.pending_bufferlist != none

/-- The function gst_base_idle_src_submit_buffer_list.  The core function
gst_buffer_list_make_writable, which answers the list itself or a writable
copy of it, is given as an argument.  When the check g_return_if_fail
(BASE_IDLE_SRC_HAS_PENDING_BUFFER_LIST (src) == FALSE) fails the function
returns without writing. -/
def gst_base_idle_src_submit_buffer_list
    (gst_buffer_list_make_writable : GstBufferList → GstBufferList)
    (buffer_list : GstBufferList) (s : GstBaseIdleSrc) : GstBaseIdleSrc :=
  if BASE_IDLE_SRC_HAS_PENDING_BUFFER_LIST s = false then
    { s with pending_bufferlist := some (gst_buffer_list_make_writable buffer_list) }
  else s

/-- The buffer pool `pool` is flushing after the outside calls `calls`, when it
was flushing or not (`before`) ahead of them: the last
gst_buffer_pool_set_flushing on that pool decides. -/
def pool_flushing_after (pool : GstBufferPool) (before : Bool) (calls : List Call) : Bool :=
  calls.foldl (fun st c =>
    match c with
    | Call.pool_set_flushing p flushing => if p = pool then flushing else st
    | _ => st) before

/-- The event types that gst_base_idle_src_send_event queues in pending_events
(the case labels at lines 1116-1120). -/
def is_queued_event_type (ty : GstEventType) : Bool :=
  match ty with
  | GST_EVENT_TAG | GST_EVENT_SINK_MESSAGE | GST_EVENT_CUSTOM_DOWNSTREAM
  | GST_EVENT_CUSTOM_BOTH | GST_EVENT_PROTECTION => true
  | _ => false

/-- The statements of the loop fragment at lines 1355-1362 (inside `#if 0`):
when have_events is set the task takes the queue and resets both members.  The
local list starts empty. -/
def loop_take_pending_events (s : GstBaseIdleSrc) : List GstEvent × GstBaseIdleSrc :=
  if s.have_events then
    (s.pending_events, { s with pending_events := [], have_events := false })
  else ([], s)

/-- The statements of the loop fragment at lines 1355-1371 (inside `#if 0`):
the events taken are pushed on the pad from the head of the list to its end. -/
def loop_push_pending_events (s : GstBaseIdleSrc) : GstBaseIdleSrc :=
  let taken := loop_take_pending_events s
  taken.1.foldl (fun st ev => st.log (Call.pad_push_event ev)) taken.2

/-- Identity of a buffer object. -/
abbrev GstBuffer := Nat

/-- A call of a virtual method made by gst_base_idle_src_default_create, with
its arguments. -/
inductive CreateCall
  | alloc (offset : Nat) (size : Nat)
  | fill (offset : Nat) (size : Nat) (buf : GstBuffer)
  deriving DecidableEq, Repr

/-- The function gst_base_idle_src_default_create.  The virtual methods alloc
and fill of the class are given as arguments (`none` for a NULL pointer); alloc
answers its result and the buffer it stored.  The answer is the return value,
the content of the buffer slot of the caller afterwards, and the calls made. -/
def gst_base_idle_src_default_create
    (alloc : Option (GstBaseIdleSrc → Nat → Nat → GstFlowReturn × GstBuffer))
    (fill : Option (GstBaseIdleSrc → Nat → Nat → GstBuffer → GstFlowReturn))
    (offset : Nat) (size : Nat) (buffer : Option GstBuffer) (s : GstBaseIdleSrc) :
    GstFlowReturn × Option GstBuffer × List CreateCall :=
  match alloc, fill with
  | none, _ => (GST_FLOW_NOT_SUPPORTED, buffer, [])
  | some _, none => (GST_FLOW_NOT_SUPPORTED, buffer, [])
  | some a, some f =>
    let allocated : GstFlowReturn × GstBuffer × List CreateCall :=
      match buffer with
      | none => ((a s offset size).1, (a s offset size).2, [CreateCall.alloc offset size])
      | some b => (GST_FLOW_OK, b, [])
    if allocated.1 ≠ GST_FLOW_OK then
      (allocated.1, buffer, allocated.2.2)
    else
      let res_buf := allocated.2.1
      if size > 0 then
        let ret := f s offset size res_buf
        let calls := allocated.2.2 ++ [CreateCall.fill offset size res_buf]
        if ret ≠ GST_FLOW_OK then
          (ret, buffer, calls)
        else
          (GST_FLOW_OK, some res_buf, calls)
      else
        (GST_FLOW_OK, some res_buf, allocated.2.2)

/-- A guint64 member read into a gint64 variable. -/
def guint64_to_gint64 (n : Nat) : Int :=
  if n % 2 ^ 64 < 2 ^ 63 then ((n % 2 ^ 64 : Nat) : Int) else ((n % 2 ^ 64 : Nat) : Int) - 2 ^ 64

/-- The case GST_QUERY_POSITION with format GST_FORMAT_PERCENT of
gst_base_idle_src_default_query (lines 598-621): the return value and the
position stored in the query.  The constant GST_FORMAT_PERCENT_MAX and the
function gst_util_uint64_scale belong to the GStreamer core and are given as
arguments. -/
def gst_base_idle_src_default_query_position_percent (GST_FORMAT_PERCENT_MAX : Int)
    (gst_util_uint64_scale : Nat → Nat → Nat → Nat) (s : GstBaseIdleSrc) : Bool × Int :=
  let position := guint64_to_gint64 s.segment.position
  let duration := guint64_to_gint64 s.segment.duration
  let percent : Int :=
    if position ≠ -1 ∧ duration ≠ -1 then
      if position < duration then
        guint64_to_gint64 (gst_util_uint64_scale (gint64_to_guint64 GST_FORMAT_PERCENT_MAX)
          (gint64_to_guint64 position) (gint64_to_guint64 duration))
      else GST_FORMAT_PERCENT_MAX
    else -1
  (true, percent)

/-! ## Lock statements

The lock statements of the file, in the order the thread of a call runs them.
Calls into the GStreamer core and into the subclass are left out; the functions
of the element whose bodies are not in the file come in as arguments. -/

/-- The locks of the locking order comment (lines 85-89) and the object lock
of the source pad. -/
inductive Lock
  | STREAM_LOCK
  | LIVE_LOCK
  | OBJECT_LOCK
  | PAD_OBJECT_LOCK
  deriving DecidableEq, Repr

/-- A lock statement: GST_PAD_STREAM_LOCK, GST_LIVE_LOCK, GST_OBJECT_LOCK and
their UNLOCK forms. -/
inductive LockOp
  | lock (l : Lock)
  | unlock (l : Lock)
  deriving DecidableEq, Repr

/-- How often the calling thread holds each lock. -/
structure Held where
  stream : Nat
  live : Nat
  object : Nat
  pad_object : Nat
  deriving DecidableEq, Repr

/-- The locks held after one more is taken. -/
def Held.acquire (h : Held) (l : Lock) : Held :=
  match l with
  | Lock.STREAM_LOCK => { h with stream := h.stream + 1 }
  | Lock.LIVE_LOCK => { h with live := h.live + 1 }
  | Lock.OBJECT_LOCK => { h with object := h.object + 1 }
  | Lock.PAD_OBJECT_LOCK => { h with pad_object := h.pad_object + 1 }

/-- The locks held after one is released. -/
def Held.release (h : Held) (l : Lock) : Held :=
  match l with
  | Lock.STREAM_LOCK => { h with stream := h.stream - 1 }
  | Lock.LIVE_LOCK => { h with live := h.live - 1 }
  | Lock.OBJECT_LOCK => { h with object := h.object - 1 }
  | Lock.PAD_OBJECT_LOCK => { h with pad_object := h.pad_object - 1 }

/-- The locking order: the stream lock is not taken while the live lock or the
object lock of the element is held, the live lock is not taken while the
object lock of the element is held. -/
def lock_allowed (h : Held) (l : Lock) : Bool :=
  match l with
  | Lock.STREAM_LOCK => decide (h.live = 0) && decide (h.object = 0)
  | Lock.LIVE_LOCK => decide (h.object = 0)
  | Lock.OBJECT_LOCK => true
  | Lock.PAD_OBJECT_LOCK => true

/-- Every lock statement of the sequence keeps the locking order, for a thread
that holds `h` before the sequence. -/
def lock_order_ok (h : Held) (ops : List LockOp) : Bool :=
  match ops with
  | [] => true
  | LockOp.lock l :: rest => lock_allowed h l && lock_order_ok (h.acquire l) rest
  | LockOp.unlock l :: rest => lock_order_ok (h.release l) rest

/-- The locks held after the sequence. -/
def held_after (h : Held) (ops : List LockOp) : Held :=
  match ops with
  | [] => h
  | LockOp.lock l :: rest => held_after (h.acquire l) rest
  | LockOp.unlock l :: rest => held_after (h.release l) rest

/-- A sequence that keeps the locking order and gives back every lock it
takes, for a caller that holds neither the live lock nor the object lock of
the element. -/
def in_order_and_balanced (ops : List LockOp) : Prop :=
  ∀ n p : Nat, lock_order_ok ⟨n, 0, 0, p⟩ ops = true ∧ held_after ⟨n, 0, 0, p⟩ ops = ⟨n, 0, 0, p⟩

/-- The lock statements of the functions of the element that are called in the
file and whose bodies are not in it. -/
structure AbsentLocks where
  perform_seek : GstBaseIdleSrc → List LockOp
  is_async : GstBaseIdleSrc → List LockOp
  is_live : GstBaseIdleSrc → List LockOp
  set_playing : Bool → GstBaseIdleSrc → List LockOp
  update_length : GstBaseIdleSrc → List LockOp
  parent_change_state : GstStateChange → GstBaseIdleSrc → List LockOp

/-- Each of the absent functions keeps the locking order and gives back
every lock it takes. -/
def AbsentLocks.in_order (a : AbsentLocks) : Prop :=
  (∀ s, in_order_and_balanced (a.perform_seek s))
  ∧ (∀ s, in_order_and_balanced (a.is_async s))
  ∧ (∀ s, in_order_and_balanced (a.is_live s))
  ∧ (∀ b s, in_order_and_balanced (a.set_playing b s))
  ∧ (∀ s, in_order_and_balanced (a.update_length s))
  ∧ (∀ t s, in_order_and_balanced (a.parent_change_state t s))

/-- The lock statements of gst_base_idle_src_set_pool_flushing. -/
def set_pool_flushing_locks : List LockOp :=
  [LockOp.lock Lock.OBJECT_LOCK, LockOp.unlock Lock.OBJECT_LOCK]

/-- The lock statements of gst_base_idle_src_set_allocation. -/
def set_allocation_locks (e : Env) (pool : Option GstBufferPool) (s : GstBaseIdleSrc) :
    List LockOp :=
  let activated : Bool :=
    match pool with
    | some p => e.pool_set_active s p true
    | none => true
  if !activated then []
  else [LockOp.lock Lock.OBJECT_LOCK, LockOp.unlock Lock.OBJECT_LOCK]

/-- The lock statements of gst_base_idle_src_set_flushing. -/
def set_flushing_locks (flushing : Bool) (s : GstBaseIdleSrc) : List LockOp :=
  (if flushing then set_pool_flushing_locks else [])
  ++ [LockOp.lock Lock.LIVE_LOCK]
  ++ (if flushing then
        (if s.has_pending_eos then
          [LockOp.lock Lock.OBJECT_LOCK, LockOp.unlock Lock.OBJECT_LOCK]
        else [])
      else
        set_pool_flushing_locks
          ++ [LockOp.lock Lock.OBJECT_LOCK, LockOp.unlock Lock.OBJECT_LOCK])
  ++ [LockOp.unlock Lock.LIVE_LOCK]
  ++ (if !flushing then
        [LockOp.lock Lock.STREAM_LOCK, LockOp.unlock Lock.STREAM_LOCK]
      else [])

/-- The lock statements of gst_base_idle_src_stop. -/
def stop_locks (k : GstBaseIdleSrcClass) (e : Env) (s : GstBaseIdleSrc) : List LockOp :=
  let s1 := (gst_base_idle_src_set_flushing k true s).2
  let s2 := s1.log Call.pad_stop_task
  let s3 := (gst_base_idle_src_set_flushing k false s2).2
  set_flushing_locks true s ++ set_flushing_locks false s2
  ++ [LockOp.lock Lock.OBJECT_LOCK]
  ++ (if !s3.flag_started && !s3.flag_starting then
        [LockOp.unlock Lock.OBJECT_LOCK]
      else
        let s4 := { s3 with
          flag_starting := false
          flag_started := false
          start_result := GST_FLOW_FLUSHING }
        let s5 : GstBaseIdleSrc :=
          match k.stop with
          | some _ => s4.log Call.hook_stop
          | none => s4
        let s6 := if s5.pending_bufferlist != none then
          { s5 with pending_bufferlist := none } else s5
        [LockOp.unlock Lock.OBJECT_LOCK] ++ set_allocation_locks e none s6)

/-- The lock statements of gst_base_idle_src_start_complete. -/
def start_complete_locks (k : GstBaseIdleSrcClass) (e : Env) (a : AbsentLocks)
    (ret : GstFlowReturn) (s : GstBaseIdleSrc) : List LockOp :=
  let error : List LockOp := [LockOp.lock Lock.OBJECT_LOCK, LockOp.unlock Lock.OBJECT_LOCK]
  if ret ≠ GST_FLOW_OK then error
  else
    let s4 := start_complete_setup k s
    let fail (t : GstBaseIdleSrc) : List LockOp :=
      [LockOp.unlock Lock.STREAM_LOCK] ++ stop_locks k e t ++ error
    let done : List LockOp :=
      [LockOp.lock Lock.OBJECT_LOCK, LockOp.unlock Lock.OBJECT_LOCK,
        LockOp.unlock Lock.STREAM_LOCK]
    (if s.segment.format = GST_FORMAT_BYTES then
        [LockOp.lock Lock.OBJECT_LOCK, LockOp.unlock Lock.OBJECT_LOCK]
      else [])
    ++ [LockOp.lock Lock.PAD_OBJECT_LOCK, LockOp.unlock Lock.PAD_OBJECT_LOCK]
    ++ [LockOp.lock Lock.STREAM_LOCK]
    ++ (match s4.pad_mode with
        | GST_PAD_MODE_PUSH =>
          let sought := start_complete_seek e s4
          [LockOp.lock Lock.OBJECT_LOCK, LockOp.unlock Lock.OBJECT_LOCK]
          ++ a.perform_seek { s4 with pending_seek := none }
          ++ (if !sought.1 then fail sought.2 else done)
        | GST_PAD_MODE_PULL =>
          if !s4.random_access then fail s4 else done
        | GST_PAD_MODE_NONE => fail s4)

/-- The lock statements of gst_base_idle_src_start_wait; `wakeups` is the
number of times the wait on the condition variable, which releases the object
lock and takes it again, comes back while the Starting bit is set. -/
def start_wait_locks (wakeups : Nat) (s : GstBaseIdleSrc) : List LockOp :=
  [LockOp.lock Lock.OBJECT_LOCK]
  ++ (if s.flag_starting then
        (List.replicate wakeups
          [LockOp.unlock Lock.OBJECT_LOCK, LockOp.lock Lock.OBJECT_LOCK]).flatten
      else [])
  ++ [LockOp.unlock Lock.OBJECT_LOCK]

/-- The lock statements of gst_base_idle_src_start. -/
def start_locks (k : GstBaseIdleSrcClass) (e : Env) (a : AbsentLocks)
    (s : GstBaseIdleSrc) : List LockOp :=
  [LockOp.lock Lock.LIVE_LOCK, LockOp.lock Lock.OBJECT_LOCK]
  ++ (if s.flag_starting then
        [LockOp.unlock Lock.OBJECT_LOCK, LockOp.unlock Lock.LIVE_LOCK]
      else if s.flag_started then
        [LockOp.unlock Lock.OBJECT_LOCK, LockOp.unlock Lock.LIVE_LOCK]
      else
        let s2 := start_prepare e s
        let started : Bool × GstBaseIdleSrc :=
          match k.start with
          | some h => (h s2, s2.log Call.hook_start)
          | none => (true, s2)
        [LockOp.unlock Lock.OBJECT_LOCK, LockOp.unlock Lock.LIVE_LOCK]
        ++ (if !started.1 then
              start_complete_locks k e a GST_FLOW_ERROR (started.2.log Call.element_error)
            else
              a.is_async started.2
              ++ (if !gst_base_idle_src_is_async started.2 then
                    start_complete_locks k e a GST_FLOW_OK started.2
                    ++ start_wait_locks 0
                        (gst_base_idle_src_start_complete k e GST_FLOW_OK started.2)
                  else [])))

/-- The lock statements of gst_base_idle_src_send_event. -/
def send_event_locks (k : GstBaseIdleSrcClass) (event : GstEvent)
    (s : GstBaseIdleSrc) : List LockOp :=
  match event.type with
  | GST_EVENT_FLUSH_START =>
    set_flushing_locks true (s.log (Call.pad_push_event event))
  | GST_EVENT_FLUSH_STOP =>
    [LockOp.lock Lock.STREAM_LOCK]
    ++ set_flushing_locks false s
    ++ [LockOp.lock Lock.LIVE_LOCK,
        LockOp.lock Lock.PAD_OBJECT_LOCK, LockOp.unlock Lock.PAD_OBJECT_LOCK,
        LockOp.unlock Lock.LIVE_LOCK, LockOp.unlock Lock.STREAM_LOCK]
  | GST_EVENT_EOS =>
    [LockOp.lock Lock.PAD_OBJECT_LOCK, LockOp.unlock Lock.PAD_OBJECT_LOCK]
    ++ (if decide (s.pad_mode = GST_PAD_MODE_PUSH) then
          set_flushing_locks true s
          ++ [LockOp.lock Lock.STREAM_LOCK]
          ++ set_flushing_locks false (gst_base_idle_src_set_flushing k true s).2
          ++ [LockOp.lock Lock.OBJECT_LOCK, LockOp.unlock Lock.OBJECT_LOCK,
              LockOp.unlock Lock.STREAM_LOCK]
        else
          [LockOp.lock Lock.OBJECT_LOCK, LockOp.unlock Lock.OBJECT_LOCK]
          ++ set_pool_flushing_locks
          ++ [LockOp.lock Lock.STREAM_LOCK]
          ++ set_pool_flushing_locks
          ++ [LockOp.unlock Lock.STREAM_LOCK])
  | GST_EVENT_TAG | GST_EVENT_SINK_MESSAGE | GST_EVENT_CUSTOM_DOWNSTREAM
  | GST_EVENT_CUSTOM_BOTH | GST_EVENT_PROTECTION =>
    [LockOp.lock Lock.OBJECT_LOCK, LockOp.unlock Lock.OBJECT_LOCK]
  | _ => []

/-- The lock statements of gst_base_idle_src_negotiate with
gst_base_idle_src_negotiate_unlocked and gst_base_idle_src_prepare_allocation:
`negotiated` is the answer of the negotiate hook (TRUE without a hook),
`decided` that of the decide_allocation hook, `pool` the pool of the
allocation query. -/
def negotiate_locks (e : Env) (negotiated decided : Bool) (pool : Option GstBufferPool)
    (s : GstBaseIdleSrc) : List LockOp :=
  [LockOp.lock Lock.STREAM_LOCK]
  ++ (if negotiated then
        (if !decided then [] else set_allocation_locks e pool s)
      else [])
  ++ [LockOp.unlock Lock.STREAM_LOCK]

/-- The lock statements of gst_base_idle_src_new_segment: the object lock is
taken at the start and released on each of the three ways out. -/
def new_segment_locks (segment : GstSegment) (s : GstBaseIdleSrc) : List LockOp :=
  [LockOp.lock Lock.OBJECT_LOCK]
  ++ (if s.segment.format = GST_FORMAT_UNDEFINED then [LockOp.unlock Lock.OBJECT_LOCK]
      else if s.segment.format ≠ segment.format then [LockOp.unlock Lock.OBJECT_LOCK]
      else [LockOp.unlock Lock.OBJECT_LOCK])

/-- GstQueryType of the GStreamer core (gstquery.h). -/
inductive GstQueryType
  | GST_QUERY_UNKNOWN
  | GST_QUERY_POSITION
  | GST_QUERY_DURATION
  | GST_QUERY_LATENCY
  | GST_QUERY_JITTER
  | GST_QUERY_RATE
  | GST_QUERY_SEEKING
  | GST_QUERY_SEGMENT
  | GST_QUERY_CONVERT
  | GST_QUERY_FORMATS
  | GST_QUERY_BUFFERING
  | GST_QUERY_CUSTOM
  | GST_QUERY_URI
  | GST_QUERY_ALLOCATION
  | GST_QUERY_SCHEDULING
  | GST_QUERY_ACCEPT_CAPS
  | GST_QUERY_CAPS
  | GST_QUERY_DRAIN
  | GST_QUERY_CONTEXT
  | GST_QUERY_BITRATE
  deriving DecidableEq, Repr

/-- The lock statements of gst_base_idle_src_default_query, with those of
gst_base_idle_src_query_latency, for a query of type `type` in the format
`format`. -/
def default_query_locks (a : AbsentLocks) (type : GstQueryType) (format : GstFormat)
    (s : GstBaseIdleSrc) : List LockOp :=
  match type with
  | GstQueryType.GST_QUERY_POSITION =>
    [LockOp.lock Lock.OBJECT_LOCK, LockOp.unlock Lock.OBJECT_LOCK]
  | GstQueryType.GST_QUERY_DURATION =>
    if format = GST_FORMAT_PERCENT then []
    else a.update_length s ++ [LockOp.lock Lock.OBJECT_LOCK, LockOp.unlock Lock.OBJECT_LOCK]
  | GstQueryType.GST_QUERY_SEGMENT =>
    [LockOp.lock Lock.OBJECT_LOCK, LockOp.unlock Lock.OBJECT_LOCK]
  | GstQueryType.GST_QUERY_LATENCY =>
    [LockOp.lock Lock.OBJECT_LOCK, LockOp.unlock Lock.OBJECT_LOCK]
  | GstQueryType.GST_QUERY_BUFFERING =>
    [LockOp.lock Lock.OBJECT_LOCK, LockOp.unlock Lock.OBJECT_LOCK]
  | _ => []

/-- The lock statements of gst_base_idle_src_change_state. -/
def change_state_locks (e : Env) (a : AbsentLocks) (transition : GstStateChange)
    (s : GstBaseIdleSrc) : List LockOp :=
  let pre : List LockOp × GstBaseIdleSrc :=
    match transition with
    | GST_STATE_CHANGE_READY_TO_PAUSED => (a.is_live s, s)
    | GST_STATE_CHANGE_PAUSED_TO_PLAYING =>
      if gst_base_idle_src_is_live s then
        (a.is_live s ++ a.set_playing true s, (gst_base_idle_src_set_playing true s).2)
      else (a.is_live s, s)
    | _ => ([], s)
  let parent := e.parent_change_state pre.2 transition
  let s1 := { pre.2.log (Call.parent_change_state transition) with pad_mode := parent.2 }
  pre.1 ++ a.parent_change_state transition pre.2
  ++ (if parent.1 = GST_STATE_CHANGE_FAILURE then []
      else
        match transition with
        | GST_STATE_CHANGE_PLAYING_TO_PAUSED =>
          if gst_base_idle_src_is_live s1 then a.is_live s1 ++ a.set_playing false s1
          else a.is_live s1
        | GST_STATE_CHANGE_PAUSED_TO_READY =>
          if s1.has_pending_eos then
            [LockOp.lock Lock.OBJECT_LOCK, LockOp.unlock Lock.OBJECT_LOCK]
          else []
        | _ => [])

/-- An example of lock statements for the absent functions: is_async and
is_live read a member under the object lock, set_playing works under the live
lock, the seek takes the stream lock around the end of a flush. -/
def demo_absent_locks : AbsentLocks :=
  { perform_seek := fun s =>
      [LockOp.lock Lock.STREAM_LOCK] ++ set_flushing_locks false s
        ++ [LockOp.unlock Lock.STREAM_LOCK]
    is_async := fun _ => [LockOp.lock Lock.OBJECT_LOCK, LockOp.unlock Lock.OBJECT_LOCK]
    is_live := fun _ => [LockOp.lock Lock.OBJECT_LOCK, LockOp.unlock Lock.OBJECT_LOCK]
    set_playing := fun _ _ =>
      [LockOp.lock Lock.LIVE_LOCK, LockOp.lock Lock.OBJECT_LOCK,
        LockOp.unlock Lock.OBJECT_LOCK, LockOp.unlock Lock.LIVE_LOCK]
    update_length := fun _ => []
    parent_change_state := fun _ _ => [] }

/-! ## Members that are written together -/

/-- The members of the pending EOS agree: forced_eos, which the file only ever
assigns FALSE, is not set, and a pending_eos payload is stored only while
has_pending_eos is set (the two are written together in
gst_base_idle_src_send_event and cleared together by CLEAR_PENDING_EOS). -/
def eos_consistent (s : GstBaseIdleSrc) : Prop :=
  s.forced_eos = false ∧ (s.has_pending_eos = false → s.pending_eos = none)

/-- The members of the event queue agree: have_events is set only while
pending_events holds an event (it is set together with g_list_append in
gst_base_idle_src_send_event and cleared together with the queue). -/
def events_consistent (s : GstBaseIdleSrc) : Prop :=
  s.have_events = true → s.pending_events ≠ []

/-! ## Sequences of calls -/

/-- A call of one of the entry points of the element. -/
inductive Op
  | start
  | start_complete (ret : GstFlowReturn)
  | start_wait
  | stop
  | set_flushing (flushing : Bool)
  | send_event (event : GstEvent)
  | change_state (transition : GstStateChange)
  deriving DecidableEq, Repr

/-- The element after one call; `none` when the call does not return. -/
def step (k : GstBaseIdleSrcClass) (e : Env) (op : Op) (s : GstBaseIdleSrc) :
    Option GstBaseIdleSrc :=
  match op with
  | Op.start => (gst_base_idle_src_start k e s).map Prod.snd
  | Op.start_complete ret => some (gst_base_idle_src_start_complete k e ret s)
  | Op.start_wait => (gst_base_idle_src_start_wait s).map Prod.snd
  | Op.stop => some (gst_base_idle_src_stop k e s).2
  | Op.set_flushing flushing => some (gst_base_idle_src_set_flushing k flushing s).2
  | Op.send_event event => some (gst_base_idle_src_send_event k e event s).2
  | Op.change_state transition => some (gst_base_idle_src_change_state e transition s).2

/-- The element after a sequence of calls, each made after the previous one
returned; `none` when one of them does not return. -/
def run (k : GstBaseIdleSrcClass) (e : Env) (ops : List Op) (s : GstBaseIdleSrc) :
    Option GstBaseIdleSrc :=
  match ops with
  | [] => some s
  | op :: rest =>
    match step k e op s with
    | some s1 => run k e rest s1
    | none => none

/-- The three lifecycle states of the data model. -/
inductive LifecycleState
  | Stopped
  | Starting
  | Started
  deriving DecidableEq, Repr

/-- The lifecycle state read off the two flag bits: Starting while the
Starting bit is set (the bit gst_base_idle_src_start and start_wait test
first), Started when only the Started bit is set, Stopped with no bit. -/
def lifecycle (s : GstBaseIdleSrc) : LifecycleState :=
  if s.flag_starting then LifecycleState.Starting
  else if s.flag_started then LifecycleState.Started
  else LifecycleState.Stopped

/-- The transitions the data model allows, staying included. -/
def allowed_transition (a b : LifecycleState) : Bool :=
  match a, b with
  | LifecycleState.Stopped, LifecycleState.Stopped => true
  | LifecycleState.Starting, LifecycleState.Starting => true
  | LifecycleState.Started, LifecycleState.Started => true
  | LifecycleState.Stopped, LifecycleState.Starting => true
  | LifecycleState.Starting, LifecycleState.Started => true
  | LifecycleState.Started, LifecycleState.Stopped => true
  | LifecycleState.Starting, LifecycleState.Stopped => true
  | _, _ => false

/-! ## Concrete class, environment and elements used as instances -/

/-- A subclass with every virtual method present: start and stop succeed, the
size 1000 is known, the resource is seekable. -/
def demo_class : GstBaseIdleSrcClass :=
  { start := some (fun _ => true)
    stop := some (fun _ => true)
    get_size := some (fun _ => (true, 1000))
    is_seekable := some (fun _ => true)
    unlock := some (fun _ => true)
    unlock_stop := some (fun _ => true) }

/-- A subclass whose start fails and that has no other virtual method. -/
def failing_class : GstBaseIdleSrcClass :=
  { start := some (fun _ => false)
    stop := none
    get_size := none
    is_seekable := none
    unlock := none
    unlock_stop := none }

/-- An environment in which every outside call succeeds and changes nothing;
the parent class activates the pad in push mode. -/
def demo_env : Env :=
  { perform_seek := fun s _ _ => (true, s)
    util_seqnum_next := fun _ => 7
    pad_push_event := fun _ _ => true
    pool_set_active := fun _ _ _ => true
    parent_change_state := fun _ _ => (GST_STATE_CHANGE_SUCCESS, GST_PAD_MODE_PUSH) }

/-- The freshly initialised element with the defaults of GstBaseSrc. -/
def demo_init : GstBaseIdleSrc :=
  gst_base_idle_src_init (-1) 4096

/-- A started element. -/
def demo_started : GstBaseIdleSrc :=
  { demo_init with flag_started := true, start_result := GST_FLOW_OK,
                   pad_mode := GST_PAD_MODE_PUSH }

/-- An element in the Starting state whose pad is not activated. -/
def demo_starting : GstBaseIdleSrc :=
  { demo_init with flag_starting := true }

/-- A stopped element whose pad is activated in pull mode. -/
def demo_pull_stopped : GstBaseIdleSrc :=
  { demo_init with pad_mode := GST_PAD_MODE_PULL }

/-- A stopped element that holds a pending buffer list, a pool and an
allocator. -/
def demo_stopped_with_resources : GstBaseIdleSrc :=
  { demo_init with pending_bufferlist := some 5, pool := some 3, allocator := some 4 }

/-- A started element that holds a pending buffer list, a pool and an
allocator, with an EOS pending and two events queued. -/
def demo_started_with_resources : GstBaseIdleSrc :=
  { demo_started with
    pending_bufferlist := some 5, pool := some 3, allocator := some 4
    has_pending_eos := true, pending_eos := some ⟨GST_EVENT_EOS, 1⟩, forced_eos := true
    pending_events := [⟨GST_EVENT_TAG, 2⟩, ⟨GST_EVENT_PROTECTION, 3⟩], have_events := true }

/-- A live source whose pad is in push mode and that is playing. -/
def demo_live_playing : GstBaseIdleSrc :=
  { demo_started with is_live := true, live_running := true }

/-- An environment whose parent class answers GST_STATE_CHANGE_NO_PREROLL. -/
def no_preroll_env : Env :=
  { demo_env with
    parent_change_state := fun _ _ => (GST_STATE_CHANGE_NO_PREROLL, GST_PAD_MODE_PUSH) }

/-- A segment in TIME format. -/
def demo_time_segment : GstSegment :=
  { gst_segment_init GST_FORMAT_TIME with start := 10, stop := 20, position := 10 }

/-- A segment in BYTES format. -/
def demo_bytes_segment : GstSegment :=
  { gst_segment_init GST_FORMAT_BYTES with start := 10, stop := 20, position := 10 }

/-- A stopped element with a pool whose pad is in pull mode. -/
def demo_pull_with_pool : GstBaseIdleSrc :=
  { demo_init with pad_mode := GST_PAD_MODE_PULL, pool := some 3 }

/-- An element with position 250 and duration 1000. -/
def demo_quarter : GstBaseIdleSrc :=
  { demo_init with segment := { demo_init.segment with position := 250, duration := 1000 } }

/-- An environment in which the activation of a pool fails. -/
def failing_pool_env : Env :=
  { demo_env with pool_set_active := fun _ _ _ => false }

/-! ## Equations for the flushing and allocation helpers -/

theorem set_pool_flushing_eq (b : Bool) (s : GstBaseIdleSrc) :
    gst_base_idle_src_set_pool_flushing b s =
      { s with trace := s.trace ++ (s.pool.map (Call.pool_set_flushing · b)).toList } := by
  rcases s with ⟨_, _, _, _, _, _, _, _, _, _, _, _, _, _, _, _, _, _, _, _, _, _,
    _, _, _, _, _, _, pool, _, _, _, _⟩
  cases pool <;> simp [gst_base_idle_src_set_pool_flushing, log]

theorem set_flushing_true_eq (k : GstBaseIdleSrcClass) (s : GstBaseIdleSrc) :
    gst_base_idle_src_set_flushing k true s = (true, { s with
      flushing := true
      has_pending_eos := false
      pending_eos := if s.has_pending_eos then none else s.pending_eos
      forced_eos := s.forced_eos && !s.has_pending_eos
      trace := s.trace ++ ((s.pool.map (Call.pool_set_flushing · true)).toList
        ++ ((k.unlock.map (fun _ => Call.hook_unlock)).toList
        ++ (s.clock_id.map Call.clock_id_unschedule).toList)) }) := by
  rcases k with ⟨_, _, _, _, unlock, _⟩
  rcases s with ⟨_, _, _, _, _, _, _, _, clock_id, _, _, _, _, _, _, _, _, _, _, _, _, _,
    has_pending_eos, _, _, _, _, _, pool, _, _, _, _⟩
  cases unlock <;> cases clock_id <;> cases has_pending_eos <;> cases pool <;>
    simp [gst_base_idle_src_set_flushing, gst_base_idle_src_set_pool_flushing,
      CLEAR_PENDING_EOS, log]

theorem set_flushing_false_eq (k : GstBaseIdleSrcClass) (s : GstBaseIdleSrc) :
    gst_base_idle_src_set_flushing k false s = (true, { s with
      flushing := false
      pending_events := []
      have_events := s.have_events && s.pending_events.isEmpty
      trace := s.trace ++ ((s.pool.map (Call.pool_set_flushing · false)).toList
        ++ (k.unlock_stop.map (fun _ => Call.hook_unlock_stop)).toList) }) := by
  rcases k with ⟨_, _, _, _, _, unlock_stop⟩
  rcases s with ⟨_, _, _, _, _, _, _, _, _, _, _, _, _, _, _, _, _, _, _, _, _, _,
    _, _, _, _, pending_events, _, pool, _, _, _, _⟩
  cases unlock_stop <;> cases pending_events <;> cases pool <;>
    simp [gst_base_idle_src_set_flushing, gst_base_idle_src_set_pool_flushing, log]

theorem set_allocation_none_eq (e : Env) (s : GstBaseIdleSrc) :
    gst_base_idle_src_set_allocation e none none none s = (true, { s with
      pool := none
      allocator := none
      params := gst_allocation_params_init
      trace := s.trace ++ (s.pool.map (Call.pool_set_active · false)).toList }) := by
  rcases s with ⟨_, _, _, _, _, _, _, _, _, _, _, _, _, _, _, _, _, _, _, _, _, _,
    _, _, _, _, _, _, pool, _, _, _, _⟩
  cases pool <;> simp [gst_base_idle_src_set_allocation, log]

/-- The element after gst_base_idle_src_stop, up to the trace. -/
theorem stop_frame (k : GstBaseIdleSrcClass) (e : Env) (s : GstBaseIdleSrc) :
    ∃ tr, (gst_base_idle_src_stop k e s).2 =
      if s.flag_starting || s.flag_started then
        { s with
          flag_starting := false
          flag_started := false
          start_result := GST_FLOW_FLUSHING
          flushing := false
          has_pending_eos := false
          pending_eos := if s.has_pending_eos then none else s.pending_eos
          forced_eos := s.forced_eos && !s.has_pending_eos
          pending_events := []
          have_events := s.have_events && s.pending_events.isEmpty
          pending_bufferlist := none
          pool := none
          allocator := none
          params := gst_allocation_params_init
          trace := tr }
      else
        { s with
          flushing := false
          has_pending_eos := false
          pending_eos := if s.has_pending_eos then none else s.pending_eos
          forced_eos := s.forced_eos && !s.has_pending_eos
          pending_events := []
          have_events := s.have_events && s.pending_events.isEmpty
          trace := tr } := by
  rcases k with ⟨_, stop, _, _, _, _⟩
  rcases s with ⟨flag_starting, flag_started, _, _, _, _, _, _, _, _, _, _, _, _, _, _, _,
    _, _, _, _, _, _, _, _, _, _, _, _, _, _, pending_bufferlist, _⟩
  cases flag_starting <;> cases flag_started <;> cases stop <;> cases pending_bufferlist <;>
    exact ⟨_, by simp [gst_base_idle_src_stop, set_flushing_true_eq, set_flushing_false_eq,
      set_allocation_none_eq, log]; rfl⟩

theorem stop_flag_starting (k : GstBaseIdleSrcClass) (e : Env) (s : GstBaseIdleSrc) :
    (gst_base_idle_src_stop k e s).2.flag_starting = false := by
  obtain ⟨tr, h⟩ := stop_frame k e s
  rw [h]
  split
  · rfl
  · rename_i hf
    simp at hf
    exact hf.1

theorem stop_flag_started (k : GstBaseIdleSrcClass) (e : Env) (s : GstBaseIdleSrc) :
    (gst_base_idle_src_stop k e s).2.flag_started = false := by
  obtain ⟨tr, h⟩ := stop_frame k e s
  rw [h]
  split
  · rfl
  · rename_i hf
    simp at hf
    exact hf.2

theorem stop_flushing (k : GstBaseIdleSrcClass) (e : Env) (s : GstBaseIdleSrc) :
    (gst_base_idle_src_stop k e s).2.flushing = false := by
  obtain ⟨tr, h⟩ := stop_frame k e s
  rw [h]
  split <;> rfl

theorem stop_start_result (k : GstBaseIdleSrcClass) (e : Env) (s : GstBaseIdleSrc) :
    (gst_base_idle_src_stop k e s).2.start_result =
      if s.flag_starting || s.flag_started then GST_FLOW_FLUSHING else s.start_result := by
  obtain ⟨tr, h⟩ := stop_frame k e s
  rw [h]
  split <;> rfl

/-- The failure exit of start_complete: stop, then the label `error`. -/
theorem start_complete_fail_fields (k : GstBaseIdleSrcClass) (e : Env) (t : GstBaseIdleSrc) :
    (start_complete_error GST_FLOW_ERROR (gst_base_idle_src_stop k e t).2).flag_starting = false
    ∧ (start_complete_error GST_FLOW_ERROR (gst_base_idle_src_stop k e t).2).flag_started = false
    ∧ (start_complete_error GST_FLOW_ERROR (gst_base_idle_src_stop k e t).2).start_result
        = GST_FLOW_ERROR := by
  refine ⟨rfl, ?_, rfl⟩
  exact stop_flag_started k e t

/-- The two ways gst_base_idle_src_start_complete (GST_FLOW_OK) ends. -/
theorem start_complete_ok_cases (k : GstBaseIdleSrcClass) (e : Env) (s : GstBaseIdleSrc) :
    let s' := gst_base_idle_src_start_complete k e GST_FLOW_OK s
    s'.flag_starting = false ∧
    ((s'.flag_started = true ∧ s'.start_result = GST_FLOW_OK)
      ∨ (s'.flag_started = false ∧ s'.start_result = GST_FLOW_ERROR)) := by
  intro s'
  have hf := start_complete_fail_fields k e
  simp only [s', gst_base_idle_src_start_complete]
  simp only [ne_eq, not_true_eq_false, if_false]
  split
  · split
    · exact ⟨(hf _).1, Or.inr ⟨(hf _).2.1, (hf _).2.2⟩⟩
    · exact ⟨rfl, Or.inl ⟨rfl, rfl⟩⟩
  · split
    · exact ⟨(hf _).1, Or.inr ⟨(hf _).2.1, (hf _).2.2⟩⟩
    · exact ⟨rfl, Or.inl ⟨rfl, rfl⟩⟩
  · exact ⟨(hf _).1, Or.inr ⟨(hf _).2.1, (hf _).2.2⟩⟩

theorem start_complete_flag_starting (k : GstBaseIdleSrcClass) (e : Env)
    (ret : GstFlowReturn) (s : GstBaseIdleSrc) :
    (gst_base_idle_src_start_complete k e ret s).flag_starting = false := by
  by_cases h : ret = GST_FLOW_OK
  · subst h
    exact (start_complete_ok_cases k e s).1
  · simp [gst_base_idle_src_start_complete, h, start_complete_error]

theorem start_complete_not_ok (k : GstBaseIdleSrcClass) (e : Env)
    (ret : GstFlowReturn) (s : GstBaseIdleSrc) (h : ret ≠ GST_FLOW_OK) :
    gst_base_idle_src_start_complete k e ret s
      = { s with start_result := ret, flag_starting := false } := by
  simp [gst_base_idle_src_start_complete, h, start_complete_error]

/-- After the subclass start has answered, gst_base_idle_src_start returns. -/
theorem start_finish_returns (k : GstBaseIdleSrcClass) (e : Env) (result : Bool)
    (s : GstBaseIdleSrc) (hs : s.flag_starting = true) :
    ∃ b s', start_finish k e result s = some (b, s') ∧
      (s'.flag_starting = true → s'.start_result = s.start_result) ∧
      (s'.flag_starting = false → s'.flag_started = false → s'.start_result ≠ GST_FLOW_OK) := by
  unfold start_finish
  cases result
  · refine ⟨false, gst_base_idle_src_start_complete k e GST_FLOW_ERROR
      (s.log Call.element_error), by simp, ?_, ?_⟩
    · intro h; rw [start_complete_flag_starting] at h; cases h
    · intro _ _
      rw [start_complete_not_ok _ _ _ _ (by decide)]
      simp
  · simp only [Bool.not_true, Bool.false_eq_true, if_false]
    by_cases ha : gst_base_idle_src_is_async s = true
    · refine ⟨true, s, by simp [ha], fun _ => rfl, ?_⟩
      intro h; rw [hs] at h; cases h
    · have hc := start_complete_ok_cases k e s
      simp only at hc
      refine ⟨decide ((gst_base_idle_src_start_complete k e GST_FLOW_OK s).start_result
        = GST_FLOW_OK), gst_base_idle_src_start_complete k e GST_FLOW_OK s, ?_, ?_, ?_⟩
      · simp [ha, gst_base_idle_src_start_wait, hc.1]
      · intro h; rw [hc.1] at h; cases h
      · intro _ h2
        rcases hc.2 with h | h
        · rw [h.1] at h2; cases h2
        · rw [h.2]; decide

/-- The function gst_base_idle_src_start returns on every element. -/
theorem start_returns (k : GstBaseIdleSrcClass) (e : Env) (s : GstBaseIdleSrc) :
    ∃ b s', gst_base_idle_src_start k e s = some (b, s') ∧
      (s'.flag_starting = true → s'.start_result ≠ GST_FLOW_OK ∨ s' = s) ∧
      (s'.flag_starting = false → s'.flag_started = false → s'.start_result ≠ GST_FLOW_OK) := by
  unfold gst_base_idle_src_start
  by_cases h1 : s.flag_starting = true
  · refine ⟨true, s, by simp [h1], fun _ => Or.inr rfl, ?_⟩
    intro h; rw [h1] at h; cases h
  · by_cases h2 : s.flag_started = true
    · refine ⟨true, s, by simp [h1, h2], fun _ => Or.inr rfl, ?_⟩
      intro _ h; rw [h2] at h; cases h
    · simp only [h1, h2, if_false]
      have key : ∀ result t, t.flag_starting = true → t.start_result = GST_FLOW_FLUSHING →
          ∃ b s', start_finish k e result t = some (b, s') ∧
            (s'.flag_starting = true → s'.start_result ≠ GST_FLOW_OK ∨ s' = s) ∧
            (s'.flag_starting = false → s'.flag_started = false →
              s'.start_result ≠ GST_FLOW_OK) := by
        intro result t ht hr
        obtain ⟨b, s', hb, hp, hq⟩ := start_finish_returns k e result t ht
        refine ⟨b, s', hb, ?_, hq⟩
        intro hs'
        left
        rw [hp hs', hr]
        decide
      cases hk : k.start with
      | some h =>
        exact key (h (start_prepare e s)) ((start_prepare e s).log Call.hook_start) rfl rfl
      | none => exact key true (start_prepare e s) rfl rfl

/-! ## The claims -/

/-- C1: when the Starting flag or the Started flag is set, gst_base_idle_src_start
returns TRUE and the element, trace of outside calls included, is unchanged: no
subclass start is invoked and no member is written. -/
theorem start_is_noop_when_starting_or_started (k : GstBaseIdleSrcClass) (e : Env)
    (s : GstBaseIdleSrc) (h : s.flag_starting = true ∨ s.flag_started = true) :
    gst_base_idle_src_start k e s = some (true, s) := by
  unfold gst_base_idle_src_start
  rcases h with h | h
  · simp [h]
  · simp [h]

/-- Instance of C1 on a started element. -/
theorem start_is_noop_when_starting_or_started_witness :
    (demo_started.flag_starting = true ∨ demo_started.flag_started = true)
    ∧ gst_base_idle_src_start demo_class demo_env demo_started = some (true, demo_started) :=
  ⟨Or.inr rfl, start_is_noop_when_starting_or_started demo_class demo_env demo_started (Or.inr rfl)⟩

/-- C2: after gst_base_idle_src_stop, whatever the subclass methods answer,
neither lifecycle flag is set and flushing is false; when Starting or Started was
set before, the recorded start_result is GST_FLOW_FLUSHING.  The sequence start,
stop, start, stop from the initial element, whatever the subclass configured for
async and live, returns and ends Stopped with a start_result other than
GST_FLOW_OK. -/
theorem stop_postcondition (k : GstBaseIdleSrcClass) (e : Env) (s : GstBaseIdleSrc) :
    (gst_base_idle_src_stop k e s).2.flag_starting = false
    ∧ (gst_base_idle_src_stop k e s).2.flag_started = false
    ∧ (gst_base_idle_src_stop k e s).2.flushing = false
    ∧ ((s.flag_starting = true ∨ s.flag_started = true) →
        (gst_base_idle_src_stop k e s).2.start_result = GST_FLOW_FLUSHING)
    ∧ (∀ (nb : Int) (bs : Nat) (async live : Bool), ∃ s',
        run k e [Op.start, Op.stop, Op.start, Op.stop]
          { gst_base_idle_src_init nb bs with async := async, is_live := live } = some s'
        ∧ lifecycle s' = LifecycleState.Stopped
        ∧ s'.start_result ≠ GST_FLOW_OK) := by
  refine ⟨stop_flag_starting k e s, stop_flag_started k e s, stop_flushing k e s, ?_, ?_⟩
  · intro h
    rw [stop_start_result]
    rcases h with h | h <;> simp [h]
  · intro nb bs async live
    obtain ⟨b1, s1, h1, -, -⟩ := start_returns k e
      { gst_base_idle_src_init nb bs with async := async, is_live := live }
    obtain ⟨b3, s3, h3, hp, hq⟩ := start_returns k e (gst_base_idle_src_stop k e s1).2
    refine ⟨(gst_base_idle_src_stop k e s3).2, ?_, ?_, ?_⟩
    · simp [run, step, h1, h3]
    · simp [lifecycle, stop_flag_starting, stop_flag_started]
    · rw [stop_start_result]
      split
      · decide
      · rename_i hf
        simp at hf
        exact hq hf.1 hf.2

/-- Instance of C2 on a started element. -/
theorem stop_postcondition_witness :
    (demo_started.flag_starting = true ∨ demo_started.flag_started = true)
    ∧ (gst_base_idle_src_stop demo_class demo_env demo_started).2.start_result
        = GST_FLOW_FLUSHING :=
  ⟨Or.inr rfl, (stop_postcondition demo_class demo_env demo_started).2.2.2.1 (Or.inr rfl)⟩

/-- C3: on an element with neither Starting nor Started set,
gst_base_idle_src_stop returns TRUE, the calls it adds to the trace do not
include the subclass stop, and the lifecycle flags, start_result, pending buffer
list, pool, allocator and allocation parameters are unchanged.  On every element
a second stop leaves every member as the first stop left it; only the trace of
outside calls grows. -/
theorem stop_is_idempotent (k : GstBaseIdleSrcClass) (e : Env) (s : GstBaseIdleSrc) :
    ((s.flag_starting = false ∧ s.flag_started = false) →
      (gst_base_idle_src_stop k e s).1 = true
      ∧ (∃ calls, (gst_base_idle_src_stop k e s).2.trace = s.trace ++ calls
          ∧ Call.hook_stop ∉ calls)
      ∧ (gst_base_idle_src_stop k e s).2.flag_starting = s.flag_starting
      ∧ (gst_base_idle_src_stop k e s).2.flag_started = s.flag_started
      ∧ (gst_base_idle_src_stop k e s).2.start_result = s.start_result
      ∧ (gst_base_idle_src_stop k e s).2.pending_bufferlist = s.pending_bufferlist
      ∧ (gst_base_idle_src_stop k e s).2.pool = s.pool
      ∧ (gst_base_idle_src_stop k e s).2.allocator = s.allocator
      ∧ (gst_base_idle_src_stop k e s).2.params = s.params)
    ∧ (gst_base_idle_src_stop k e (gst_base_idle_src_stop k e s).2).2
        = { (gst_base_idle_src_stop k e s).2 with
            trace := (gst_base_idle_src_stop k e (gst_base_idle_src_stop k e s).2).2.trace } := by
  constructor
  · rintro ⟨h1, h2⟩
    have hs : gst_base_idle_src_stop k e s = (true, { s with
        flushing := false
        has_pending_eos := false
        pending_eos := if s.has_pending_eos then none else s.pending_eos
        forced_eos := s.forced_eos && !s.has_pending_eos
        pending_events := []
        have_events := s.have_events && s.pending_events.isEmpty
        trace := s.trace ++ ((s.pool.map (Call.pool_set_flushing · true)).toList
          ++ ((k.unlock.map (fun _ => Call.hook_unlock)).toList
          ++ ((s.clock_id.map Call.clock_id_unschedule).toList
          ++ ([Call.pad_stop_task]
          ++ ((s.pool.map (Call.pool_set_flushing · false)).toList
          ++ (k.unlock_stop.map (fun _ => Call.hook_unlock_stop)).toList))))) }) := by
      simp [gst_base_idle_src_stop, set_flushing_true_eq, set_flushing_false_eq, log, h1, h2]
    rw [hs]
    refine ⟨rfl, ⟨_, rfl, ?_⟩, rfl, rfl, rfl, rfl, rfl, rfl, rfl⟩
    cases s.pool <;> cases k.unlock <;> cases s.clock_id <;> cases k.unlock_stop <;> simp
  · obtain ⟨tr1, h1⟩ := stop_frame k e s
    obtain ⟨tr2, h2⟩ := stop_frame k e (gst_base_idle_src_stop k e s).2
    rw [stop_flag_starting, stop_flag_started] at h2
    simp only [Bool.or_self, Bool.false_eq_true, if_false] at h2
    rw [h2, h1]
    split
    · simp
    · rename_i hf
      simp at hf
      simp [hf]

/-- Instance of C3 on the freshly initialised element. -/
theorem stop_is_idempotent_witness :
    (demo_init.flag_starting = false ∧ demo_init.flag_started = false)
    ∧ (gst_base_idle_src_stop demo_class demo_env demo_init).1 = true
    ∧ (gst_base_idle_src_stop demo_class demo_env demo_init).2.start_result
        = demo_init.start_result :=
  ⟨⟨rfl, rfl⟩,
   ((stop_is_idempotent demo_class demo_env demo_init).1 ⟨rfl, rfl⟩).1,
   ((stop_is_idempotent demo_class demo_env demo_init).1 ⟨rfl, rfl⟩).2.2.2.2.1⟩

theorem start_complete_setup_fields (k : GstBaseIdleSrcClass) (s : GstBaseIdleSrc) :
    (start_complete_setup k s).pad_mode = s.pad_mode
    ∧ (start_complete_setup k s).pending_seek = s.pending_seek
    ∧ (start_complete_setup k s).random_access
        = ((gst_base_idle_src_seekable k (start_complete_size k s)).1
            && decide (s.segment.format = GST_FORMAT_BYTES)) := by
  refine ⟨?_, ?_, rfl⟩
  · simp only [start_complete_setup, start_complete_size, gst_base_idle_src_seekable, log]
    (repeat' split) <;> rfl
  · simp only [start_complete_setup, start_complete_size, gst_base_idle_src_seekable, log]
    (repeat' split) <;> rfl

/-- The function gst_base_idle_src_start_complete (GST_FLOW_OK) by the mode of
the pad. -/
theorem start_complete_ok_eq (k : GstBaseIdleSrcClass) (e : Env) (s : GstBaseIdleSrc) :
    gst_base_idle_src_start_complete k e GST_FLOW_OK s =
      match s.pad_mode with
      | GST_PAD_MODE_PUSH =>
        if (start_complete_seek e (start_complete_setup k s)).1 = true then
          { (start_complete_seek e (start_complete_setup k s)).2 with
            flag_started := true, flag_starting := false, start_result := GST_FLOW_OK }
        else
          start_complete_error GST_FLOW_ERROR (gst_base_idle_src_stop k e
            (start_complete_seek e (start_complete_setup k s)).2).2
      | GST_PAD_MODE_PULL =>
        if ((gst_base_idle_src_seekable k (start_complete_size k s)).1
              && decide (s.segment.format = GST_FORMAT_BYTES)) = true then
          { start_complete_setup k s with
            flag_started := true, flag_starting := false, start_result := GST_FLOW_OK }
        else
          start_complete_error GST_FLOW_ERROR
            (gst_base_idle_src_stop k e (start_complete_setup k s)).2
      | GST_PAD_MODE_NONE =>
        start_complete_error GST_FLOW_ERROR
          (gst_base_idle_src_stop k e (start_complete_setup k s)).2 := by
  obtain ⟨hm, -, hr⟩ := start_complete_setup_fields k s
  rw [← hm, ← hr]
  unfold gst_base_idle_src_start_complete
  simp only [ne_eq, not_true_eq_false, if_false]
  split
  · cases (start_complete_seek e (start_complete_setup k s)).1 <;> simp
  · cases (start_complete_setup k s).random_access <;> simp
  · rfl

/-- C4: gst_base_idle_src_start_complete (GST_FLOW_OK) ends with Started set,
Starting cleared and start_result GST_FLOW_OK exactly when the pad is in push
mode and the initial seek succeeds, or the pad is in pull mode and the source is
random access (gst_base_idle_src_seekable answers true and the segment format is
BYTES).  The seek is perform_seek on the queued pending seek, run on the element
with pending_seek removed.  In every other case stop is run and the call ends
with neither flag set and start_result GST_FLOW_ERROR. -/
theorem start_complete_ok_outcome (k : GstBaseIdleSrcClass) (e : Env) (s : GstBaseIdleSrc) :
    let s4 := start_complete_setup k s
    let sought := start_complete_seek e s4
    let success : Prop :=
      (s.pad_mode = GST_PAD_MODE_PUSH ∧ sought.1 = true)
      ∨ (s.pad_mode = GST_PAD_MODE_PULL
          ∧ (gst_base_idle_src_seekable k (start_complete_size k s)).1 = true
          ∧ s.segment.format = GST_FORMAT_BYTES)
    let s' := gst_base_idle_src_start_complete k e GST_FLOW_OK s
    sought = e.perform_seek { s4 with pending_seek := none } s.pending_seek false
    ∧ ((s'.flag_started = true ∧ s'.flag_starting = false ∧ s'.start_result = GST_FLOW_OK)
        ↔ success)
    ∧ (s.pad_mode = GST_PAD_MODE_PUSH → sought.1 = true →
        s' = { sought.2 with flag_started := true, flag_starting := false,
                             start_result := GST_FLOW_OK })
    ∧ (¬ success →
        s' = start_complete_error GST_FLOW_ERROR (gst_base_idle_src_stop k e
              (if s.pad_mode = GST_PAD_MODE_PUSH then sought.2 else s4)).2
        ∧ s'.flag_started = false ∧ s'.flag_starting = false
        ∧ s'.start_result = GST_FLOW_ERROR) := by
  intro s4 sought success s'
  have hf := start_complete_fail_fields k e
  have hs' : s' = _ := start_complete_ok_eq k e s
  refine ⟨?_, ?_⟩
  · show e.perform_seek _ (start_complete_setup k s).pending_seek false = _
    rw [(start_complete_setup_fields k s).2.1]
  cases hmode : s.pad_mode with
  | GST_PAD_MODE_NONE =>
    simp only [hmode] at hs'
    have hns : ¬ success := by simp [success, hmode]
    refine ⟨?_, ?_, ?_⟩
    · rw [hs']
      simp [hns, (hf _).2.1]
    · intro h; cases h
    · intro _
      rw [hs']
      simp [(hf _).2.1, (hf _).1, (hf _).2.2, s4]
  | GST_PAD_MODE_PUSH =>
    simp only [hmode] at hs'
    by_cases hk : sought.1 = true
    · have hk' : (start_complete_seek e (start_complete_setup k s)).1 = true := hk
      simp only [hk', if_true] at hs'
      have hsu : success := Or.inl ⟨hmode, hk⟩
      refine ⟨?_, ?_, ?_⟩
      · rw [hs']
        simp [hsu]
      · intro _ _
        rw [hs']
      · intro h
        exact absurd hsu h
    · have hk' : ¬ (start_complete_seek e (start_complete_setup k s)).1 = true := hk
      simp only [hk', if_false] at hs'
      have hns : ¬ success := by simp [success, hk, hmode]
      refine ⟨?_, ?_, ?_⟩
      · rw [hs']
        simp [hns, (hf _).2.1]
      · intro _ h
        exact absurd h hk
      · intro _
        rw [hs']
        simp [(hf _).2.1, (hf _).1, (hf _).2.2, sought, s4]
  | GST_PAD_MODE_PULL =>
    simp only [hmode] at hs'
    by_cases hk : ((gst_base_idle_src_seekable k (start_complete_size k s)).1
            && decide (s.segment.format = GST_FORMAT_BYTES)) = true
    · simp only [hk, if_true] at hs'
      have hsu : success := by
        simp only [Bool.and_eq_true, decide_eq_true_eq] at hk
        exact Or.inr ⟨hmode, hk.1, hk.2⟩
      refine ⟨?_, ?_, ?_⟩
      · rw [hs']
        simp [hsu]
      · intro h; cases h
      · intro h
        exact absurd hsu h
    · simp only [hk, if_false] at hs'
      have hns : ¬ success := by
        simp only [Bool.and_eq_true, decide_eq_true_eq] at hk
        simp only [success]
        rintro (⟨h, -⟩ | ⟨-, h1, h2⟩)
        · rw [hmode] at h; cases h
        · exact hk ⟨h1, h2⟩
      refine ⟨?_, ?_, ?_⟩
      · rw [hs']
        simp [hns, (hf _).2.1]
      · intro h; cases h
      · intro _
        rw [hs']
        simp [(hf _).2.1, (hf _).1, (hf _).2.2, s4]

/-- Instance of C4: on a Starting element whose pad is not activated the call
ends in GST_FLOW_ERROR; on one whose pad is in push mode and whose seek
succeeds it ends Started. -/
theorem start_complete_ok_outcome_witness :
    (gst_base_idle_src_start_complete demo_class demo_env GST_FLOW_OK demo_starting).start_result
        = GST_FLOW_ERROR
    ∧ (gst_base_idle_src_start_complete demo_class demo_env GST_FLOW_OK
        { demo_starting with pad_mode := GST_PAD_MODE_PUSH }).flag_started = true :=
  ⟨((start_complete_ok_outcome demo_class demo_env demo_starting).2.2.2
      (fun h => h.elim (fun a => absurd a.1 (by decide)) (fun a => absurd a.1 (by decide)))).2.2.2,
   by
    rw [(start_complete_ok_outcome demo_class demo_env
      { demo_starting with pad_mode := GST_PAD_MODE_PUSH }).2.2.1 rfl rfl]⟩

/-- C5: for every result other than GST_FLOW_OK,
gst_base_idle_src_start_complete records it in start_result, clears the Starting
flag and changes nothing else: the Started flag, the segment with its duration,
random_access, pending_seek and flushing keep their values and the trace of
outside calls is the same, so no subclass method (get_size, is_seekable, stop)
is invoked. -/
theorem start_complete_failure_records_result (k : GstBaseIdleSrcClass) (e : Env)
    (ret : GstFlowReturn) (s : GstBaseIdleSrc) (h : ret ≠ GST_FLOW_OK) :
    gst_base_idle_src_start_complete k e ret s
        = { s with start_result := ret, flag_starting := false }
    ∧ (gst_base_idle_src_start_complete k e ret s).start_result = ret
    ∧ (gst_base_idle_src_start_complete k e ret s).flag_starting = false
    ∧ (gst_base_idle_src_start_complete k e ret s).flag_started = s.flag_started
    ∧ (gst_base_idle_src_start_complete k e ret s).segment = s.segment
    ∧ (gst_base_idle_src_start_complete k e ret s).random_access = s.random_access
    ∧ (gst_base_idle_src_start_complete k e ret s).pending_seek = s.pending_seek
    ∧ (gst_base_idle_src_start_complete k e ret s).flushing = s.flushing
    ∧ (gst_base_idle_src_start_complete k e ret s).trace = s.trace := by
  rw [start_complete_not_ok k e ret s h]
  exact ⟨rfl, rfl, rfl, rfl, rfl, rfl, rfl, rfl, rfl⟩

/-- Instance of C5: GST_FLOW_EOS delivered to a Starting element. -/
theorem start_complete_failure_records_result_witness :
    GST_FLOW_EOS ≠ GST_FLOW_OK
    ∧ gst_base_idle_src_start_complete demo_class demo_env GST_FLOW_EOS demo_starting
        = { demo_starting with start_result := GST_FLOW_EOS, flag_starting := false } :=
  ⟨by decide,
   (start_complete_failure_records_result demo_class demo_env GST_FLOW_EOS demo_starting
      (by decide)).1⟩

/-- C6: on an element with neither Starting nor Started set, the subclass start
is called on the element `start_prepare e s`: Starting is set, start_result is
GST_FLOW_FLUSHING, the segment is re-initialised in its previous format,
num_buffers_left is num_buffers, running, segment_pending and forced_eos are
false, and no outside call was made before.  For an async source whose start
answers TRUE, gst_base_idle_src_start returns TRUE and leaves exactly that
element, with the call of start added to the trace. -/
theorem start_marks_starting_before_subclass (k : GstBaseIdleSrcClass) (e : Env)
    (s : GstBaseIdleSrc) (h1 : s.flag_starting = false) (h2 : s.flag_started = false) :
    let s0 := start_prepare e s
    (s0.flag_starting = true ∧ s0.flag_started = false
      ∧ s0.start_result = GST_FLOW_FLUSHING
      ∧ s0.segment = gst_segment_init s.segment.format
      ∧ s0.num_buffers_left = s.num_buffers
      ∧ s0.num_buffers = s.num_buffers
      ∧ s0.running = false ∧ s0.segment_pending = false ∧ s0.forced_eos = false
      ∧ s0.trace = s.trace)
    ∧ (∀ hook, k.start = some hook →
        gst_base_idle_src_start k e s
          = start_finish k e (hook s0) (s0.log Call.hook_start))
    ∧ (∀ hook, k.start = some hook → hook s0 = true → gst_base_idle_src_is_async s = true →
        gst_base_idle_src_start k e s = some (true, s0.log Call.hook_start)) := by
  intro s0
  refine ⟨⟨rfl, h2, rfl, rfl, rfl, rfl, rfl, rfl, rfl, rfl⟩, ?_, ?_⟩
  · intro hook hk
    simp [gst_base_idle_src_start, h1, h2, hk, s0]
  · intro hook hk ht ha
    have ha' : gst_base_idle_src_is_async (s0.log Call.hook_start) = true := ha
    have ht' : hook (start_prepare e s) = true := ht
    simp [gst_base_idle_src_start, h1, h2, hk, start_finish, ht', ha', s0]

/-- Instance of C6: an async source started from the initial element. -/
theorem start_marks_starting_before_subclass_witness :
    gst_base_idle_src_start demo_class demo_env { demo_init with async := true }
      = some (true, (start_prepare demo_env { demo_init with async := true }).log
          Call.hook_start) :=
  (start_marks_starting_before_subclass demo_class demo_env { demo_init with async := true }
    rfl rfl).2.2 (fun _ => true) rfl rfl rfl

/-- C7: on an element with neither Starting nor Started set, when the subclass
start answers FALSE, gst_base_idle_src_start returns FALSE; the outside calls it
makes are the subclass start and the element error, not the subclass stop; and
the element is left with neither flag set and start_result GST_FLOW_ERROR. -/
theorem start_failure_is_error (k : GstBaseIdleSrcClass) (e : Env) (s : GstBaseIdleSrc)
    (hook : GstBaseIdleSrc → Bool)
    (h1 : s.flag_starting = false) (h2 : s.flag_started = false)
    (hk : k.start = some hook) (hf : hook (start_prepare e s) = false) :
    ∃ s', gst_base_idle_src_start k e s = some (false, s')
      ∧ s'.trace = s.trace ++ [Call.hook_start, Call.element_error]
      ∧ Call.hook_stop ∉ [Call.hook_start, Call.element_error]
      ∧ s'.flag_starting = false ∧ s'.flag_started = false
      ∧ s'.start_result = GST_FLOW_ERROR := by
  refine ⟨{ (start_prepare e s).log Call.hook_start |>.log Call.element_error with
      start_result := GST_FLOW_ERROR, flag_starting := false }, ?_, ?_, by decide, rfl, h2, rfl⟩
  · simp [gst_base_idle_src_start, h1, h2, hk, start_finish, hf,
      start_complete_not_ok, log]
  · simp [log, start_prepare]

/-- Instance of C7: a subclass whose start fails, on the initial element. -/
theorem start_failure_is_error_witness :
    ∃ s', gst_base_idle_src_start failing_class demo_env demo_init = some (false, s')
      ∧ s'.trace = demo_init.trace ++ [Call.hook_start, Call.element_error]
      ∧ Call.hook_stop ∉ [Call.hook_start, Call.element_error]
      ∧ s'.flag_starting = false ∧ s'.flag_started = false
      ∧ s'.start_result = GST_FLOW_ERROR :=
  start_failure_is_error failing_class demo_env demo_init (fun _ => false) rfl rfl rfl rfl

/-- The function gst_base_idle_src_set_flushing writes neither the lifecycle
flags nor start_result. -/
theorem set_flushing_lifecycle (k : GstBaseIdleSrcClass) (b : Bool) (s : GstBaseIdleSrc) :
    (gst_base_idle_src_set_flushing k b s).2.flag_starting = s.flag_starting
    ∧ (gst_base_idle_src_set_flushing k b s).2.flag_started = s.flag_started
    ∧ (gst_base_idle_src_set_flushing k b s).2.start_result = s.start_result := by
  cases b
  · rw [set_flushing_false_eq]
    exact ⟨rfl, rfl, rfl⟩
  · rw [set_flushing_true_eq]
    exact ⟨rfl, rfl, rfl⟩

/-- The function gst_base_idle_src_send_event writes neither the lifecycle
flags nor start_result. -/
theorem send_event_lifecycle (k : GstBaseIdleSrcClass) (e : Env) (event : GstEvent)
    (s : GstBaseIdleSrc) :
    (gst_base_idle_src_send_event k e event s).2.flag_starting = s.flag_starting
    ∧ (gst_base_idle_src_send_event k e event s).2.flag_started = s.flag_started
    ∧ (gst_base_idle_src_send_event k e event s).2.start_result = s.start_result := by
  rcases event with ⟨ty, id⟩
  cases ty <;>
    simp only [gst_base_idle_src_send_event, set_flushing_true_eq, set_flushing_false_eq,
      set_pool_flushing_eq, log] <;>
    (repeat' split) <;> simp

/-- The function gst_base_idle_src_change_state writes neither the lifecycle
flags nor start_result. -/
theorem change_state_lifecycle (e : Env) (transition : GstStateChange) (s : GstBaseIdleSrc) :
    (gst_base_idle_src_change_state e transition s).2.flag_starting = s.flag_starting
    ∧ (gst_base_idle_src_change_state e transition s).2.flag_started = s.flag_started
    ∧ (gst_base_idle_src_change_state e transition s).2.start_result = s.start_result := by
  rcases s with ⟨_, _, _, is_live, _, _, _, _, _, _, _, _, _, _, _, _, _, _, _, _, _, _,
    has_pending_eos, _, _, _, _, _, _, _, _, _, _⟩
  cases is_live <;> cases has_pending_eos <;> cases transition <;>
    simp [gst_base_idle_src_change_state, gst_base_idle_src_set_playing,
      gst_base_idle_src_is_live, CLEAR_PENDING_EOS, log] <;>
    split <;> exact ⟨rfl, rfl, rfl⟩

/-- One call keeps the property that a Starting element has a start_result
other than GST_FLOW_OK. -/
theorem step_keeps_starting_not_ok (k : GstBaseIdleSrcClass) (e : Env) (op : Op)
    (s s' : GstBaseIdleSrc) (h : step k e op s = some s')
    (hinv : s.flag_starting = true → s.start_result ≠ GST_FLOW_OK) :
    s'.flag_starting = true → s'.start_result ≠ GST_FLOW_OK := by
  cases op with
  | start =>
    obtain ⟨b, t, ht, hp, -⟩ := start_returns k e s
    simp only [step, ht, Option.map_some', Option.some.injEq] at h
    subst h
    intro hs
    rcases hp hs with h | h
    · exact h
    · rw [h] at hs ⊢
      exact hinv hs
  | start_complete ret =>
    simp only [step, Option.some.injEq] at h
    subst h
    intro hs
    rw [start_complete_flag_starting] at hs
    cases hs
  | start_wait =>
    simp only [step, gst_base_idle_src_start_wait] at h
    split at h
    · cases h
    · simp only [Option.map_some', Option.some.injEq] at h
      subst h
      exact hinv
  | stop =>
    simp only [step, Option.some.injEq] at h
    subst h
    intro hs
    rw [stop_flag_starting] at hs
    cases hs
  | set_flushing b =>
    simp only [step, Option.some.injEq] at h
    subst h
    obtain ⟨h1, -, h3⟩ := set_flushing_lifecycle k b s
    rw [h1, h3]
    exact hinv
  | send_event ev =>
    simp only [step, Option.some.injEq] at h
    subst h
    obtain ⟨h1, -, h3⟩ := send_event_lifecycle k e ev s
    rw [h1, h3]
    exact hinv
  | change_state tr =>
    simp only [step, Option.some.injEq] at h
    subst h
    obtain ⟨h1, -, h3⟩ := change_state_lifecycle e tr s
    rw [h1, h3]
    exact hinv

/-- A sequence of calls keeps the property that a Starting element has a
start_result other than GST_FLOW_OK. -/
theorem run_keeps_starting_not_ok (k : GstBaseIdleSrcClass) (e : Env) (ops : List Op) :
    ∀ (s s' : GstBaseIdleSrc), run k e ops s = some s' →
      (s.flag_starting = true → s.start_result ≠ GST_FLOW_OK) →
      s'.flag_starting = true → s'.start_result ≠ GST_FLOW_OK := by
  induction ops with
  | nil =>
    intro s s' h hinv
    simp only [run, Option.some.injEq] at h
    subst h
    exact hinv
  | cons op rest ih =>
    intro s s' h hinv
    simp only [run] at h
    cases hstep : step k e op s with
    | none => rw [hstep] at h; cases h
    | some s1 =>
      rw [hstep] at h
      exact ih s1 s' h (step_keeps_starting_not_ok k e op s s1 hstep hinv)

/-- C9: in every element reached from the initial element, whatever the
subclass configured for async and live, by a sequence of start, start_complete
with any result, start_wait, stop, set_flushing, send_event and change_state,
a set Starting flag comes with a start_result other than GST_FLOW_OK. -/
theorem starting_implies_result_not_ok (k : GstBaseIdleSrcClass) (e : Env)
    (nb : Int) (bs : Nat) (async live : Bool) (ops : List Op) (s : GstBaseIdleSrc)
    (h : run k e ops { gst_base_idle_src_init nb bs with async := async, is_live := live }
          = some s)
    (hs : s.flag_starting = true) :
    s.start_result ≠ GST_FLOW_OK :=
  run_keeps_starting_not_ok k e ops _ s h (fun _ => by simp [gst_base_idle_src_init]) hs

/-- Instance of C9: an async source after start, stop, start is Starting with
start_result GST_FLOW_FLUSHING. -/
theorem starting_implies_result_not_ok_witness :
    ∃ s, run demo_class demo_env [Op.start, Op.stop, Op.start]
          { gst_base_idle_src_init (-1) 4096 with async := true, is_live := false } = some s
      ∧ s.flag_starting = true ∧ s.start_result ≠ GST_FLOW_OK :=
  ⟨_, rfl, rfl,
    starting_implies_result_not_ok demo_class demo_env (-1) 4096 true false
      [Op.start, Op.stop, Op.start] _ rfl rfl⟩

/-- C8 as stated fails: GST_FLOW_OK is delivered to a Starting element whose
pad is not activated, and start_wait then returns GST_FLOW_ERROR. -/
theorem start_wait_returns_delivered_counterexample :
    demo_starting.flag_starting = true
    ∧ (gst_base_idle_src_start_wait
        (gst_base_idle_src_start_complete demo_class demo_env GST_FLOW_OK demo_starting)).map
          Prod.fst = some GST_FLOW_ERROR
    ∧ GST_FLOW_ERROR ≠ GST_FLOW_OK :=
  ⟨rfl, rfl, by decide⟩

/-- C8 amended: after gst_base_idle_src_start_complete with any result on a
Starting element, gst_base_idle_src_start_wait returns without blocking, leaves
the element unchanged and returns the recorded start_result, and a repeated call
returns the same.  The recorded value is the delivered one when that is not
GST_FLOW_OK; for GST_FLOW_OK it is GST_FLOW_OK when the element ended Started
and GST_FLOW_ERROR when the start could not be completed. -/
theorem start_wait_returns_recorded_result (k : GstBaseIdleSrcClass) (e : Env)
    (ret : GstFlowReturn) (s : GstBaseIdleSrc) (hs : s.flag_starting = true) :
    let s' := gst_base_idle_src_start_complete k e ret s
    s.flag_starting = true
    ∧ gst_base_idle_src_start_wait s' = some (s'.start_result, s')
    ∧ (∀ w, gst_base_idle_src_start_wait s' = some w →
        gst_base_idle_src_start_wait w.2 = some w)
    ∧ (ret ≠ GST_FLOW_OK → s'.start_result = ret)
    ∧ (ret = GST_FLOW_OK →
        (s'.flag_started = true ∧ s'.start_result = GST_FLOW_OK)
        ∨ (s'.flag_started = false ∧ s'.start_result = GST_FLOW_ERROR)) := by
  intro s'
  have hw : gst_base_idle_src_start_wait s' = some (s'.start_result, s') := by
    simp [gst_base_idle_src_start_wait, s', start_complete_flag_starting]
  refine ⟨hs, hw, ?_, ?_, ?_⟩
  · intro w hw'
    rw [hw] at hw'
    cases hw'
    exact hw
  · intro h
    simp only [s']
    rw [start_complete_not_ok k e ret s h]
  · intro h
    subst h
    exact (start_complete_ok_cases k e s).2

/-- Instance of C8 amended: GST_FLOW_EOS delivered to a Starting element. -/
theorem start_wait_returns_recorded_result_witness :
    (gst_base_idle_src_start_wait
      (gst_base_idle_src_start_complete demo_class demo_env GST_FLOW_EOS demo_starting)).map
        Prod.fst = some GST_FLOW_EOS :=
  have h := start_wait_returns_recorded_result demo_class demo_env GST_FLOW_EOS demo_starting rfl
  by rw [h.2.1, ← h.2.2.2.1 (by decide)]; rfl

/-- C10 as stated fails: start_complete (GST_FLOW_OK) called on a Stopped
element whose pad is in pull mode and whose source is random access takes it
directly to Started. -/
theorem lifecycle_transitions_counterexample :
    step demo_class demo_env (Op.start_complete GST_FLOW_OK) demo_pull_stopped
      = some (gst_base_idle_src_start_complete demo_class demo_env GST_FLOW_OK demo_pull_stopped)
    ∧ lifecycle demo_pull_stopped = LifecycleState.Stopped
    ∧ lifecycle (gst_base_idle_src_start_complete demo_class demo_env GST_FLOW_OK
        demo_pull_stopped) = LifecycleState.Started
    ∧ allowed_transition LifecycleState.Stopped LifecycleState.Started = false :=
  ⟨rfl, rfl, rfl, rfl⟩

theorem allowed_transition_refl (a : LifecycleState) : allowed_transition a a = true := by
  cases a <;> rfl

/-- The lifecycle state is decided by the two flags. -/
theorem lifecycle_congr (s t : GstBaseIdleSrc) (h1 : t.flag_starting = s.flag_starting)
    (h2 : t.flag_started = s.flag_started) : lifecycle t = lifecycle s := by
  simp [lifecycle, h1, h2]

/-- The lifecycle change made by gst_base_idle_src_start_complete. -/
theorem start_complete_lifecycle (k : GstBaseIdleSrcClass) (e : Env) (ret : GstFlowReturn)
    (s : GstBaseIdleSrc) :
    allowed_transition (lifecycle s) (lifecycle (gst_base_idle_src_start_complete k e ret s))
      = true
    ∨ (ret = GST_FLOW_OK ∧ lifecycle s = LifecycleState.Stopped
        ∧ lifecycle (gst_base_idle_src_start_complete k e ret s) = LifecycleState.Started) := by
  by_cases h : ret = GST_FLOW_OK
  · subst h
    obtain ⟨h1, h2⟩ := start_complete_ok_cases k e s
    rcases h2 with ⟨h2, -⟩ | ⟨h2, -⟩ <;>
      cases hfs : s.flag_starting <;> cases hfd : s.flag_started <;>
      simp [lifecycle, allowed_transition, h1, h2, hfs, hfd]
  · left
    rw [start_complete_not_ok k e ret s h]
    cases hfs : s.flag_starting <;> cases hfd : s.flag_started <;>
      simp [lifecycle, allowed_transition, hfs, hfd]

/-- The lifecycle change made by gst_base_idle_src_start. -/
theorem start_lifecycle (k : GstBaseIdleSrcClass) (e : Env) (s s' : GstBaseIdleSrc) (b : Bool)
    (h : gst_base_idle_src_start k e s = some (b, s')) :
    allowed_transition (lifecycle s) (lifecycle s') = true
    ∨ (lifecycle s = LifecycleState.Stopped ∧ lifecycle s' = LifecycleState.Started
        ∧ gst_base_idle_src_is_async s = false
        ∧ ∃ s1, lifecycle s1 = LifecycleState.Starting
            ∧ s' = gst_base_idle_src_start_complete k e GST_FLOW_OK s1) := by
  unfold gst_base_idle_src_start at h
  cases h1 : s.flag_starting with
  | true =>
    simp [h1] at h
    rw [← h.2]
    exact Or.inl (allowed_transition_refl _)
  | false =>
    cases h2 : s.flag_started with
    | true =>
      simp [h1, h2] at h
      rw [← h.2]
      exact Or.inl (allowed_transition_refl _)
    | false =>
      simp only [h1, h2, Bool.false_eq_true, if_false] at h
      have hstop : lifecycle s = LifecycleState.Stopped := by simp [lifecycle, h1, h2]
      have key : ∀ result t, t.flag_starting = true → t.flag_started = false →
          gst_base_idle_src_is_async t = gst_base_idle_src_is_async s →
          start_finish k e result t = some (b, s') →
          allowed_transition LifecycleState.Stopped (lifecycle s') = true
          ∨ (lifecycle s' = LifecycleState.Started
              ∧ gst_base_idle_src_is_async s = false
              ∧ ∃ s1, lifecycle s1 = LifecycleState.Starting
                  ∧ s' = gst_base_idle_src_start_complete k e GST_FLOW_OK s1) := by
        intro result t ht1 ht2 hta hfin
        unfold start_finish at hfin
        cases result
        · simp only [Bool.not_false, if_true, Option.some.injEq, Prod.mk.injEq] at hfin
          left
          rw [← hfin.2, start_complete_not_ok _ _ _ _ (by decide)]
          simp [lifecycle, allowed_transition, log, ht2]
        · simp only [Bool.not_true, Bool.false_eq_true, if_false] at hfin
          cases ha : gst_base_idle_src_is_async t
          · obtain ⟨hc1, hc2⟩ := start_complete_ok_cases k e t
            simp only [ha, Bool.not_false, if_true, gst_base_idle_src_start_wait, hc1,
              Bool.false_eq_true, if_false, Option.some.injEq, Prod.mk.injEq] at hfin
            rcases hc2 with ⟨hc2, -⟩ | ⟨hc2, -⟩
            · right
              refine ⟨?_, ?_, t, ?_, hfin.2.symm⟩
              · rw [← hfin.2]; simp [lifecycle, hc1, hc2]
              · rw [← hta]; exact ha
              · simp [lifecycle, ht1]
            · left
              rw [← hfin.2]
              simp [lifecycle, allowed_transition, hc1, hc2]
          · simp only [ha, Bool.not_true, Bool.false_eq_true, if_false, Option.some.injEq,
              Prod.mk.injEq] at hfin
            left
            rw [← hfin.2]
            simp [lifecycle, allowed_transition, ht1]
      rw [hstop]
      cases hk : k.start with
      | some hook =>
        rw [hk] at h
        rcases key (hook (start_prepare e s)) ((start_prepare e s).log Call.hook_start)
          rfl h2 rfl h with h' | h'
        · exact Or.inl h'
        · exact Or.inr ⟨rfl, h'⟩
      | none =>
        rw [hk] at h
        rcases key true (start_prepare e s) rfl h2 rfl h with h' | h'
        · exact Or.inl h'
        · exact Or.inr ⟨rfl, h'⟩

/-- C10 amended: every call of start, start_complete with any result,
start_wait, stop, set_flushing, send_event or change_state either keeps the
lifecycle state or moves it along one of Stopped to Starting, Starting to
Started, Started to Stopped, Starting to Stopped, with two exceptions that take
a Stopped element to Started: start_complete (GST_FLOW_OK), which does not test
the Starting flag, and start of a source that is not async, which marks Starting
and completes the start by a nested start_complete (GST_FLOW_OK) inside the same
call. -/
theorem lifecycle_transitions_restricted (k : GstBaseIdleSrcClass) (e : Env) (op : Op)
    (s s' : GstBaseIdleSrc) (h : step k e op s = some s') :
    allowed_transition (lifecycle s) (lifecycle s') = true
    ∨ (lifecycle s = LifecycleState.Stopped ∧ lifecycle s' = LifecycleState.Started
        ∧ (op = Op.start_complete GST_FLOW_OK
            ∨ (op = Op.start ∧ gst_base_idle_src_is_async s = false
                ∧ ∃ s1, lifecycle s1 = LifecycleState.Starting
                    ∧ s' = gst_base_idle_src_start_complete k e GST_FLOW_OK s1))) := by
  cases op with
  | start =>
    simp only [step, Option.map_eq_some', Prod.exists, exists_eq_right] at h
    obtain ⟨b, hb⟩ := h
    rcases start_lifecycle k e s s' b hb with h' | ⟨h1, h2, h3⟩
    · exact Or.inl h'
    · exact Or.inr ⟨h1, h2, Or.inr ⟨rfl, h3⟩⟩
  | start_complete ret =>
    simp only [step, Option.some.injEq] at h
    subst h
    rcases start_complete_lifecycle k e ret s with h' | ⟨h1, h2, h3⟩
    · exact Or.inl h'
    · subst h1
      exact Or.inr ⟨h2, h3, Or.inl rfl⟩
  | start_wait =>
    simp only [step, gst_base_idle_src_start_wait] at h
    split at h
    · cases h
    · simp only [Option.map_some', Option.some.injEq] at h
      subst h
      exact Or.inl (allowed_transition_refl _)
  | stop =>
    simp only [step, Option.some.injEq] at h
    subst h
    left
    cases hfs : s.flag_starting <;> cases hfd : s.flag_started <;>
      simp [lifecycle, allowed_transition, hfs, hfd, stop_flag_starting, stop_flag_started]
  | set_flushing b =>
    simp only [step, Option.some.injEq] at h
    subst h
    obtain ⟨h1, h2, -⟩ := set_flushing_lifecycle k b s
    rw [lifecycle_congr _ _ h1 h2]
    exact Or.inl (allowed_transition_refl _)
  | send_event ev =>
    simp only [step, Option.some.injEq] at h
    subst h
    obtain ⟨h1, h2, -⟩ := send_event_lifecycle k e ev s
    rw [lifecycle_congr _ _ h1 h2]
    exact Or.inl (allowed_transition_refl _)
  | change_state tr =>
    simp only [step, Option.some.injEq] at h
    subst h
    obtain ⟨h1, h2, -⟩ := change_state_lifecycle e tr s
    rw [lifecycle_congr _ _ h1 h2]
    exact Or.inl (allowed_transition_refl _)

/-- Instance of C10 amended: stop on a started element. -/
theorem lifecycle_transitions_restricted_witness :
    allowed_transition (lifecycle demo_started)
        (lifecycle (gst_base_idle_src_stop demo_class demo_env demo_started).2) = true
    ∨ (lifecycle demo_started = LifecycleState.Stopped
        ∧ lifecycle (gst_base_idle_src_stop demo_class demo_env demo_started).2
            = LifecycleState.Started
        ∧ (Op.stop = Op.start_complete GST_FLOW_OK
            ∨ (Op.stop = Op.start ∧ gst_base_idle_src_is_async demo_started = false
                ∧ ∃ s1, lifecycle s1 = LifecycleState.Starting
                    ∧ (gst_base_idle_src_stop demo_class demo_env demo_started).2
                        = gst_base_idle_src_start_complete demo_class demo_env
                            GST_FLOW_OK s1))) :=
  lifecycle_transitions_restricted demo_class demo_env Op.stop demo_started _ rfl

/-- The members after gst_base_idle_src_set_flushing (TRUE) on any element:
the call returns TRUE, flushing is true and has_pending_eos is false; the
guarded statements clear forced_eos and the pending_eos payload when an EOS
was pending and leave them when none was.  The pool, if any, is set flushing,
the subclass unlock is called once when present, unlock_stop is not called. -/
theorem set_flushing_true_fields (k : GstBaseIdleSrcClass) (s : GstBaseIdleSrc) :
    (gst_base_idle_src_set_flushing k true s).1 = true
    ∧ (gst_base_idle_src_set_flushing k true s).2.flushing = true
    ∧ (gst_base_idle_src_set_flushing k true s).2.has_pending_eos = false
    ∧ (s.has_pending_eos = true →
        (gst_base_idle_src_set_flushing k true s).2.forced_eos = false
        ∧ (gst_base_idle_src_set_flushing k true s).2.pending_eos = none)
    ∧ (s.has_pending_eos = false →
        (gst_base_idle_src_set_flushing k true s).2.forced_eos = s.forced_eos
        ∧ (gst_base_idle_src_set_flushing k true s).2.pending_eos = s.pending_eos)
    ∧ (gst_base_idle_src_set_flushing k true s).2.pool = s.pool
    ∧ ∃ calls, (gst_base_idle_src_set_flushing k true s).2.trace = s.trace ++ calls
        ∧ (∀ p, s.pool = some p → Call.pool_set_flushing p true ∈ calls)
        ∧ calls.count Call.hook_unlock = (if k.unlock.isSome then 1 else 0)
        ∧ calls.count Call.hook_unlock_stop = 0 := by
  rw [set_flushing_true_eq]
  refine ⟨rfl, rfl, rfl, ?_, ?_, rfl, _, rfl, ?_, ?_, ?_⟩
  · intro h
    simp [h]
  · intro h
    simp [h]
  · intro p hp
    simp [hp]
  · cases s.pool <;> cases k.unlock <;> cases s.clock_id <;> simp
  · cases s.pool <;> cases k.unlock <;> cases s.clock_id <;> simp

/-- The members after gst_base_idle_src_set_flushing (FALSE) on any element:
flushing is false and the queue of pending events is empty; the guarded
statement clears have_events when the queue was not empty and leaves it when
the queue was empty.  The outside calls are, in this order, the pool (if any)
set not flushing and the subclass unlock_stop (if present), once; unlock is
not called.  The pending EOS, the lifecycle flags and the segment are
unchanged. -/
theorem set_flushing_false_fields (k : GstBaseIdleSrcClass) (s : GstBaseIdleSrc) :
    (gst_base_idle_src_set_flushing k false s).2.flushing = false
    ∧ (gst_base_idle_src_set_flushing k false s).2.pending_events = []
    ∧ (s.pending_events ≠ [] →
        (gst_base_idle_src_set_flushing k false s).2.have_events = false)
    ∧ (s.pending_events = [] →
        (gst_base_idle_src_set_flushing k false s).2.have_events = s.have_events)
    ∧ (gst_base_idle_src_set_flushing k false s).2.trace = s.trace
        ++ ((s.pool.map (Call.pool_set_flushing · false)).toList
          ++ (k.unlock_stop.map (fun _ => Call.hook_unlock_stop)).toList)
    ∧ ((s.pool.map (Call.pool_set_flushing · false)).toList
          ++ (k.unlock_stop.map (fun _ => Call.hook_unlock_stop)).toList).count
          Call.hook_unlock_stop = (if k.unlock_stop.isSome then 1 else 0)
    ∧ ((s.pool.map (Call.pool_set_flushing · false)).toList
          ++ (k.unlock_stop.map (fun _ => Call.hook_unlock_stop)).toList).count
          Call.hook_unlock = 0
    ∧ (gst_base_idle_src_set_flushing k false s).2.pool = s.pool
    ∧ (gst_base_idle_src_set_flushing k false s).2.has_pending_eos = s.has_pending_eos
    ∧ (gst_base_idle_src_set_flushing k false s).2.pending_eos = s.pending_eos
    ∧ (gst_base_idle_src_set_flushing k false s).2.forced_eos = s.forced_eos
    ∧ (gst_base_idle_src_set_flushing k false s).2.flag_starting = s.flag_starting
    ∧ (gst_base_idle_src_set_flushing k false s).2.flag_started = s.flag_started
    ∧ (gst_base_idle_src_set_flushing k false s).2.segment = s.segment := by
  rw [set_flushing_false_eq]
  refine ⟨rfl, rfl, ?_, ?_, rfl, ?_, ?_, rfl, rfl, rfl, rfl, rfl, rfl, rfl⟩
  · intro h
    cases hp : s.pending_events with
    | nil => exact absurd hp h
    | cons a l => simp [hp]
  · intro h
    simp [h]
  · cases s.pool <;> cases k.unlock_stop <;> simp
  · cases s.pool <;> cases k.unlock_stop <;> simp

/-- C14 as stated fails: gst_base_idle_src_stop on a stopped element that holds
a pending buffer list, a pool and an allocator leaves all three in place. -/
theorem stop_releases_resources_counterexample :
    lifecycle demo_stopped_with_resources = LifecycleState.Stopped
    ∧ (gst_base_idle_src_stop demo_class demo_env demo_stopped_with_resources).2.pending_bufferlist
        = some 5
    ∧ (gst_base_idle_src_stop demo_class demo_env demo_stopped_with_resources).2.pool = some 3
    ∧ (gst_base_idle_src_stop demo_class demo_env demo_stopped_with_resources).2.allocator
        = some 4 :=
  ⟨rfl, rfl, rfl, rfl⟩

/-- C14 amended: when Starting or Started is set, whatever the subclass stop
answers, after gst_base_idle_src_stop there is no pending buffer list, no pool
and no allocator and the allocation parameters are the defaults.  On an element
with neither flag set the call takes the was_stopped exit and keeps all
four. -/
theorem stop_releases_resources (k : GstBaseIdleSrcClass) (e : Env) (s : GstBaseIdleSrc) :
    ((s.flag_starting = true ∨ s.flag_started = true) →
      (gst_base_idle_src_stop k e s).2.pending_bufferlist = none
      ∧ (gst_base_idle_src_stop k e s).2.pool = none
      ∧ (gst_base_idle_src_stop k e s).2.allocator = none
      ∧ (gst_base_idle_src_stop k e s).2.params = gst_allocation_params_init)
    ∧ ((s.flag_starting = false ∧ s.flag_started = false) →
      (gst_base_idle_src_stop k e s).2.pending_bufferlist = s.pending_bufferlist
      ∧ (gst_base_idle_src_stop k e s).2.pool = s.pool
      ∧ (gst_base_idle_src_stop k e s).2.allocator = s.allocator
      ∧ (gst_base_idle_src_stop k e s).2.params = s.params) := by
  obtain ⟨tr, h⟩ := stop_frame k e s
  rw [h]
  constructor
  · intro hf
    have : (s.flag_starting || s.flag_started) = true := by
      rcases hf with hf | hf <;> simp [hf]
    rw [if_pos this]
    exact ⟨rfl, rfl, rfl, rfl⟩
  · rintro ⟨h1, h2⟩
    have : ¬ (s.flag_starting || s.flag_started) = true := by simp [h1, h2]
    rw [if_neg this]
    exact ⟨rfl, rfl, rfl, rfl⟩

/-- Instance of C14 amended: a started element that holds a pending buffer
list, a pool and an allocator. -/
theorem stop_releases_resources_witness :
    (demo_started_with_resources.flag_starting = true
      ∨ demo_started_with_resources.flag_started = true)
    ∧ demo_started_with_resources.pool = some 3
    ∧ (gst_base_idle_src_stop demo_class demo_env demo_started_with_resources).2.pool = none
    ∧ (gst_base_idle_src_stop demo_class demo_env
        demo_started_with_resources).2.pending_bufferlist = none
    ∧ (gst_base_idle_src_stop demo_class demo_env demo_stopped_with_resources).2.pool
        = demo_stopped_with_resources.pool :=
  ⟨Or.inr rfl, rfl,
   ((stop_releases_resources demo_class demo_env demo_started_with_resources).1
      (Or.inr rfl)).2.1,
   ((stop_releases_resources demo_class demo_env demo_started_with_resources).1
      (Or.inr rfl)).1,
   ((stop_releases_resources demo_class demo_env demo_stopped_with_resources).2
      ⟨rfl, rfl⟩).2.1⟩

/-- A submission on an element that already holds a pending list writes
nothing. -/
theorem submit_buffer_list_pending (mw : GstBufferList → GstBufferList) (l : GstBufferList)
    (s : GstBaseIdleSrc) (h : s.pending_bufferlist ≠ none) :
    gst_base_idle_src_submit_buffer_list mw l s = s := by
  cases hp : s.pending_bufferlist with
  | none => exact absurd hp h
  | some b =>
    simp [gst_base_idle_src_submit_buffer_list, BASE_IDLE_SRC_HAS_PENDING_BUFFER_LIST, hp]

/-- Submissions on an element that holds a pending list keep that list. -/
theorem submit_buffer_lists_pending (mw : GstBufferList → GstBufferList)
    (ls : List GstBufferList) :
    ∀ (s : GstBaseIdleSrc), s.pending_bufferlist ≠ none →
      ls.foldl (fun st x => gst_base_idle_src_submit_buffer_list mw x st) s = s := by
  induction ls with
  | nil => intro s _; rfl
  | cons l rest ih =>
    intro s h
    simp only [List.foldl_cons]
    rw [submit_buffer_list_pending mw l s h]
    exact ih s h

/-- C15: gst_base_idle_src_submit_buffer_list stores the submitted list (made
writable) when no list is pending; when a list is pending the submission is
rejected and the element is unchanged.  After any sequence of submissions on an
element without a pending list, the pending list is the first submitted one. -/
theorem at_most_one_pending_buffer_list (mw : GstBufferList → GstBufferList)
    (l : GstBufferList) (s : GstBaseIdleSrc) :
    (s.pending_bufferlist = none →
      gst_base_idle_src_submit_buffer_list mw l s
        = { s with pending_bufferlist := some (mw l) })
    ∧ (s.pending_bufferlist ≠ none →
      gst_base_idle_src_submit_buffer_list mw l s = s)
    ∧ (∀ (rest : List GstBufferList), s.pending_bufferlist = none →
      ((l :: rest).foldl (fun st x => gst_base_idle_src_submit_buffer_list mw x st)
        s).pending_bufferlist = some (mw l)) := by
  have first : s.pending_bufferlist = none →
      gst_base_idle_src_submit_buffer_list mw l s
        = { s with pending_bufferlist := some (mw l) } := by
    intro h
    simp [gst_base_idle_src_submit_buffer_list, BASE_IDLE_SRC_HAS_PENDING_BUFFER_LIST, h]
  refine ⟨first, submit_buffer_list_pending mw l s, ?_⟩
  intro rest h
  simp only [List.foldl_cons]
  rw [first h, submit_buffer_lists_pending mw rest _ (by simp)]

/-- Instance of C15: the lists 11, 12, 13 submitted to the initial element. -/
theorem at_most_one_pending_buffer_list_witness :
    demo_init.pending_bufferlist = none
    ∧ ([11, 12, 13].foldl (fun st x => gst_base_idle_src_submit_buffer_list id x st)
        demo_init).pending_bufferlist = some 11
    ∧ gst_base_idle_src_submit_buffer_list id 12 demo_stopped_with_resources
        = demo_stopped_with_resources :=
  ⟨rfl,
   (at_most_one_pending_buffer_list id 11 demo_init).2.2 [12, 13] rfl,
   (at_most_one_pending_buffer_list id 12 demo_stopped_with_resources).2.1 (by decide)⟩

/-- C16: when the segment format of the element is UNDEFINED or differs from
the format of the given segment, gst_base_idle_src_new_segment returns FALSE
and the element (segment, segment_pending, segment_seqnum and running included)
is unchanged.  Otherwise it returns TRUE, the segment of the element is the
given one, in the same format as before, and segment_pending and running are
true.  A freshly initialised element has format BYTES. -/
theorem new_segment_rejects_format_mismatch (e : Env) (segment : GstSegment)
    (s : GstBaseIdleSrc) :
    ((s.segment.format = GST_FORMAT_UNDEFINED ∨ s.segment.format ≠ segment.format) →
      gst_base_idle_src_new_segment e segment s = (false, s))
    ∧ ((s.segment.format ≠ GST_FORMAT_UNDEFINED ∧ s.segment.format = segment.format) →
      (gst_base_idle_src_new_segment e segment s).1 = true
      ∧ (gst_base_idle_src_new_segment e segment s).2.segment = segment
      ∧ (gst_base_idle_src_new_segment e segment s).2.segment.format = s.segment.format
      ∧ (gst_base_idle_src_new_segment e segment s).2.segment_pending = true
      ∧ (gst_base_idle_src_new_segment e segment s).2.running = true)
    ∧ (∀ (nb : Int) (bs : Nat),
        (gst_base_idle_src_init nb bs).segment.format = GST_FORMAT_BYTES) := by
  refine ⟨?_, ?_, fun _ _ => rfl⟩
  · intro h
    unfold gst_base_idle_src_new_segment
    rcases h with h | h
    · simp [h]
    · by_cases hu : s.segment.format = GST_FORMAT_UNDEFINED
      · simp [hu]
      · simp [hu, h]
  · rintro ⟨hu, hf⟩
    unfold gst_base_idle_src_new_segment
    rw [if_neg hu, if_neg (fun h => h hf)]
    exact ⟨rfl, rfl, hf.symm, rfl, rfl⟩

/-- Instance of C16: a TIME segment is rejected by the initial element, a
BYTES segment is taken. -/
theorem new_segment_rejects_format_mismatch_witness :
    gst_base_idle_src_new_segment demo_env demo_time_segment demo_init = (false, demo_init)
    ∧ (gst_base_idle_src_new_segment demo_env demo_bytes_segment demo_init).2.segment
        = demo_bytes_segment :=
  ⟨(new_segment_rejects_format_mismatch demo_env demo_time_segment demo_init).1
      (Or.inr (by decide)),
   ((new_segment_rejects_format_mismatch demo_env demo_bytes_segment demo_init).2.1
      ⟨by decide, by decide⟩).2.1⟩

/-- C19: gst_base_idle_src_send_event with a FLUSH_STOP event runs
set_flushing (FALSE), then pushes the event downstream, marks a segment as
pending and starts the task exactly when the pad is in push mode and the source
is not live or live_running is true.  The value returned is the answer of the
downstream push. -/
theorem flush_stop_restart_condition (k : GstBaseIdleSrcClass) (e : Env) (event : GstEvent)
    (s : GstBaseIdleSrc) (hev : event.type = GST_EVENT_FLUSH_STOP) :
    let s1 := (gst_base_idle_src_set_flushing k false s).2
    let restart : Prop :=
      s.pad_mode = GST_PAD_MODE_PUSH ∧ (s.is_live = false ∨ s.live_running = true)
    let r := gst_base_idle_src_send_event k e event s
    r.1 = e.pad_push_event s1 event
    ∧ r.2.flushing = false
    ∧ r.2.segment_pending = true
    ∧ (restart → r.2 = { s1 with
          segment_pending := true
          trace := s1.trace ++ [Call.pad_push_event event, Call.pad_start_task] })
    ∧ (¬ restart → r.2 = { s1 with
          segment_pending := true
          trace := s1.trace ++ [Call.pad_push_event event] })
    ∧ (∃ calls, r.2.trace = s.trace ++ calls ∧ (Call.pad_start_task ∈ calls ↔ restart)) := by
  intro s1 restart r
  have hr : r = gst_base_idle_src_send_event k e event s := rfl
  have hs1 : s1 = (gst_base_idle_src_set_flushing k false s).2 := rfl
  rw [set_flushing_false_eq] at hs1
  simp only [gst_base_idle_src_send_event, hev, set_flushing_false_eq, log] at hr
  by_cases hre : restart
  · have hstart : (if s.is_live = true then
          (if (!s.live_running) = true then false else decide (s.pad_mode = GST_PAD_MODE_PUSH))
        else decide (s.pad_mode = GST_PAD_MODE_PUSH)) = true := by
      obtain ⟨hm, hl | hl⟩ := hre <;> simp [hm, hl]
    simp only [hstart, if_true] at hr
    rw [hr, hs1]
    refine ⟨rfl, rfl, rfl, fun _ => by simp, fun h => absurd hre h, ?_⟩
    refine ⟨((s.pool.map (Call.pool_set_flushing · false)).toList
      ++ (k.unlock_stop.map (fun _ => Call.hook_unlock_stop)).toList)
      ++ [Call.pad_push_event event, Call.pad_start_task], by simp, ?_⟩
    exact ⟨fun _ => hre, fun _ => by simp⟩
  · have hstart : (if s.is_live = true then
          (if (!s.live_running) = true then false else decide (s.pad_mode = GST_PAD_MODE_PUSH))
        else decide (s.pad_mode = GST_PAD_MODE_PUSH)) = false := by
      simp only [restart, not_and_or, not_or] at hre
      cases hl : s.is_live <;> cases hlr : s.live_running <;> simp_all
    simp only [hstart, Bool.false_eq_true, if_false] at hr
    rw [hr, hs1]
    refine ⟨rfl, rfl, rfl, fun h => absurd h hre, fun _ => by simp, ?_⟩
    refine ⟨((s.pool.map (Call.pool_set_flushing · false)).toList
      ++ (k.unlock_stop.map (fun _ => Call.hook_unlock_stop)).toList)
      ++ [Call.pad_push_event event], by simp, ?_⟩
    cases s.pool <;> cases k.unlock_stop <;> simp [hre]

/-- Instance of C19: a live playing source in push mode restarts its task. -/
theorem flush_stop_restart_condition_witness :
    (gst_base_idle_src_send_event demo_class demo_env ⟨GST_EVENT_FLUSH_STOP, 9⟩
        demo_live_playing).2
      = { (gst_base_idle_src_set_flushing demo_class false demo_live_playing).2 with
          segment_pending := true
          trace := (gst_base_idle_src_set_flushing demo_class false demo_live_playing).2.trace
            ++ [Call.pad_push_event ⟨GST_EVENT_FLUSH_STOP, 9⟩, Call.pad_start_task] } :=
  (flush_stop_restart_condition demo_class demo_env ⟨GST_EVENT_FLUSH_STOP, 9⟩
    demo_live_playing rfl).2.2.2.1 ⟨rfl, Or.inr rfl⟩

/-- The EOS branch of gst_base_idle_src_send_event in push mode. -/
theorem send_event_eos_push (k : GstBaseIdleSrcClass) (e : Env) (event : GstEvent)
    (s : GstBaseIdleSrc) (hev : event.type = GST_EVENT_EOS)
    (hm : s.pad_mode = GST_PAD_MODE_PUSH) :
    gst_base_idle_src_send_event k e event s =
      (true, ({ (gst_base_idle_src_set_flushing k false
          (gst_base_idle_src_set_flushing k true s).2).2 with
        has_pending_eos := true, pending_eos := some event }).log Call.pad_start_task) := by
  simp only [gst_base_idle_src_send_event, hev, hm, decide_True, if_true]

/-- The EOS branch of gst_base_idle_src_send_event when the pad is not in push
mode. -/
theorem send_event_eos_pull (k : GstBaseIdleSrcClass) (e : Env) (event : GstEvent)
    (s : GstBaseIdleSrc) (hev : event.type = GST_EVENT_EOS)
    (hm : s.pad_mode ≠ GST_PAD_MODE_PUSH) :
    gst_base_idle_src_send_event k e event s =
      (true, gst_base_idle_src_set_pool_flushing true
        (match k.unlock_stop with
          | some _ => (match k.unlock with
              | some _ => (gst_base_idle_src_set_pool_flushing true
                  { s with has_pending_eos := true, pending_eos := some event }).log
                    Call.hook_unlock
              | none => gst_base_idle_src_set_pool_flushing true
                  { s with has_pending_eos := true, pending_eos := some event }).log
                Call.hook_unlock_stop
          | none => (match k.unlock with
              | some _ => (gst_base_idle_src_set_pool_flushing true
                  { s with has_pending_eos := true, pending_eos := some event }).log
                    Call.hook_unlock
              | none => gst_base_idle_src_set_pool_flushing true
                  { s with has_pending_eos := true, pending_eos := some event }))) := by
  simp only [gst_base_idle_src_send_event, hev, hm, decide_False, Bool.false_eq_true, if_false]

/-- C20: gst_base_idle_src_send_event with an EOS event returns TRUE in every
pad mode; afterwards has_pending_eos is true and pending_eos is this event,
whatever payload was pending before.  In push mode flushing is false afterwards
and the last outside call is the start of the task. -/
theorem eos_marks_pending (k : GstBaseIdleSrcClass) (e : Env) (event : GstEvent)
    (s : GstBaseIdleSrc) (hev : event.type = GST_EVENT_EOS) :
    (gst_base_idle_src_send_event k e event s).1 = true
    ∧ (gst_base_idle_src_send_event k e event s).2.has_pending_eos = true
    ∧ (gst_base_idle_src_send_event k e event s).2.pending_eos = some event
    ∧ (s.pad_mode = GST_PAD_MODE_PUSH →
        (gst_base_idle_src_send_event k e event s).2.flushing = false
        ∧ ∃ calls, (gst_base_idle_src_send_event k e event s).2.trace
            = s.trace ++ calls ++ [Call.pad_start_task]) := by
  by_cases hm : s.pad_mode = GST_PAD_MODE_PUSH
  · rw [send_event_eos_push k e event s hev hm, set_flushing_false_eq, set_flushing_true_eq]
    refine ⟨rfl, rfl, rfl, fun _ => ⟨rfl, ?_⟩⟩
    exact ⟨((s.pool.map (Call.pool_set_flushing · true)).toList
        ++ ((k.unlock.map (fun _ => Call.hook_unlock)).toList
        ++ (s.clock_id.map Call.clock_id_unschedule).toList))
      ++ ((s.pool.map (Call.pool_set_flushing · false)).toList
        ++ (k.unlock_stop.map (fun _ => Call.hook_unlock_stop)).toList), by simp [log]⟩
  · rw [send_event_eos_pull k e event s hev hm]
    refine ⟨rfl, ?_, ?_, fun h => absurd h hm⟩
    · cases k.unlock <;> cases k.unlock_stop <;> simp [set_pool_flushing_eq, log]
    · cases k.unlock <;> cases k.unlock_stop <;> simp [set_pool_flushing_eq, log]

/-- Instance of C20: an EOS sent to a started element in push mode that already
has an EOS pending. -/
theorem eos_marks_pending_witness :
    demo_started_with_resources.pending_eos = some ⟨GST_EVENT_EOS, 1⟩
    ∧ (gst_base_idle_src_send_event demo_class demo_env ⟨GST_EVENT_EOS, 8⟩
        demo_started_with_resources).2.pending_eos = some ⟨GST_EVENT_EOS, 8⟩
    ∧ (gst_base_idle_src_send_event demo_class demo_env ⟨GST_EVENT_EOS, 8⟩
        demo_started_with_resources).2.flushing = false :=
  ⟨rfl,
   (eos_marks_pending demo_class demo_env ⟨GST_EVENT_EOS, 8⟩ demo_started_with_resources
      rfl).2.2.1,
   ((eos_marks_pending demo_class demo_env ⟨GST_EVENT_EOS, 8⟩ demo_started_with_resources
      rfl).2.2.2 rfl).1⟩

/-- C18 as stated fails: the parent class answers GST_STATE_CHANGE_NO_PREROLL on
NULL_TO_READY for a source that is not live, and
gst_base_idle_src_change_state returns GST_STATE_CHANGE_NO_PREROLL although the
parent result is not SUCCESS. -/
theorem no_preroll_classification_counterexample :
    (no_preroll_env.parent_change_state demo_init GST_STATE_CHANGE_NULL_TO_READY).1
        = GST_STATE_CHANGE_NO_PREROLL
    ∧ gst_base_idle_src_is_live demo_init = false
    ∧ (gst_base_idle_src_change_state no_preroll_env GST_STATE_CHANGE_NULL_TO_READY
        demo_init).1 = GST_STATE_CHANGE_NO_PREROLL
    ∧ GST_STATE_CHANGE_NO_PREROLL ≠ GST_STATE_CHANGE_SUCCESS :=
  ⟨rfl, rfl, rfl, by decide⟩

/-- C18 amended: let p be the result of the parent class, called on the element
after the pre-transition action.  gst_base_idle_src_change_state returns a
value other than p exactly when p is SUCCESS, the source is live and the
transition is READY_TO_PAUSED or PLAYING_TO_PAUSED, and that value is
GST_STATE_CHANGE_NO_PREROLL; so it returns NO_PREROLL exactly in that case or
when p itself is NO_PREROLL.  A FAILURE is returned with no post-transition
action.  live_running is written only for a live source: true on
PAUSED_TO_PLAYING, false on PLAYING_TO_PAUSED when the parent did not fail. -/
theorem no_preroll_classification (e : Env) (transition : GstStateChange)
    (s : GstBaseIdleSrc) :
    let s0 := if gst_base_idle_src_is_live s = true
        ∧ transition = GST_STATE_CHANGE_PAUSED_TO_PLAYING
      then (gst_base_idle_src_set_playing true s).2 else s
    let p := (e.parent_change_state s0 transition).1
    let r := gst_base_idle_src_change_state e transition s
    let converted : Prop := p = GST_STATE_CHANGE_SUCCESS ∧ gst_base_idle_src_is_live s = true
      ∧ (transition = GST_STATE_CHANGE_READY_TO_PAUSED
          ∨ transition = GST_STATE_CHANGE_PLAYING_TO_PAUSED)
    (r.1 = GST_STATE_CHANGE_NO_PREROLL ↔ (p = GST_STATE_CHANGE_NO_PREROLL ∨ converted))
    ∧ (r.1 ≠ p ↔ converted)
    ∧ (p = GST_STATE_CHANGE_FAILURE →
        r = (GST_STATE_CHANGE_FAILURE,
          { s0.log (Call.parent_change_state transition) with
            pad_mode := (e.parent_change_state s0 transition).2 }))
    ∧ (gst_base_idle_src_is_live s = false → r.2.live_running = s.live_running)
    ∧ (gst_base_idle_src_is_live s = true →
        transition = GST_STATE_CHANGE_PAUSED_TO_PLAYING → r.2.live_running = true)
    ∧ (gst_base_idle_src_is_live s = true →
        transition = GST_STATE_CHANGE_PLAYING_TO_PAUSED → p ≠ GST_STATE_CHANGE_FAILURE →
        r.2.live_running = false)
    ∧ (transition ≠ GST_STATE_CHANGE_PAUSED_TO_PLAYING →
        transition ≠ GST_STATE_CHANGE_PLAYING_TO_PAUSED →
        r.2.live_running = s.live_running) := by
  intro s0 p r converted
  cases hl : s.is_live <;> cases hpe : s.has_pending_eos <;> cases transition <;>
    simp only [r, p, s0, converted, gst_base_idle_src_change_state,
      gst_base_idle_src_set_playing, gst_base_idle_src_is_live, CLEAR_PENDING_EOS, log, hl,
      hpe] <;>
    simp <;>
    (try (generalize e.parent_change_state _ _ = par
          rcases par with ⟨p', pm⟩
          cases p' <;> simp [hl, hpe]))

/-- Instance of C18 amended: a live source reports no preroll on
READY_TO_PAUSED and opens the play gate on PAUSED_TO_PLAYING. -/
theorem no_preroll_classification_witness :
    (gst_base_idle_src_change_state demo_env GST_STATE_CHANGE_READY_TO_PAUSED
        demo_live_playing).1 = GST_STATE_CHANGE_NO_PREROLL
    ∧ (gst_base_idle_src_change_state demo_env GST_STATE_CHANGE_PAUSED_TO_PLAYING
        { demo_live_playing with live_running := false }).2.live_running = true :=
  ⟨(no_preroll_classification demo_env GST_STATE_CHANGE_READY_TO_PAUSED
      demo_live_playing).1.mpr (Or.inr ⟨rfl, rfl, Or.inl rfl⟩),
   (no_preroll_classification demo_env GST_STATE_CHANGE_PAUSED_TO_PLAYING
      { demo_live_playing with live_running := false }).2.2.2.2.1 rfl rfl⟩
/-- C17: the code does not keep the format after a successful start.  A source
with the default BYTES format is started in push mode and ends Started;
gst_base_idle_src_set_do_timestamp (TRUE) then re-initialises the segment in
TIME format, while gst_base_idle_src_set_format in state PAUSED, which checks
the state of the element, leaves the format alone. -/
theorem segment_format_changed_by_set_do_timestamp :
    (gst_base_idle_src_start demo_class demo_env
        { demo_init with pad_mode := GST_PAD_MODE_PUSH }).map
      (fun r => (r.1, lifecycle r.2, r.2.segment.format,
        (gst_base_idle_src_set_do_timestamp true r.2).segment.format,
        (gst_base_idle_src_set_format GstState.GST_STATE_PAUSED GST_FORMAT_TIME
          r.2).segment.format))
      = some (true, LifecycleState.Started, GST_FORMAT_BYTES, GST_FORMAT_TIME,
          GST_FORMAT_BYTES) :=
  rfl

theorem stop_segment (k : GstBaseIdleSrcClass) (e : Env) (s : GstBaseIdleSrc) :
    (gst_base_idle_src_stop k e s).2.segment = s.segment := by
  obtain ⟨tr, h⟩ := stop_frame k e s
  rw [h]
  split <;> rfl

theorem start_complete_setup_format (k : GstBaseIdleSrcClass) (s : GstBaseIdleSrc) :
    (start_complete_setup k s).segment.format = s.segment.format := by
  simp only [start_complete_setup, start_complete_size, gst_base_idle_src_seekable, log]
  (repeat' split) <;> rfl

/-- With a seek routine that keeps the format, start_complete keeps it. -/
theorem start_complete_format (k : GstBaseIdleSrcClass) (e : Env)
    (hseek : ∀ t ev u, (e.perform_seek t ev u).2.segment.format = t.segment.format)
    (ret : GstFlowReturn) (s : GstBaseIdleSrc) :
    (gst_base_idle_src_start_complete k e ret s).segment.format = s.segment.format := by
  by_cases h : ret = GST_FLOW_OK
  · subst h
    have hsk : (start_complete_seek e (start_complete_setup k s)).2.segment.format
        = s.segment.format := by
      unfold start_complete_seek
      rw [hseek]
      exact start_complete_setup_format k s
    rw [start_complete_ok_eq]
    split
    · split
      · exact hsk
      · show (gst_base_idle_src_stop k e _).2.segment.format = _
        rw [stop_segment]
        exact hsk
    · split
      · exact start_complete_setup_format k s
      · show (gst_base_idle_src_stop k e _).2.segment.format = _
        rw [stop_segment]
        exact start_complete_setup_format k s
    · show (gst_base_idle_src_stop k e _).2.segment.format = _
      rw [stop_segment]
      exact start_complete_setup_format k s
  · rw [start_complete_not_ok k e ret s h]

/-- With a seek routine that keeps the format, start keeps it. -/
theorem start_format (k : GstBaseIdleSrcClass) (e : Env)
    (hseek : ∀ t ev u, (e.perform_seek t ev u).2.segment.format = t.segment.format)
    (s s' : GstBaseIdleSrc) (b : Bool) (h : gst_base_idle_src_start k e s = some (b, s')) :
    s'.segment.format = s.segment.format := by
  unfold gst_base_idle_src_start at h
  cases h1 : s.flag_starting with
  | true =>
    simp [h1] at h
    rw [← h.2]
  | false =>
    cases h2 : s.flag_started with
    | true =>
      simp [h1, h2] at h
      rw [← h.2]
    | false =>
      simp only [h1, h2, Bool.false_eq_true, if_false] at h
      have key : ∀ result t, t.segment.format = s.segment.format →
          start_finish k e result t = some (b, s') →
          s'.segment.format = s.segment.format := by
        intro result t ht hfin
        unfold start_finish at hfin
        cases result
        · simp only [Bool.not_false, if_true, Option.some.injEq, Prod.mk.injEq] at hfin
          rw [← hfin.2, start_complete_format k e hseek]
          exact ht
        · simp only [Bool.not_true, Bool.false_eq_true, if_false] at hfin
          cases ha : gst_base_idle_src_is_async t
          · simp only [ha, Bool.not_false, if_true, gst_base_idle_src_start_wait,
              start_complete_flag_starting, Bool.false_eq_true, if_false,
              Option.some.injEq, Prod.mk.injEq] at hfin
            rw [← hfin.2, start_complete_format k e hseek]
            exact ht
          · simp only [ha, Bool.not_true, Bool.false_eq_true, if_false, Option.some.injEq,
              Prod.mk.injEq] at hfin
            rw [← hfin.2]
            exact ht
      cases hk : k.start with
      | some hook =>
        rw [hk] at h
        exact key (hook (start_prepare e s)) ((start_prepare e s).log Call.hook_start) rfl h
      | none =>
        rw [hk] at h
        exact key true (start_prepare e s) rfl h

/-- The other calls named with C17 keep the segment format, given a seek
routine that keeps it: set_do_timestamp (FALSE), set_do_timestamp (TRUE) on a
TIME segment, new_segment, new_seamless_segment, stop, start, start_complete,
set_flushing, send_event and change_state. -/
theorem segment_format_kept_by_other_calls (k : GstBaseIdleSrcClass) (e : Env)
    (hseek : ∀ t ev u, (e.perform_seek t ev u).2.segment.format = t.segment.format)
    (s : GstBaseIdleSrc) :
    (gst_base_idle_src_set_do_timestamp false s).segment.format = s.segment.format
    ∧ (s.segment.format = GST_FORMAT_TIME →
        (gst_base_idle_src_set_do_timestamp true s).segment.format = s.segment.format)
    ∧ (∀ segment, (gst_base_idle_src_new_segment e segment s).2.segment.format
        = s.segment.format)
    ∧ (∀ f a b c, (gst_base_idle_src_new_seamless_segment e f a b c s).2.segment.format
        = s.segment.format)
    ∧ (gst_base_idle_src_stop k e s).2.segment.format = s.segment.format
    ∧ (∀ b s', gst_base_idle_src_start k e s = some (b, s') →
        s'.segment.format = s.segment.format)
    ∧ (∀ ret, (gst_base_idle_src_start_complete k e ret s).segment.format = s.segment.format)
    ∧ (∀ b, (gst_base_idle_src_set_flushing k b s).2.segment.format = s.segment.format)
    ∧ (∀ ev, (gst_base_idle_src_send_event k e ev s).2.segment.format = s.segment.format)
    ∧ (∀ tr, (gst_base_idle_src_change_state e tr s).2.segment.format = s.segment.format) := by
  refine ⟨?_, ?_, ?_, ?_, ?_, ?_, ?_, ?_, ?_, ?_⟩
  · simp [gst_base_idle_src_set_do_timestamp]
  · intro h
    simp [gst_base_idle_src_set_do_timestamp, h]
  · intro segment
    unfold gst_base_idle_src_new_segment
    split
    · rfl
    · split
      · rfl
      · rename_i h1 h2
        exact (not_not.mp h2).symm
  · intro f a b c
    rfl
  · rw [stop_segment]
  · intro b s' h
    exact start_format k e hseek s s' b h
  · intro ret
    exact start_complete_format k e hseek ret s
  · intro b
    cases b
    · rw [set_flushing_false_eq]
    · rw [set_flushing_true_eq]
  · intro ev
    rcases ev with ⟨ty, id⟩
    cases ty <;>
      simp only [gst_base_idle_src_send_event, set_flushing_true_eq, set_flushing_false_eq,
        set_pool_flushing_eq, log] <;>
      (repeat' split) <;> simp
  · intro tr
    rcases s with ⟨_, _, _, is_live, _, _, _, _, _, _, _, _, _, _, _, _, _, _, _, _, _, _,
      has_pending_eos, _, _, _, _, _, _, _, _, _, _⟩
    cases is_live <;> cases has_pending_eos <;> cases tr <;>
      simp [gst_base_idle_src_change_state, gst_base_idle_src_set_playing,
        gst_base_idle_src_is_live, CLEAR_PENDING_EOS, log] <;>
      split <;> rfl


/-! ## Events sent to the element: EOS and queued events -/

/-- C21: evaluation of gst_base_idle_src_send_event with an EOS event on a
stopped element whose pad is in pull mode and that has the pool 3.  The call
returns TRUE and leaves the flushing flag as it was, the hooks unlock and
unlock_stop are called in this order, but gst_buffer_pool_set_flushing is
called with TRUE before and again with TRUE after them, so the pool that was
not flushing before the call is flushing after it. -/
theorem send_event_eos_pull_leaves_pool_flushing :
    (gst_base_idle_src_send_event demo_class demo_env ⟨GST_EVENT_EOS, 1⟩
        demo_pull_with_pool).1 = true
    ∧ (gst_base_idle_src_send_event demo_class demo_env ⟨GST_EVENT_EOS, 1⟩
        demo_pull_with_pool).2.flushing = demo_pull_with_pool.flushing
    ∧ (gst_base_idle_src_send_event demo_class demo_env ⟨GST_EVENT_EOS, 1⟩
        demo_pull_with_pool).2.trace = demo_pull_with_pool.trace ++
          [Call.pool_set_flushing 3 true, Call.hook_unlock, Call.hook_unlock_stop,
            Call.pool_set_flushing 3 true]
    ∧ pool_flushing_after 3 false
        ((gst_base_idle_src_send_event demo_class demo_env ⟨GST_EVENT_EOS, 1⟩
          demo_pull_with_pool).2.trace.drop demo_pull_with_pool.trace.length) = true := by
  refine ⟨rfl, rfl, ?_, ?_⟩ <;> decide

/-- The state after a queued event type is sent. -/
theorem send_event_queued_eq (k : GstBaseIdleSrcClass) (e : Env) (event : GstEvent)
    (s : GstBaseIdleSrc) (hty : is_queued_event_type event.type = true) :
    gst_base_idle_src_send_event k e event s =
      (true, { s with pending_events := s.pending_events ++ [event], have_events := true }) := by
  rcases event with ⟨ty, id⟩
  cases ty <;> simp [is_queued_event_type] at hty <;> simp [gst_base_idle_src_send_event]

/-- The state after a list of events of queued types is sent, one after the
other. -/
theorem send_events_queued_eq (k : GstBaseIdleSrcClass) (e : Env) (events : List GstEvent) :
    ∀ s : GstBaseIdleSrc, (∀ ev ∈ events, is_queued_event_type ev.type = true) →
      events.foldl (fun st ev => (gst_base_idle_src_send_event k e ev st).2) s =
        { s with pending_events := s.pending_events ++ events,
                 have_events := s.have_events || !events.isEmpty } := by
  induction events with
  | nil => intro s _; simp
  | cons ev rest ih =>
    intro s h
    have h1 := h ev (List.mem_cons_self _ _)
    have h2 : ∀ x ∈ rest, is_queued_event_type x.type = true :=
      fun x hx => h x (List.mem_cons_of_mem _ hx)
    rw [List.foldl_cons, send_event_queued_eq k e ev s h1, ih _ h2]
    simp

/-- The pad pushes of the loop fragment on an element whose have_events is
set. -/
theorem loop_push_pending_events_eq (s : GstBaseIdleSrc) (h : s.have_events = true) :
    loop_push_pending_events s =
      { s with pending_events := [], have_events := false,
               trace := s.trace ++ s.pending_events.map Call.pad_push_event } := by
  have key : ∀ (l : List GstEvent) (t : GstBaseIdleSrc),
      l.foldl (fun st ev => st.log (Call.pad_push_event ev)) t =
        { t with trace := t.trace ++ l.map Call.pad_push_event } := by
    intro l
    induction l with
    | nil => intro t; simp
    | cons ev rest ih => intro t; rw [List.foldl_cons, ih]; simp [log]
  simp only [loop_push_pending_events, loop_take_pending_events, h, if_true]
  rw [key]

/-- C22: for every state and every event of type TAG, SINK_MESSAGE,
CUSTOM_DOWNSTREAM, CUSTOM_BOTH or PROTECTION, gst_base_idle_src_send_event
returns TRUE and changes only pending_events, which gets the event at its
tail, and have_events, which is set.  Events of these types sent one after
the other are queued behind the old queue in the order sent, and the loop
fragment that takes the queue pushes the old queue and then these events in
that order, leaving the queue empty. -/
theorem send_event_queues_fifo (k : GstBaseIdleSrcClass) (e : Env) (s : GstBaseIdleSrc) :
    (∀ event : GstEvent,
      event.type ∈ [GST_EVENT_TAG, GST_EVENT_SINK_MESSAGE, GST_EVENT_CUSTOM_DOWNSTREAM,
        GST_EVENT_CUSTOM_BOTH, GST_EVENT_PROTECTION] →
      gst_base_idle_src_send_event k e event s =
        (true, { s with pending_events := s.pending_events ++ [event],
                        have_events := true }))
    ∧ (∀ events : List GstEvent,
      (∀ ev ∈ events, ev.type ∈ [GST_EVENT_TAG, GST_EVENT_SINK_MESSAGE,
        GST_EVENT_CUSTOM_DOWNSTREAM, GST_EVENT_CUSTOM_BOTH, GST_EVENT_PROTECTION]) →
      events ≠ [] →
      events.foldl (fun st ev => (gst_base_idle_src_send_event k e ev st).2) s =
          { s with pending_events := s.pending_events ++ events, have_events := true }
      ∧ loop_push_pending_events
          (events.foldl (fun st ev => (gst_base_idle_src_send_event k e ev st).2) s) =
          { s with pending_events := [], have_events := false,
                   trace := s.trace ++ (s.pending_events ++ events).map Call.pad_push_event }) := by
  have hq : ∀ ty : GstEventType,
      ty ∈ [GST_EVENT_TAG, GST_EVENT_SINK_MESSAGE, GST_EVENT_CUSTOM_DOWNSTREAM,
        GST_EVENT_CUSTOM_BOTH, GST_EVENT_PROTECTION] → is_queued_event_type ty = true := by
    intro ty h
    simp only [List.mem_cons, List.mem_singleton, List.not_mem_nil, or_false] at h
    rcases h with h | h | h | h | h <;> subst h <;> rfl
  refine ⟨fun event h => send_event_queued_eq k e event s (hq _ h), ?_⟩
  intro events hall hne
  have hfold := send_events_queued_eq k e events s (fun ev hev => hq _ (hall ev hev))
  have hemp : events.isEmpty = false := by
    cases events with
    | nil => exact absurd rfl hne
    | cons _ _ => rfl
  have hfold2 : events.foldl (fun st ev => (gst_base_idle_src_send_event k e ev st).2) s =
      { s with pending_events := s.pending_events ++ events, have_events := true } := by
    rw [hfold, hemp]; simp
  refine ⟨hfold2, ?_⟩
  rw [hfold2, loop_push_pending_events_eq _ rfl]

/-- C22 at a concrete input: two tags and a custom event sent to the initial
element. -/
theorem send_event_queues_fifo_witness :
    ([⟨GST_EVENT_TAG, 1⟩, ⟨GST_EVENT_CUSTOM_BOTH, 2⟩, ⟨GST_EVENT_TAG, 3⟩] : List GstEvent).foldl
        (fun st ev => (gst_base_idle_src_send_event demo_class demo_env ev st).2) demo_init =
      { demo_init with
          pending_events := demo_init.pending_events ++
            [⟨GST_EVENT_TAG, 1⟩, ⟨GST_EVENT_CUSTOM_BOTH, 2⟩, ⟨GST_EVENT_TAG, 3⟩],
          have_events := true } :=
  ((send_event_queues_fifo demo_class demo_env demo_init).2
    [⟨GST_EVENT_TAG, 1⟩, ⟨GST_EVENT_CUSTOM_BOTH, 2⟩, ⟨GST_EVENT_TAG, 3⟩]
    (by decide) (by decide)).1


/-! ## Replacing the pool -/

/-- The result of gst_base_idle_src_set_allocation when the new pool is there
and its activation fails. -/
theorem set_allocation_fail_eq (e : Env) (p : GstBufferPool)
    (allocator : Option GstAllocator) (params : Option GstAllocationParams)
    (s : GstBaseIdleSrc) (h : e.pool_set_active s p true = false) :
    gst_base_idle_src_set_allocation e (some p) allocator params s =
      (false, { s with trace := s.trace ++ [Call.pool_set_active p true] }) := by
  simp [gst_base_idle_src_set_allocation, h, log]

/-- The result of gst_base_idle_src_set_allocation when there is no new pool or
its activation succeeds. -/
theorem set_allocation_ok_eq (e : Env) (pool : Option GstBufferPool)
    (allocator : Option GstAllocator) (params : Option GstAllocationParams)
    (s : GstBaseIdleSrc) (h : ∀ p, pool = some p → e.pool_set_active s p true = true) :
    gst_base_idle_src_set_allocation e pool allocator params s =
      (true, { s with
        pool := pool
        allocator := allocator
        params := params.getD gst_allocation_params_init
        trace := s.trace ++ (pool.map (Call.pool_set_active · true)).toList ++
          (if s.pool ≠ pool then (s.pool.map (Call.pool_set_active · false)).toList
            else []) }) := by
  rcases s with ⟨_, _, _, _, _, _, _, _, _, _, _, _, _, _, _, _, _, _, _, _, _, _,
    _, _, _, _, _, _, oldpool, _, _, _, _⟩
  cases pool with
  | none =>
    cases oldpool <;> cases params <;> simp [gst_base_idle_src_set_allocation, log]
  | some p =>
    have hp := h p rfl
    cases oldpool with
    | none => cases params <;> simp [gst_base_idle_src_set_allocation, log, hp]
    | some op =>
      by_cases hop : op = p
      · subst hop
        cases params <;> simp [gst_base_idle_src_set_allocation, log, hp]
      · cases params <;> simp [gst_base_idle_src_set_allocation, log, hp, hop]

/-- C24: gst_base_idle_src_set_allocation returns FALSE exactly when the new
pool is present and its activation fails; then pool, allocator and params of
the element are unchanged and the only outside call is the failed activation,
so no pool is deactivated.  Otherwise it returns TRUE, stores the new pool and
allocator, stores the given params or the default params when none are given,
and deactivates a pool exactly when it is the old pool and the old pool is
distinct from the new pool. -/
theorem set_allocation_contract (e : Env) (pool : Option GstBufferPool)
    (allocator : Option GstAllocator) (params : Option GstAllocationParams)
    (s : GstBaseIdleSrc) :
    ((gst_base_idle_src_set_allocation e pool allocator params s).1 = false ↔
      ∃ p, pool = some p ∧ e.pool_set_active s p true = false)
    ∧ ((gst_base_idle_src_set_allocation e pool allocator params s).1 = false →
      (gst_base_idle_src_set_allocation e pool allocator params s).2.pool = s.pool
      ∧ (gst_base_idle_src_set_allocation e pool allocator params s).2.allocator = s.allocator
      ∧ (gst_base_idle_src_set_allocation e pool allocator params s).2.params = s.params
      ∧ (∃ p, pool = some p ∧
          (gst_base_idle_src_set_allocation e pool allocator params s).2 =
            { s with trace := s.trace ++ [Call.pool_set_active p true] })
      ∧ ∀ op, Call.pool_set_active op false ∉
          (gst_base_idle_src_set_allocation e pool allocator params s).2.trace.drop
            s.trace.length)
    ∧ ((gst_base_idle_src_set_allocation e pool allocator params s).1 = true →
      (gst_base_idle_src_set_allocation e pool allocator params s).2.pool = pool
      ∧ (gst_base_idle_src_set_allocation e pool allocator params s).2.allocator = allocator
      ∧ (gst_base_idle_src_set_allocation e pool allocator params s).2.params =
          (match params with
            | some p => p
            | none => gst_allocation_params_init)
      ∧ ∀ op, Call.pool_set_active op false ∈
          (gst_base_idle_src_set_allocation e pool allocator params s).2.trace.drop
            s.trace.length ↔ (s.pool = some op ∧ s.pool ≠ pool)) := by
  by_cases hf : ∃ p, pool = some p ∧ e.pool_set_active s p true = false
  · obtain ⟨p, hp, hact⟩ := hf
    subst hp
    rw [set_allocation_fail_eq e p allocator params s hact]
    refine ⟨⟨fun _ => ⟨p, rfl, hact⟩, fun _ => rfl⟩, fun _ => ?_, fun h => by simp at h⟩
    refine ⟨rfl, rfl, rfl, ⟨p, rfl, rfl⟩, ?_⟩
    intro op
    simp
  · have hok : ∀ p, pool = some p → e.pool_set_active s p true = true := by
      intro p hp
      by_contra hc
      exact hf ⟨p, hp, by simpa using hc⟩
    rw [set_allocation_ok_eq e pool allocator params s hok]
    refine ⟨⟨fun h => by simp at h, fun h => absurd h hf⟩, fun h => by simp at h, fun _ => ?_⟩
    refine ⟨rfl, rfl, ?_, ?_⟩
    · cases params <;> rfl
    · intro op
      simp only [List.append_assoc, List.drop_left]
      cases hpool : pool <;> cases hold : s.pool <;> simp
      all_goals
        constructor <;> intro h <;>
          first | exact h.symm | exact ⟨h.2.symm, h.1⟩ | exact ⟨h.2, h.1.symm⟩

/-- C24 at concrete inputs: on an element that holds the pool 3, the pool 8
whose activation fails leaves the element with its pool, and the pool 8 whose
activation succeeds replaces it. -/
theorem set_allocation_contract_witness :
    ((gst_base_idle_src_set_allocation failing_pool_env (some 8) (some 9) none
        demo_pull_with_pool).2.pool = some 3)
    ∧ ((gst_base_idle_src_set_allocation demo_env (some 8) (some 9) none
        demo_pull_with_pool).2.pool = some 8) :=
  ⟨((set_allocation_contract failing_pool_env (some 8) (some 9) none
      demo_pull_with_pool).2.1 (by decide)).1,
   ((set_allocation_contract demo_env (some 8) (some 9) none
      demo_pull_with_pool).2.2 (by decide)).1⟩


/-! ## Size and random access in start_complete -/

/-- The size step in byte format. -/
theorem start_complete_size_bytes (k : GstBaseIdleSrcClass) (s : GstBaseIdleSrc)
    (hf : s.segment.format = GST_FORMAT_BYTES) :
    start_complete_size k s =
      { s with
        segment := { s.segment with
          duration := match k.get_size with
            | some h => if (h s).1 = true then (h s).2 else G_MAXUINT64
            | none => G_MAXUINT64 }
        trace := s.trace ++ (k.get_size.map (fun _ => Call.hook_get_size)).toList } := by
  rcases k with ⟨_, _, get_size, _, _, _⟩
  cases get_size with
  | none => simp [start_complete_size, hf]
  | some h => cases hr : (h s).1 <;> simp [start_complete_size, hf, log, hr]

/-- The size step in another format. -/
theorem start_complete_size_other (k : GstBaseIdleSrcClass) (s : GstBaseIdleSrc)
    (hf : s.segment.format ≠ GST_FORMAT_BYTES) :
    start_complete_size k s = s := by
  simp [start_complete_size, hf]

/-- The segment and the random access flag after the first half of
start_complete, and the calls it adds. -/
theorem start_complete_setup_eq (k : GstBaseIdleSrcClass) (s : GstBaseIdleSrc) :
    start_complete_setup k s =
      { start_complete_size k s with
        random_access :=
          (match k.is_seekable with
            | some h => h (start_complete_size k s)
            | none => false) && decide (s.segment.format = GST_FORMAT_BYTES)
        trace := (start_complete_size k s).trace ++
          (k.is_seekable.map (fun _ => Call.hook_is_seekable)).toList ++
          [Call.pad_mark_reconfigure] } := by
  rcases k with ⟨_, _, _, is_seekable, _, _⟩
  cases is_seekable <;> simp [start_complete_setup, gst_base_idle_src_seekable, log]

/-- The segment and the random access flag after start_complete with
GST_FLOW_OK are those of the first half when the pad is not in push mode, and
those the initial seek leaves when it is. -/
theorem start_complete_ok_segment (k : GstBaseIdleSrcClass) (e : Env) (s : GstBaseIdleSrc) :
    (s.pad_mode ≠ GST_PAD_MODE_PUSH →
      (gst_base_idle_src_start_complete k e GST_FLOW_OK s).segment
          = (start_complete_setup k s).segment
      ∧ (gst_base_idle_src_start_complete k e GST_FLOW_OK s).random_access
          = (start_complete_setup k s).random_access)
    ∧ (s.pad_mode = GST_PAD_MODE_PUSH →
      (gst_base_idle_src_start_complete k e GST_FLOW_OK s).segment
          = (start_complete_seek e (start_complete_setup k s)).2.segment
      ∧ (gst_base_idle_src_start_complete k e GST_FLOW_OK s).random_access
          = (start_complete_seek e (start_complete_setup k s)).2.random_access) := by
  have hstop : ∀ t : GstBaseIdleSrc,
      (start_complete_error GST_FLOW_ERROR (gst_base_idle_src_stop k e t).2).segment = t.segment
      ∧ (start_complete_error GST_FLOW_ERROR (gst_base_idle_src_stop k e t).2).random_access
          = t.random_access := by
    intro t
    obtain ⟨tr, h⟩ := stop_frame k e t
    simp only [start_complete_error]
    rw [h]
    constructor <;> split <;> rfl
  rw [start_complete_ok_eq]
  constructor
  · intro hm
    cases hpm : s.pad_mode with
    | GST_PAD_MODE_PUSH => exact absurd hpm hm
    | GST_PAD_MODE_PULL =>
      simp only []
      split
      · exact ⟨rfl, rfl⟩
      · exact hstop _
    | GST_PAD_MODE_NONE => exact hstop _
  · intro hm
    rw [hm]
    simp only []
    split
    · exact ⟨rfl, rfl⟩
    · exact hstop _

/-- C26: in gst_base_idle_src_start_complete with GST_FLOW_OK, when the format
of the segment is BYTES the duration becomes the size the get_size hook
reports if the hook exists and returns true, and -1 (G_MAXUINT64) if the hook
is absent or returns false, and the rest of the segment is kept; when the
format is not BYTES the segment is unchanged and get_size is not called.  In
both cases random_access becomes the answer of the is_seekable hook (false
without a hook) and format = BYTES.  These are the values of the element after
the call when the pad is not in push mode; in push mode the initial seek
comes after them. -/
theorem start_complete_size_is_duration_for_bytes (k : GstBaseIdleSrcClass) (e : Env)
    (s : GstBaseIdleSrc) :
    (s.segment.format = GST_FORMAT_BYTES →
      (start_complete_setup k s).segment =
        { s.segment with
          duration := match k.get_size with
            | some h => if (h s).1 = true then (h s).2 else G_MAXUINT64
            | none => G_MAXUINT64 }
      ∧ (Call.hook_get_size ∈ (start_complete_setup k s).trace.drop s.trace.length ↔
          k.get_size.isSome = true))
    ∧ (s.segment.format ≠ GST_FORMAT_BYTES →
      (start_complete_setup k s).segment = s.segment
      ∧ Call.hook_get_size ∉ (start_complete_setup k s).trace.drop s.trace.length)
    ∧ (start_complete_setup k s).random_access =
        ((gst_base_idle_src_seekable k (start_complete_size k s)).1
          && decide (s.segment.format = GST_FORMAT_BYTES))
    ∧ (gst_base_idle_src_seekable k (start_complete_size k s)).1 =
        (match k.is_seekable with
          | some h => h (start_complete_size k s)
          | none => false)
    ∧ (s.pad_mode ≠ GST_PAD_MODE_PUSH →
      (gst_base_idle_src_start_complete k e GST_FLOW_OK s).segment
          = (start_complete_setup k s).segment
      ∧ (gst_base_idle_src_start_complete k e GST_FLOW_OK s).random_access
          = (start_complete_setup k s).random_access)
    ∧ (s.pad_mode = GST_PAD_MODE_PUSH →
      (gst_base_idle_src_start_complete k e GST_FLOW_OK s).segment
          = (start_complete_seek e (start_complete_setup k s)).2.segment
      ∧ (gst_base_idle_src_start_complete k e GST_FLOW_OK s).random_access
          = (start_complete_seek e (start_complete_setup k s)).2.random_access) := by
  refine ⟨?_, ?_, ?_, ?_, (start_complete_ok_segment k e s).1, (start_complete_ok_segment k e s).2⟩
  · intro hf
    rw [start_complete_setup_eq, start_complete_size_bytes k s hf]
    refine ⟨rfl, ?_⟩
    simp only [List.append_assoc, List.drop_left]
    cases k.get_size <;> cases k.is_seekable <;> simp
  · intro hf
    rw [start_complete_setup_eq, start_complete_size_other k s hf]
    refine ⟨rfl, ?_⟩
    simp only [List.append_assoc, List.drop_left]
    cases k.is_seekable <;> simp
  · exact (start_complete_setup_fields k s).2.2
  · simp only [gst_base_idle_src_seekable]
    cases k.is_seekable <;> rfl

/-- C26 at concrete inputs: with the demo class, whose get_size reports 1000,
a stopped element in byte format and pull mode gets the duration 1000, and an
element in time format keeps its segment. -/
theorem start_complete_size_is_duration_for_bytes_witness :
    (gst_base_idle_src_start_complete demo_class demo_env GST_FLOW_OK
        demo_pull_stopped).segment.duration = 1000
    ∧ (start_complete_setup demo_class { demo_init with segment := demo_time_segment }).segment
        = demo_time_segment := by
  have h1 := start_complete_size_is_duration_for_bytes demo_class demo_env demo_pull_stopped
  have h2 := start_complete_size_is_duration_for_bytes demo_class demo_env
    { demo_init with segment := demo_time_segment }
  refine ⟨?_, (h2.2.1 (by decide)).1⟩
  rw [(h1.2.2.2.2.1 (by decide)).1, (h1.1 (by decide)).1]
  rfl


/-! ## The hooks called by stop -/

/-- The outside calls of gst_base_idle_src_stop, in order. -/
theorem stop_trace_eq (k : GstBaseIdleSrcClass) (e : Env) (s : GstBaseIdleSrc) :
    (gst_base_idle_src_stop k e s).2.trace =
      s.trace ++ ((s.pool.map (Call.pool_set_flushing · true)).toList
        ++ ((k.unlock.map (fun _ => Call.hook_unlock)).toList
        ++ ((s.clock_id.map Call.clock_id_unschedule).toList
        ++ ([Call.pad_stop_task]
        ++ ((s.pool.map (Call.pool_set_flushing · false)).toList
        ++ ((k.unlock_stop.map (fun _ => Call.hook_unlock_stop)).toList
        ++ (if s.flag_starting || s.flag_started then
              (k.stop.map (fun _ => Call.hook_stop)).toList
                ++ (s.pool.map (Call.pool_set_active · false)).toList
            else []))))))) := by
  rcases k with ⟨_, stop, _, _, _, _⟩
  rcases s with ⟨flag_starting, flag_started, _, _, _, _, _, _, _, _, _, _, _, _, _, _, _,
    _, _, _, _, _, _, _, _, _, _, _, _, _, _, pending_bufferlist, _⟩
  cases flag_starting <;> cases flag_started <;> cases stop <;> cases pending_bufferlist <;>
    simp [gst_base_idle_src_stop, set_flushing_true_eq, set_flushing_false_eq,
      set_allocation_none_eq, log]

/-- The return value of gst_base_idle_src_stop. -/
theorem stop_result_eq (k : GstBaseIdleSrcClass) (e : Env) (s : GstBaseIdleSrc) :
    (gst_base_idle_src_stop k e s).1 =
      if s.flag_starting || s.flag_started then
        match k.stop with
        | some h => h { (gst_base_idle_src_set_flushing k false
            ((gst_base_idle_src_set_flushing k true s).2.log Call.pad_stop_task)).2 with
              flag_starting := false
              flag_started := false
              start_result := GST_FLOW_FLUSHING }
        | none => true
      else true := by
  rcases k with ⟨_, stop, _, _, _, _⟩
  rcases s with ⟨flag_starting, flag_started, _, _, _, _, _, _, _, _, _, _, _, _, _, _, _,
    _, _, _, _, _, _, _, _, _, _, _, _, _, _, _, _⟩
  cases flag_starting <;> cases flag_started <;> cases stop <;>
    simp [gst_base_idle_src_stop, set_flushing_true_eq, set_flushing_false_eq, log]

/-- How often the hooks occur in the calls of gst_base_idle_src_stop. -/
theorem stop_calls_count (pool : Option GstBufferPool) (clock_id : Option GstClockID)
    (unlock unlock_stop stop : Option (GstBaseIdleSrc → Bool)) (flagged : Bool) :
    ((pool.map (Call.pool_set_flushing · true)).toList
        ++ ((unlock.map (fun _ => Call.hook_unlock)).toList
        ++ ((clock_id.map Call.clock_id_unschedule).toList
        ++ ([Call.pad_stop_task]
        ++ ((pool.map (Call.pool_set_flushing · false)).toList
        ++ ((unlock_stop.map (fun _ => Call.hook_unlock_stop)).toList
        ++ (if flagged then
              (stop.map (fun _ => Call.hook_stop)).toList
                ++ (pool.map (Call.pool_set_active · false)).toList
            else []))))))).count Call.hook_unlock = (if unlock.isSome then 1 else 0)
    ∧ ((pool.map (Call.pool_set_flushing · true)).toList
        ++ ((unlock.map (fun _ => Call.hook_unlock)).toList
        ++ ((clock_id.map Call.clock_id_unschedule).toList
        ++ ([Call.pad_stop_task]
        ++ ((pool.map (Call.pool_set_flushing · false)).toList
        ++ ((unlock_stop.map (fun _ => Call.hook_unlock_stop)).toList
        ++ (if flagged then
              (stop.map (fun _ => Call.hook_stop)).toList
                ++ (pool.map (Call.pool_set_active · false)).toList
            else []))))))).count Call.hook_unlock_stop = (if unlock_stop.isSome then 1 else 0)
    ∧ ((pool.map (Call.pool_set_flushing · true)).toList
        ++ ((unlock.map (fun _ => Call.hook_unlock)).toList
        ++ ((clock_id.map Call.clock_id_unschedule).toList
        ++ ([Call.pad_stop_task]
        ++ ((pool.map (Call.pool_set_flushing · false)).toList
        ++ ((unlock_stop.map (fun _ => Call.hook_unlock_stop)).toList
        ++ (if flagged then
              (stop.map (fun _ => Call.hook_stop)).toList
                ++ (pool.map (Call.pool_set_active · false)).toList
            else []))))))).count Call.hook_stop
          = (if flagged && stop.isSome then 1 else 0) := by
  cases pool <;> cases clock_id <;> cases unlock <;> cases unlock_stop <;> cases stop <;>
    cases flagged <;> simp

/-- C27: for every state, the outside calls of one gst_base_idle_src_stop are
some calls, the unlock hook if the class has one, some calls, the unlock_stop
hook if the class has one, and the rest; unlock and unlock_stop occur nowhere
else, so each is called exactly once when present and unlock comes first; the
stop hook occurs only in the rest, after both, exactly once if the element was
Starting or Started and the class has a stop hook, and not at all otherwise.
The return value is the answer of the stop hook when it was called and TRUE
otherwise. -/
theorem stop_balances_unlock (k : GstBaseIdleSrcClass) (e : Env) (s : GstBaseIdleSrc) :
    (∃ a b c,
      (gst_base_idle_src_stop k e s).2.trace = s.trace ++
        (a ++ (k.unlock.map (fun _ => Call.hook_unlock)).toList ++ b ++
          (k.unlock_stop.map (fun _ => Call.hook_unlock_stop)).toList ++ c)
      ∧ Call.hook_unlock ∉ a ++ b ++ c
      ∧ Call.hook_unlock_stop ∉ a ++ b ++ c
      ∧ Call.hook_stop ∉ a ++ b
      ∧ c.count Call.hook_stop =
          if (s.flag_starting || s.flag_started) && k.stop.isSome then 1 else 0)
    ∧ ((gst_base_idle_src_stop k e s).2.trace.drop s.trace.length).count Call.hook_unlock
        = (if k.unlock.isSome then 1 else 0)
    ∧ ((gst_base_idle_src_stop k e s).2.trace.drop s.trace.length).count Call.hook_unlock_stop
        = (if k.unlock_stop.isSome then 1 else 0)
    ∧ ((gst_base_idle_src_stop k e s).2.trace.drop s.trace.length).count Call.hook_stop
        = (if (s.flag_starting || s.flag_started) && k.stop.isSome then 1 else 0)
    ∧ (∀ h, k.stop = some h → (s.flag_starting = true ∨ s.flag_started = true) →
        (gst_base_idle_src_stop k e s).1 =
          h { (gst_base_idle_src_set_flushing k false
            ((gst_base_idle_src_set_flushing k true s).2.log Call.pad_stop_task)).2 with
              flag_starting := false
              flag_started := false
              start_result := GST_FLOW_FLUSHING })
    ∧ ((k.stop = none ∨ (s.flag_starting = false ∧ s.flag_started = false)) →
        (gst_base_idle_src_stop k e s).1 = true) := by
  refine ⟨⟨(s.pool.map (Call.pool_set_flushing · true)).toList,
      (s.clock_id.map Call.clock_id_unschedule).toList ++ ([Call.pad_stop_task]
        ++ (s.pool.map (Call.pool_set_flushing · false)).toList),
      (if s.flag_starting || s.flag_started then
        (k.stop.map (fun _ => Call.hook_stop)).toList
          ++ (s.pool.map (Call.pool_set_active · false)).toList
       else []), ?_, ?_, ?_, ?_, ?_⟩, ?_, ?_, ?_, ?_, ?_⟩
  · rw [stop_trace_eq]; simp
  · cases s.pool <;> cases s.clock_id <;> cases k.stop <;>
      cases s.flag_starting <;> cases s.flag_started <;> simp
  · cases s.pool <;> cases s.clock_id <;> cases k.stop <;>
      cases s.flag_starting <;> cases s.flag_started <;> simp
  · cases s.pool <;> cases s.clock_id <;> simp
  · cases s.pool <;> cases k.stop <;>
      cases s.flag_starting <;> cases s.flag_started <;> simp
  · rw [stop_trace_eq, List.drop_left]
    exact (stop_calls_count s.pool s.clock_id k.unlock k.unlock_stop k.stop
      (s.flag_starting || s.flag_started)).1
  · rw [stop_trace_eq, List.drop_left]
    exact (stop_calls_count s.pool s.clock_id k.unlock k.unlock_stop k.stop
      (s.flag_starting || s.flag_started)).2.1
  · rw [stop_trace_eq, List.drop_left]
    exact (stop_calls_count s.pool s.clock_id k.unlock k.unlock_stop k.stop
      (s.flag_starting || s.flag_started)).2.2
  · intro h hk hf
    rw [stop_result_eq, hk]
    rcases hf with hf | hf <;> simp [hf]
  · intro h
    rw [stop_result_eq]
    rcases h with h | ⟨h1, h2⟩
    · rw [h]; split <;> rfl
    · simp [h1, h2]

/-- C27 at a concrete input: on the started demo element the stop hook of the
demo class answers TRUE and that is what stop returns. -/
theorem stop_balances_unlock_witness :
    (gst_base_idle_src_stop demo_class demo_env demo_started).1 = true := by
  have h := (stop_balances_unlock demo_class demo_env demo_started).2.2.2.2.1
    (fun _ => true) rfl (Or.inr rfl)
  rw [h]


/-! ## The two lifecycle flags exclude each other -/

/-- After the subclass start has answered on an element that is not started,
the element gst_base_idle_src_start returns does not have both flags. -/
theorem start_finish_not_both (k : GstBaseIdleSrcClass) (e : Env) (result : Bool)
    (s : GstBaseIdleSrc) (hs : s.flag_started = false) (b : Bool) (s' : GstBaseIdleSrc)
    (h : start_finish k e result s = some (b, s')) :
    ¬ (s'.flag_starting = true ∧ s'.flag_started = true) := by
  unfold start_finish at h
  cases result
  · simp only [Bool.not_false, if_true, Option.some.injEq, Prod.mk.injEq] at h
    rw [← h.2, start_complete_flag_starting]
    simp
  · simp only [Bool.not_true, Bool.false_eq_true, if_false] at h
    by_cases ha : gst_base_idle_src_is_async s = true
    · simp only [ha, Bool.not_true, Bool.false_eq_true, if_false, Option.some.injEq,
        Prod.mk.injEq] at h
      rw [← h.2, hs]
      simp
    · simp only [ha, Bool.not_false, if_true, gst_base_idle_src_start_wait,
        start_complete_flag_starting, Bool.false_eq_true, if_false, Option.some.injEq,
        Prod.mk.injEq] at h
      rw [← h.2, start_complete_flag_starting]
      simp

/-- One call keeps the property that the two flags are not both set. -/
theorem step_keeps_not_both (k : GstBaseIdleSrcClass) (e : Env) (op : Op)
    (s s' : GstBaseIdleSrc) (h : step k e op s = some s')
    (hinv : ¬ (s.flag_starting = true ∧ s.flag_started = true)) :
    ¬ (s'.flag_starting = true ∧ s'.flag_started = true) := by
  cases op with
  | start =>
    simp only [step, gst_base_idle_src_start] at h
    by_cases h1 : s.flag_starting = true
    · rw [if_pos h1] at h
      simp only [Option.map_some', Option.some.injEq] at h
      subst h; exact hinv
    · by_cases h2 : s.flag_started = true
      · rw [if_neg h1, if_pos h2] at h
        simp only [Option.map_some', Option.some.injEq] at h
        subst h; exact hinv
      · rw [if_neg h1, if_neg h2] at h
        have hp : (start_prepare e s).flag_started = false := by
          simpa [start_prepare] using h2
        cases hk : k.start with
        | some f =>
          rw [hk] at h
          dsimp only at h
          cases hf : start_finish k e (f (start_prepare e s))
              ((start_prepare e s).log Call.hook_start) with
          | none => rw [hf] at h; cases h
          | some r =>
            rw [hf] at h
            simp only [Option.map_some', Option.some.injEq] at h
            subst h
            exact start_finish_not_both k e _ ((start_prepare e s).log Call.hook_start) hp
              r.1 r.2 hf
        | none =>
          rw [hk] at h
          dsimp only at h
          cases hf : start_finish k e true (start_prepare e s) with
          | none => rw [hf] at h; cases h
          | some r =>
            rw [hf] at h
            simp only [Option.map_some', Option.some.injEq] at h
            subst h
            exact start_finish_not_both k e _ _ hp r.1 r.2 hf
  | start_complete ret =>
    simp only [step, Option.some.injEq] at h
    subst h
    rw [start_complete_flag_starting]
    simp
  | start_wait =>
    simp only [step, gst_base_idle_src_start_wait] at h
    split at h
    · cases h
    · simp only [Option.map_some', Option.some.injEq] at h
      subst h
      exact hinv
  | stop =>
    simp only [step, Option.some.injEq] at h
    subst h
    rw [stop_flag_starting]
    simp
  | set_flushing b =>
    simp only [step, Option.some.injEq] at h
    subst h
    obtain ⟨h1, h2, -⟩ := set_flushing_lifecycle k b s
    rw [h1, h2]
    exact hinv
  | send_event ev =>
    simp only [step, Option.some.injEq] at h
    subst h
    obtain ⟨h1, h2, -⟩ := send_event_lifecycle k e ev s
    rw [h1, h2]
    exact hinv
  | change_state tr =>
    simp only [step, Option.some.injEq] at h
    subst h
    obtain ⟨h1, h2, -⟩ := change_state_lifecycle e tr s
    rw [h1, h2]
    exact hinv

/-- A sequence of calls keeps the property that the two flags are not both
set. -/
theorem run_keeps_not_both (k : GstBaseIdleSrcClass) (e : Env) (ops : List Op) :
    ∀ (s s' : GstBaseIdleSrc), run k e ops s = some s' →
      ¬ (s.flag_starting = true ∧ s.flag_started = true) →
      ¬ (s'.flag_starting = true ∧ s'.flag_started = true) := by
  induction ops with
  | nil =>
    intro s s' h hinv
    simp only [run, Option.some.injEq] at h
    subst h
    exact hinv
  | cons op rest ih =>
    intro s s' h hinv
    simp only [run] at h
    cases hstep : step k e op s with
    | none => rw [hstep] at h; cases h
    | some s1 =>
      rw [hstep] at h
      exact ih s1 s' h (step_keeps_not_both k e op s s1 hstep hinv)

/-- C29: in every element reached from the initial element, whatever the
subclass configured for async and live, by a sequence of start, start_complete
with any result, start_wait, stop, set_flushing, send_event and change_state,
the Starting flag and the Started flag are not both set. -/
theorem starting_and_started_exclusive (k : GstBaseIdleSrcClass) (e : Env)
    (nb : Int) (bs : Nat) (async live : Bool) (ops : List Op) (s : GstBaseIdleSrc)
    (h : run k e ops { gst_base_idle_src_init nb bs with async := async, is_live := live }
          = some s) :
    ¬ (s.flag_starting = true ∧ s.flag_started = true) :=
  run_keeps_not_both k e ops _ s h (by simp [gst_base_idle_src_init])

/-- C29 at a concrete input: after start, a late start_complete(OK), a flush
and a second start on an async source the element is reached and does not
have both flags. -/
theorem starting_and_started_exclusive_witness :
    ∃ s, run demo_class demo_env
          [Op.start, Op.change_state GST_STATE_CHANGE_READY_TO_PAUSED,
            Op.start_complete GST_FLOW_OK, Op.set_flushing true, Op.start]
          { gst_base_idle_src_init (-1) 4096 with async := true, is_live := false } = some s
      ∧ s.flag_started = true
      ∧ ¬ (s.flag_starting = true ∧ s.flag_started = true) :=
  ⟨_, rfl, rfl,
    starting_and_started_exclusive demo_class demo_env (-1) 4096 true false
      [Op.start, Op.change_state GST_STATE_CHANGE_READY_TO_PAUSED,
        Op.start_complete GST_FLOW_OK, Op.set_flushing true, Op.start] _ rfl⟩


/-! ## EOS in push mode and the queued events -/

/-- The element after an EOS event is sent in push mode. -/
theorem send_event_eos_push_eq (k : GstBaseIdleSrcClass) (e : Env) (event : GstEvent)
    (s : GstBaseIdleSrc) (hev : event.type = GST_EVENT_EOS)
    (hm : s.pad_mode = GST_PAD_MODE_PUSH) :
    gst_base_idle_src_send_event k e event s = (true, { s with
      flushing := false
      has_pending_eos := true
      pending_eos := some event
      forced_eos := s.forced_eos && !s.has_pending_eos
      pending_events := []
      have_events := s.have_events && s.pending_events.isEmpty
      trace := s.trace ++ ((s.pool.map (Call.pool_set_flushing · true)).toList
        ++ ((k.unlock.map (fun _ => Call.hook_unlock)).toList
        ++ ((s.clock_id.map Call.clock_id_unschedule).toList
        ++ ((s.pool.map (Call.pool_set_flushing · false)).toList
        ++ ((k.unlock_stop.map (fun _ => Call.hook_unlock_stop)).toList
        ++ [Call.pad_start_task]))))) }) := by
  rw [send_event_eos_push k e event s hev hm, set_flushing_true_eq, set_flushing_false_eq]
  simp [log]

/-- C30: when the pad is in push mode and pending_events holds queued events,
after gst_base_idle_src_send_event with an EOS event pending_events is empty
and have_events is false, no call the function makes pushes an event on the
pad, and the loop fragment that takes the queue finds nothing to push.  This
holds in particular when the queue was filled by earlier
gst_base_idle_src_send_event calls with events of the queued types. -/
theorem eos_push_discards_queued_events (k : GstBaseIdleSrcClass) (e : Env)
    (event : GstEvent) (s : GstBaseIdleSrc) (hev : event.type = GST_EVENT_EOS)
    (hm : s.pad_mode = GST_PAD_MODE_PUSH) :
    (s.pending_events ≠ [] →
      (gst_base_idle_src_send_event k e event s).2.pending_events = []
      ∧ (gst_base_idle_src_send_event k e event s).2.have_events = false
      ∧ (∀ ev, Call.pad_push_event ev ∉
          (gst_base_idle_src_send_event k e event s).2.trace.drop s.trace.length)
      ∧ loop_push_pending_events (gst_base_idle_src_send_event k e event s).2
          = (gst_base_idle_src_send_event k e event s).2)
    ∧ (∀ events : List GstEvent,
        (∀ ev ∈ events, is_queued_event_type ev.type = true) → events ≠ [] →
        (events.foldl (fun st ev => (gst_base_idle_src_send_event k e ev st).2) s).pending_events
          = s.pending_events ++ events
        ∧ (gst_base_idle_src_send_event k e event
            (events.foldl (fun st ev =>
              (gst_base_idle_src_send_event k e ev st).2) s)).2.pending_events = []
        ∧ (gst_base_idle_src_send_event k e event
            (events.foldl (fun st ev =>
              (gst_base_idle_src_send_event k e ev st).2) s)).2.have_events = false) := by
  have main : ∀ t : GstBaseIdleSrc, t.pad_mode = GST_PAD_MODE_PUSH → t.pending_events ≠ [] →
      (gst_base_idle_src_send_event k e event t).2.pending_events = []
      ∧ (gst_base_idle_src_send_event k e event t).2.have_events = false
      ∧ (∀ ev, Call.pad_push_event ev ∉
          (gst_base_idle_src_send_event k e event t).2.trace.drop t.trace.length)
      ∧ loop_push_pending_events (gst_base_idle_src_send_event k e event t).2
          = (gst_base_idle_src_send_event k e event t).2 := by
    intro t htm hq
    have hemp : t.pending_events.isEmpty = false := by
      cases hp : t.pending_events with
      | nil => exact absurd hp hq
      | cons _ _ => rfl
    rw [send_event_eos_push_eq k e event t hev htm]
    refine ⟨rfl, by simp [hemp], ?_, ?_⟩
    · intro ev
      simp only [List.drop_left]
      cases t.pool <;> cases k.unlock <;> cases t.clock_id <;> cases k.unlock_stop <;> simp
    · simp [loop_push_pending_events, loop_take_pending_events, hemp]
  refine ⟨main s hm, ?_⟩
  intro events hall hne
  have hfold := send_events_queued_eq k e events s hall
  have hq : (events.foldl (fun st ev =>
      (gst_base_idle_src_send_event k e ev st).2) s).pending_events ≠ [] := by
    rw [hfold]
    simpa using fun _ => hne
  have hpm : (events.foldl (fun st ev =>
      (gst_base_idle_src_send_event k e ev st).2) s).pad_mode = GST_PAD_MODE_PUSH := by
    rw [hfold]
    exact hm
  obtain ⟨h1, h2, -, -⟩ := main _ hpm hq
  refine ⟨?_, h1, h2⟩
  rw [hfold]

/-- C30 at a concrete input: the started demo element in push mode with two
queued events loses them when EOS is sent. -/
theorem eos_push_discards_queued_events_witness :
    demo_started_with_resources.pending_events ≠ []
    ∧ (gst_base_idle_src_send_event demo_class demo_env ⟨GST_EVENT_EOS, 1⟩
        demo_started_with_resources).2.pending_events = []
    ∧ (gst_base_idle_src_send_event demo_class demo_env ⟨GST_EVENT_EOS, 1⟩
        demo_started_with_resources).2.have_events = false :=
  ⟨by decide,
   ((eos_push_discards_queued_events demo_class demo_env ⟨GST_EVENT_EOS, 1⟩
      demo_started_with_resources rfl rfl).1 (by decide)).1,
   ((eos_push_discards_queued_events demo_class demo_env ⟨GST_EVENT_EOS, 1⟩
      demo_started_with_resources rfl rfl).1 (by decide)).2.1⟩


/-! ## The default create -/

/-- The function gst_base_idle_src_default_create when both hooks are there,
by the buffer of the caller, the answer of alloc, the size and the answer of
fill. -/
theorem default_create_eq (a : GstBaseIdleSrc → Nat → Nat → GstFlowReturn × GstBuffer)
    (f : GstBaseIdleSrc → Nat → Nat → GstBuffer → GstFlowReturn)
    (offset size : Nat) (buffer : Option GstBuffer) (s : GstBaseIdleSrc) :
    gst_base_idle_src_default_create (some a) (some f) offset size buffer s =
      match buffer with
      | none =>
        if (a s offset size).1 = GST_FLOW_OK then
          if size = 0 then
            (GST_FLOW_OK, some (a s offset size).2, [CreateCall.alloc offset size])
          else if f s offset size (a s offset size).2 = GST_FLOW_OK then
            (GST_FLOW_OK, some (a s offset size).2,
              [CreateCall.alloc offset size, CreateCall.fill offset size (a s offset size).2])
          else
            (f s offset size (a s offset size).2, none,
              [CreateCall.alloc offset size, CreateCall.fill offset size (a s offset size).2])
        else ((a s offset size).1, none, [CreateCall.alloc offset size])
      | some b =>
        if size = 0 then (GST_FLOW_OK, some b, [])
        else if f s offset size b = GST_FLOW_OK then
          (GST_FLOW_OK, some b, [CreateCall.fill offset size b])
        else (f s offset size b, some b, [CreateCall.fill offset size b]) := by
  cases buffer with
  | none =>
    simp only [gst_base_idle_src_default_create]
    by_cases ha : (a s offset size).1 = GST_FLOW_OK
    · by_cases hs : size = 0
      · simp [ha, hs]
      · by_cases hf : f s offset size (a s offset size).2 = GST_FLOW_OK
        · simp [ha, hs, hf, Nat.pos_of_ne_zero hs]
        · simp [ha, hs, hf, Nat.pos_of_ne_zero hs]
    · simp [ha]
  | some b =>
    simp only [gst_base_idle_src_default_create]
    by_cases hs : size = 0
    · simp [hs]
    · by_cases hf : f s offset size b = GST_FLOW_OK
      · simp [hs, hf, Nat.pos_of_ne_zero hs]
      · simp [hs, hf, Nat.pos_of_ne_zero hs]

/-- C25: gst_base_idle_src_default_create returns GST_FLOW_NOT_SUPPORTED
without a call of a hook exactly when the alloc hook or the fill hook is
missing.  With both hooks, alloc is called exactly when the caller gave no
buffer, and before fill; fill is called exactly when the allocation did not
fail and size > 0, with the same offset and size, on the buffer of the caller
or the allocated one.  The result is GST_FLOW_OK exactly when (a buffer was
given or alloc answered GST_FLOW_OK) and (size = 0 or fill answered
GST_FLOW_OK); otherwise it is the answer of the hook that failed.  On every
result other than GST_FLOW_OK the buffer slot of the caller is unchanged, and
on GST_FLOW_OK it holds the buffer. -/
theorem default_create_is_alloc_then_fill
    (alloc : Option (GstBaseIdleSrc → Nat → Nat → GstFlowReturn × GstBuffer))
    (fill : Option (GstBaseIdleSrc → Nat → Nat → GstBuffer → GstFlowReturn))
    (offset size : Nat) (buffer : Option GstBuffer) (s : GstBaseIdleSrc) :
    (((gst_base_idle_src_default_create alloc fill offset size buffer s).1
          = GST_FLOW_NOT_SUPPORTED
        ∧ (gst_base_idle_src_default_create alloc fill offset size buffer s).2.2 = [])
      ↔ (alloc = none ∨ fill = none))
    ∧ ((gst_base_idle_src_default_create alloc fill offset size buffer s).1 ≠ GST_FLOW_OK →
        (gst_base_idle_src_default_create alloc fill offset size buffer s).2.1 = buffer)
    ∧ (∀ a f, alloc = some a → fill = some f →
        (gst_base_idle_src_default_create alloc fill offset size buffer s).2.2 =
          (if buffer = none then [CreateCall.alloc offset size] else [])
          ++ (if (buffer ≠ none ∨ (a s offset size).1 = GST_FLOW_OK) ∧ size > 0 then
                [CreateCall.fill offset size (buffer.getD (a s offset size).2)]
              else [])
        ∧ ((gst_base_idle_src_default_create alloc fill offset size buffer s).1 = GST_FLOW_OK ↔
            (buffer ≠ none ∨ (a s offset size).1 = GST_FLOW_OK)
            ∧ (size = 0 ∨ f s offset size (buffer.getD (a s offset size).2) = GST_FLOW_OK))
        ∧ ((gst_base_idle_src_default_create alloc fill offset size buffer s).1 = GST_FLOW_OK →
            (gst_base_idle_src_default_create alloc fill offset size buffer s).2.1 =
              some (buffer.getD (a s offset size).2))
        ∧ (buffer = none → (a s offset size).1 ≠ GST_FLOW_OK →
            (gst_base_idle_src_default_create alloc fill offset size buffer s).1 =
              (a s offset size).1)
        ∧ ((buffer ≠ none ∨ (a s offset size).1 = GST_FLOW_OK) → size > 0 →
            f s offset size (buffer.getD (a s offset size).2) ≠ GST_FLOW_OK →
            (gst_base_idle_src_default_create alloc fill offset size buffer s).1 =
              f s offset size (buffer.getD (a s offset size).2))) := by
  refine ⟨?_, ?_, ?_⟩
  · cases alloc with
    | none => cases fill <;> simp [gst_base_idle_src_default_create]
    | some a =>
      cases fill with
      | none => simp [gst_base_idle_src_default_create]
      | some f =>
        rw [default_create_eq]
        simp only [reduceCtorEq, or_self, iff_false, not_and]
        cases buffer with
        | none =>
          simp only []
          split
          · split
            · intro h; cases h
            · split
              · intro h; cases h
              · intro _; simp
          · intro _; simp
        | some b =>
          simp only []
          split
          · intro h; cases h
          · split
            · intro h; cases h
            · intro _; simp
  · cases alloc with
    | none => intro _; cases fill <;> rfl
    | some a =>
      cases fill with
      | none => intro _; rfl
      | some f =>
        rw [default_create_eq]
        cases buffer with
        | none =>
          simp only []
          split
          · split
            · intro h; exact absurd rfl h
            · split
              · intro h; exact absurd rfl h
              · intro _; rfl
          · intro _; rfl
        | some b =>
          simp only []
          split
          · intro _; rfl
          · split <;> intro _ <;> rfl
  · intro a f ha hf
    subst ha hf
    rw [default_create_eq]
    cases buffer with
    | none =>
      by_cases h1 : (a s offset size).1 = GST_FLOW_OK
      · by_cases h2 : size = 0
        · subst h2
          simp [h1]
        · by_cases h3 : f s offset size (a s offset size).2 = GST_FLOW_OK
          · simp [h1, h2, h3, Nat.pos_of_ne_zero h2]
          · simp [h1, h2, h3, Nat.pos_of_ne_zero h2]
      · simp [h1]
    | some b =>
      by_cases h2 : size = 0
      · simp [h2]
      · by_cases h3 : f s offset size b = GST_FLOW_OK
        · simp [h2, h3, Nat.pos_of_ne_zero h2]
        · simp [h2, h3, Nat.pos_of_ne_zero h2]

/-- C25 at concrete inputs: with an alloc hook that stores buffer 7 and a fill
hook that answers GST_FLOW_EOS, a call without a buffer and with size 16
returns GST_FLOW_EOS and leaves the slot empty; with a fill hook that answers
GST_FLOW_OK the slot holds buffer 7. -/
theorem default_create_is_alloc_then_fill_witness :
    gst_base_idle_src_default_create (some (fun _ _ _ => (GST_FLOW_OK, 7)))
        (some (fun _ _ _ _ => GST_FLOW_EOS)) 0 16 none demo_init
      = (GST_FLOW_EOS, none, [CreateCall.alloc 0 16, CreateCall.fill 0 16 7])
    ∧ (gst_base_idle_src_default_create (some (fun _ _ _ => (GST_FLOW_OK, 7)))
        (some (fun _ _ _ _ => GST_FLOW_OK)) 0 16 none demo_init).2.1 = some 7 := by
  have h1 := (default_create_is_alloc_then_fill (some (fun _ _ _ => (GST_FLOW_OK, 7)))
    (some (fun _ _ _ _ => GST_FLOW_EOS)) 0 16 none demo_init).2.2 _ _ rfl rfl
  have h2 := (default_create_is_alloc_then_fill (some (fun _ _ _ => (GST_FLOW_OK, 7)))
    (some (fun _ _ _ _ => GST_FLOW_OK)) 0 16 none demo_init).2.2 _ _ rfl rfl
  refine ⟨?_, h2.2.2.1 (h2.2.1.2 ⟨Or.inr rfl, Or.inr rfl⟩)⟩
  have hr := h1.2.2.2.2 (Or.inr rfl) (by decide) (by decide)
  have hb := (default_create_is_alloc_then_fill (some (fun _ _ _ => (GST_FLOW_OK, 7)))
    (some (fun _ _ _ _ => GST_FLOW_EOS)) 0 16 none demo_init).2.1 (by rw [hr]; decide)
  exact Prod.ext hr (Prod.ext hb h1.1)


/-! ## The position query in percent -/

/-- A guint64 below 2^63 read as gint64 is the same number. -/
theorem guint64_to_gint64_small (n : Nat) (h : n < 2 ^ 63) : guint64_to_gint64 n = (n : Int) := by
  have h1 : n % 2 ^ 64 = n := Nat.mod_eq_of_lt (by omega)
  simp only [guint64_to_gint64, h1, h, if_true]

/-- A non-negative gint64 below 2^63 passed as guint64 is the same number. -/
theorem gint64_to_guint64_small (n : Nat) (h : n < 2 ^ 63) : gint64_to_guint64 (n : Int) = n := by
  unfold gint64_to_guint64
  have h1 : ((n : Int) % 2 ^ 64) = (n : Int) := by omega
  rw [h1]
  exact Int.toNat_ofNat n

/-- The scaled value is below the full scale. -/
theorem scaled_lt (p d : Nat) (h : p < d) : 1000000 * p / d < 1000000 := by
  rw [Nat.div_lt_iff_lt_mul (by omega)]
  exact Nat.mul_lt_mul_of_pos_left h (by norm_num)

/-- The value of the position query in percent on a segment whose position and
duration are not negative as gint64, for a scale function that rounds down. -/
theorem query_position_percent_nonneg (scale : Nat → Nat → Nat → Nat)
    (hscale : ∀ val num denom, denom ≠ 0 → val * num / denom < 2 ^ 64 →
      scale val num denom = val * num / denom)
    (s : GstBaseIdleSrc)
    (hp : s.segment.position < 2 ^ 63) (hd : s.segment.duration < 2 ^ 63) :
    (gst_base_idle_src_default_query_position_percent 1000000 scale s).2 =
      if s.segment.position < s.segment.duration then
        ((1000000 * s.segment.position / s.segment.duration : Nat) : Int)
      else 1000000 := by
  have hmax : gint64_to_guint64 (1000000 : Int) = 1000000 := by decide
  simp only [gst_base_idle_src_default_query_position_percent,
    guint64_to_gint64_small _ hp, guint64_to_gint64_small _ hd,
    gint64_to_guint64_small _ hp, gint64_to_guint64_small _ hd, hmax]
  have h1 : ((s.segment.position : Int) ≠ -1 ∧ (s.segment.duration : Int) ≠ -1) := by
    constructor <;> omega
  rw [if_pos h1]
  by_cases hlt : s.segment.position < s.segment.duration
  · have hlt2 : (s.segment.position : Int) < (s.segment.duration : Int) := by omega
    have hb := scaled_lt _ _ hlt
    rw [if_pos hlt2, if_pos hlt, hscale _ _ _ (by omega) (by omega),
      guint64_to_gint64_small _ (by omega)]
  · have hlt2 : ¬ (s.segment.position : Int) < (s.segment.duration : Int) := by omega
    rw [if_neg hlt2, if_neg hlt]

/-- C28: the position query in PERCENT of gst_base_idle_src_default_query, with
GST_FORMAT_PERCENT_MAX = 1000000 and a gst_util_uint64_scale that gives
val * num / denom rounded down when the denominator is not zero and the result
fits 64 bits, always answers TRUE.  The value is -1 when the position or the
duration of the segment is -1 as gint64.  For a position and a duration that
are not negative as gint64 it is 1000000 when position >= duration and the
rounded down 1000000 * position / duration when position < duration, in which
case the denominator handed to the scale function is not zero; the value lies
between 0 and 1000000, is below 1000000 exactly when position < duration, and
does not decrease when the position grows with the duration kept. -/
theorem query_position_percent (scale : Nat → Nat → Nat → Nat)
    (hscale : ∀ val num denom, denom ≠ 0 → val * num / denom < 2 ^ 64 →
      scale val num denom = val * num / denom)
    (s : GstBaseIdleSrc) :
    (gst_base_idle_src_default_query_position_percent 1000000 scale s).1 = true
    ∧ ((guint64_to_gint64 s.segment.position = -1
          ∨ guint64_to_gint64 s.segment.duration = -1) →
        (gst_base_idle_src_default_query_position_percent 1000000 scale s).2 = -1)
    ∧ (0 ≤ guint64_to_gint64 s.segment.position → 0 ≤ guint64_to_gint64 s.segment.duration →
        s.segment.position < 2 ^ 64 → s.segment.duration < 2 ^ 64 →
        (s.segment.duration ≤ s.segment.position →
          (gst_base_idle_src_default_query_position_percent 1000000 scale s).2 = 1000000)
        ∧ (s.segment.position < s.segment.duration →
          (gst_base_idle_src_default_query_position_percent 1000000 scale s).2 =
            ((1000000 * s.segment.position / s.segment.duration : Nat) : Int)
          ∧ gint64_to_guint64 (guint64_to_gint64 s.segment.duration) ≠ 0)
        ∧ 0 ≤ (gst_base_idle_src_default_query_position_percent 1000000 scale s).2
        ∧ (gst_base_idle_src_default_query_position_percent 1000000 scale s).2 ≤ 1000000
        ∧ ((gst_base_idle_src_default_query_position_percent 1000000 scale s).2 < 1000000 ↔
            s.segment.position < s.segment.duration)
        ∧ (∀ t : GstBaseIdleSrc, t.segment.duration = s.segment.duration →
            s.segment.position ≤ t.segment.position →
            0 ≤ guint64_to_gint64 t.segment.position → t.segment.position < 2 ^ 64 →
            (gst_base_idle_src_default_query_position_percent 1000000 scale s).2 ≤
              (gst_base_idle_src_default_query_position_percent 1000000 scale t).2)) := by
  have hsmall : ∀ n : Nat, n < 2 ^ 64 → 0 ≤ guint64_to_gint64 n → n < 2 ^ 63 := by
    intro n hn h0
    by_contra hc
    have h1 : n % 2 ^ 64 = n := Nat.mod_eq_of_lt hn
    simp only [guint64_to_gint64, h1, hc, if_false] at h0
    omega
  refine ⟨rfl, ?_, ?_⟩
  · intro h
    simp only [gst_base_idle_src_default_query_position_percent]
    rw [if_neg]
    rintro ⟨h1, h2⟩
    rcases h with h | h
    · exact h1 h
    · exact h2 h
  · intro hp0 hd0 hp64 hd64
    have hp := hsmall _ hp64 hp0
    have hd := hsmall _ hd64 hd0
    have hv := query_position_percent_nonneg scale hscale s hp hd
    refine ⟨?_, ?_, ?_, ?_, ?_, ?_⟩
    · intro hle
      rw [hv, if_neg (by omega)]
    · intro hlt
      rw [hv, if_pos hlt, guint64_to_gint64_small _ hd, gint64_to_guint64_small _ hd]
      exact ⟨rfl, by omega⟩
    · rw [hv]
      split
      · exact Int.natCast_nonneg _
      · norm_num
    · rw [hv]
      split
      · rename_i hlt
        have := scaled_lt _ _ hlt
        omega
      · exact le_refl _
    · rw [hv]
      constructor
      · intro h
        by_contra hc
        rw [if_neg hc] at h
        exact absurd h (lt_irrefl _)
      · intro hlt
        rw [if_pos hlt]
        have := scaled_lt _ _ hlt
        omega
    · intro t htd hle ht0 ht64
      have htp := hsmall _ ht64 ht0
      have hvt := query_position_percent_nonneg scale hscale t htp (by rw [htd]; exact hd)
      rw [hv, hvt, htd]
      by_cases h2 : t.segment.position < s.segment.duration
      · have h1 : s.segment.position < s.segment.duration := by omega
        rw [if_pos h1, if_pos h2]
        have : 1000000 * s.segment.position / s.segment.duration
            ≤ 1000000 * t.segment.position / s.segment.duration :=
          Nat.div_le_div_right (Nat.mul_le_mul_left _ hle)
        omega
      · rw [if_neg h2]
        split
        · rename_i h1
          have := scaled_lt _ _ h1
          omega
        · exact le_refl _

/-- C28 at a concrete input: with the scale function val * num / denom,
position 250 of duration 1000 is reported as 250000. -/
theorem query_position_percent_witness :
    (gst_base_idle_src_default_query_position_percent 1000000
      (fun val num denom => val * num / denom) demo_quarter).2 = 250000 := by
  have h := ((query_position_percent (fun val num denom => val * num / denom)
    (fun _ _ _ _ _ => rfl) demo_quarter).2.2 (by decide) (by decide)
    (by decide) (by decide)).2.1 (by decide)
  rw [h.1]
  decide

/-! ## The locking order -/

theorem lock_order_ok_append (a b : List LockOp) :
    ∀ h, lock_order_ok h (a ++ b) = (lock_order_ok h a && lock_order_ok (held_after h a) b) := by
  induction a with
  | nil => intro h; simp [lock_order_ok, held_after]
  | cons op rest ih =>
    intro h
    cases op <;> simp [lock_order_ok, held_after, ih, Bool.and_assoc]

theorem held_after_append (a b : List LockOp) :
    ∀ h, held_after h (a ++ b) = held_after (held_after h a) b := by
  induction a with
  | nil => intro h; simp [held_after]
  | cons op rest ih =>
    intro h
    cases op <;> simp [held_after, ih]

theorem in_order_and_balanced_nil : in_order_and_balanced [] := by
  intro n p
  simp [lock_order_ok, held_after]

theorem in_order_and_balanced_append (a b : List LockOp)
    (ha : in_order_and_balanced a) (hb : in_order_and_balanced b) :
    in_order_and_balanced (a ++ b) := by
  intro n p
  rw [lock_order_ok_append, held_after_append, (ha n p).1, (ha n p).2, (hb n p).1, (hb n p).2]
  exact ⟨rfl, rfl⟩

/-- Taking and releasing the object lock of the element. -/
theorem in_order_and_balanced_object :
    in_order_and_balanced [LockOp.lock Lock.OBJECT_LOCK, LockOp.unlock Lock.OBJECT_LOCK] := by
  intro n p
  simp [lock_order_ok, held_after, lock_allowed, Held.acquire, Held.release]

/-- Taking and releasing the object lock of the pad. -/
theorem in_order_and_balanced_pad_object :
    in_order_and_balanced
      [LockOp.lock Lock.PAD_OBJECT_LOCK, LockOp.unlock Lock.PAD_OBJECT_LOCK] := by
  intro n p
  simp [lock_order_ok, held_after, lock_allowed, Held.acquire, Held.release]

/-- A sequence in order stays in order inside the stream lock. -/
theorem in_order_and_balanced_stream (a : List LockOp) (ha : in_order_and_balanced a) :
    in_order_and_balanced
      ([LockOp.lock Lock.STREAM_LOCK] ++ a ++ [LockOp.unlock Lock.STREAM_LOCK]) := by
  intro n p
  simp [lock_order_ok, held_after, lock_allowed, Held.acquire, Held.release,
    lock_order_ok_append, held_after_append, (ha (n + 1) p).1, (ha (n + 1) p).2]

theorem set_pool_flushing_locks_in_order : in_order_and_balanced set_pool_flushing_locks :=
  in_order_and_balanced_object

theorem set_allocation_locks_in_order (e : Env) (pool : Option GstBufferPool)
    (s : GstBaseIdleSrc) : in_order_and_balanced (set_allocation_locks e pool s) := by
  unfold set_allocation_locks
  simp only []
  split
  · exact in_order_and_balanced_nil
  · exact in_order_and_balanced_object

theorem set_flushing_locks_in_order (flushing : Bool) (s : GstBaseIdleSrc) :
    in_order_and_balanced (set_flushing_locks flushing s) := by
  intro n p
  cases flushing <;> cases h : s.has_pending_eos <;>
    simp [set_flushing_locks, set_pool_flushing_locks, h, lock_order_ok, held_after,
      lock_allowed, Held.acquire, Held.release]

theorem stop_locks_in_order (k : GstBaseIdleSrcClass) (e : Env) (s : GstBaseIdleSrc) :
    in_order_and_balanced (stop_locks k e s) := by
  unfold stop_locks
  simp only [List.append_assoc]
  refine in_order_and_balanced_append _ _ (set_flushing_locks_in_order _ _)
    (in_order_and_balanced_append _ _ (set_flushing_locks_in_order _ _) ?_)
  intro n p
  split <;>
    simp [set_allocation_locks, lock_order_ok, held_after, lock_allowed, Held.acquire,
      Held.release]

/-- A sequence that releases the stream lock of a section, after a sequence in
order. -/
theorem releases_stream_append (a b : List LockOp) (ha : in_order_and_balanced a)
    (hb : ∀ n p : Nat, lock_order_ok ⟨n + 1, 0, 0, p⟩ b = true
      ∧ held_after ⟨n + 1, 0, 0, p⟩ b = ⟨n, 0, 0, p⟩) :
    ∀ n p : Nat, lock_order_ok ⟨n + 1, 0, 0, p⟩ (a ++ b) = true
      ∧ held_after ⟨n + 1, 0, 0, p⟩ (a ++ b) = ⟨n, 0, 0, p⟩ := by
  intro n p
  rw [lock_order_ok_append, held_after_append, (ha (n + 1) p).1, (ha (n + 1) p).2]
  exact ⟨by simpa using (hb n p).1, (hb n p).2⟩

/-- A section under the stream lock: a sequence in order, the stream lock, and
a sequence that releases it. -/
theorem stream_section (a b : List LockOp) (ha : in_order_and_balanced a)
    (hb : ∀ n p : Nat, lock_order_ok ⟨n + 1, 0, 0, p⟩ b = true
      ∧ held_after ⟨n + 1, 0, 0, p⟩ b = ⟨n, 0, 0, p⟩) :
    in_order_and_balanced (a ++ [LockOp.lock Lock.STREAM_LOCK] ++ b) := by
  intro n p
  rw [List.append_assoc, lock_order_ok_append, held_after_append, (ha n p).1, (ha n p).2]
  simp only [List.singleton_append, lock_order_ok, held_after, lock_allowed, Held.acquire,
    decide_True, Bool.and_self, Bool.true_and]
  exact hb n p

theorem start_complete_locks_in_order (k : GstBaseIdleSrcClass) (e : Env) (a : AbsentLocks)
    (ha : ∀ s, in_order_and_balanced (a.perform_seek s))
    (ret : GstFlowReturn) (s : GstBaseIdleSrc) :
    in_order_and_balanced (start_complete_locks k e a ret s) := by
  have hfail : ∀ t : GstBaseIdleSrc, ∀ n p : Nat,
      lock_order_ok ⟨n + 1, 0, 0, p⟩ ([LockOp.unlock Lock.STREAM_LOCK] ++ stop_locks k e t ++
        [LockOp.lock Lock.OBJECT_LOCK, LockOp.unlock Lock.OBJECT_LOCK]) = true
      ∧ held_after ⟨n + 1, 0, 0, p⟩ ([LockOp.unlock Lock.STREAM_LOCK] ++ stop_locks k e t ++
        [LockOp.lock Lock.OBJECT_LOCK, LockOp.unlock Lock.OBJECT_LOCK]) = ⟨n, 0, 0, p⟩ := by
    intro t n p
    have hs := stop_locks_in_order k e t n p
    generalize stop_locks k e t = stop_ops at hs ⊢
    simp [lock_order_ok, held_after, lock_allowed, Held.acquire, Held.release,
      lock_order_ok_append, held_after_append, hs.1, hs.2]
  have hdone : ∀ n p : Nat,
      lock_order_ok ⟨n + 1, 0, 0, p⟩ [LockOp.lock Lock.OBJECT_LOCK,
        LockOp.unlock Lock.OBJECT_LOCK, LockOp.unlock Lock.STREAM_LOCK] = true
      ∧ held_after ⟨n + 1, 0, 0, p⟩ [LockOp.lock Lock.OBJECT_LOCK,
        LockOp.unlock Lock.OBJECT_LOCK, LockOp.unlock Lock.STREAM_LOCK] = ⟨n, 0, 0, p⟩ := by
    intro n p
    simp [lock_order_ok, held_after, lock_allowed, Held.acquire, Held.release]
  unfold start_complete_locks
  by_cases hr : ret = GST_FLOW_OK
  · simp only [hr, ne_eq, not_true_eq_false, if_false]
    refine stream_section _ _ ?_ ?_
    · refine in_order_and_balanced_append _ _ ?_ in_order_and_balanced_pad_object
      split
      · exact in_order_and_balanced_object
      · exact in_order_and_balanced_nil
    · split
      · refine releases_stream_append _ _
          (in_order_and_balanced_append _ _ in_order_and_balanced_object (ha _)) ?_
        split
        · exact hfail _
        · exact hdone
      · split
        · exact hfail _
        · exact hdone
      · exact hfail _
  · simp only [ne_eq, hr, not_false_eq_true, if_true]
    exact in_order_and_balanced_object

theorem start_wait_locks_in_order (wakeups : Nat) (s : GstBaseIdleSrc) :
    in_order_and_balanced (start_wait_locks wakeups s) := by
  have hloop : ∀ (w n p : Nat) (rest : List LockOp),
      lock_order_ok ⟨n, 0, 1, p⟩
          ((List.replicate w
            [LockOp.unlock Lock.OBJECT_LOCK, LockOp.lock Lock.OBJECT_LOCK]).flatten ++ rest)
        = lock_order_ok ⟨n, 0, 1, p⟩ rest
      ∧ held_after ⟨n, 0, 1, p⟩
          ((List.replicate w
            [LockOp.unlock Lock.OBJECT_LOCK, LockOp.lock Lock.OBJECT_LOCK]).flatten ++ rest)
        = held_after ⟨n, 0, 1, p⟩ rest := by
    intro w
    induction w with
    | zero => intro n p rest; simp
    | succ w ih =>
      intro n p rest
      simp only [List.replicate_succ, List.flatten_cons, List.cons_append, List.nil_append,
        lock_order_ok, held_after, lock_allowed, Held.acquire, Held.release, Bool.true_and]
      exact ih n p rest
  intro n p
  unfold start_wait_locks
  simp only [List.append_assoc, List.singleton_append]
  simp only [lock_order_ok, held_after, lock_allowed, Held.acquire, Bool.true_and, Nat.zero_add]
  split
  · have h1 := hloop wakeups n p [LockOp.unlock Lock.OBJECT_LOCK]
    refine ⟨h1.1.trans ?_, h1.2.trans ?_⟩ <;> simp [lock_order_ok, held_after, Held.release]
  · simp [lock_order_ok, held_after, Held.release]

theorem start_locks_in_order (k : GstBaseIdleSrcClass) (e : Env) (a : AbsentLocks)
    (hseek : ∀ s, in_order_and_balanced (a.perform_seek s))
    (hasync : ∀ s, in_order_and_balanced (a.is_async s))
    (s : GstBaseIdleSrc) :
    in_order_and_balanced (start_locks k e a s) := by
  have hhead : in_order_and_balanced [LockOp.lock Lock.LIVE_LOCK, LockOp.lock Lock.OBJECT_LOCK,
      LockOp.unlock Lock.OBJECT_LOCK, LockOp.unlock Lock.LIVE_LOCK] := by
    intro n p
    simp [lock_order_ok, held_after, lock_allowed, Held.acquire, Held.release]
  have hshape : ∀ rest : List LockOp,
      [LockOp.lock Lock.LIVE_LOCK, LockOp.lock Lock.OBJECT_LOCK] ++
        ([LockOp.unlock Lock.OBJECT_LOCK, LockOp.unlock Lock.LIVE_LOCK] ++ rest) =
      [LockOp.lock Lock.LIVE_LOCK, LockOp.lock Lock.OBJECT_LOCK,
        LockOp.unlock Lock.OBJECT_LOCK, LockOp.unlock Lock.LIVE_LOCK] ++ rest := by
    intro rest; rfl
  unfold start_locks
  split
  · exact hhead
  · split
    · exact hhead
    · simp only []
      rw [hshape]
      refine in_order_and_balanced_append _ _ hhead ?_
      split
      · exact start_complete_locks_in_order k e a hseek _ _
      · refine in_order_and_balanced_append _ _ (hasync _) ?_
        split
        · exact in_order_and_balanced_append _ _
            (start_complete_locks_in_order k e a hseek _ _) (start_wait_locks_in_order _ _)
        · exact in_order_and_balanced_nil

theorem send_event_locks_in_order (k : GstBaseIdleSrcClass) (event : GstEvent)
    (s : GstBaseIdleSrc) : in_order_and_balanced (send_event_locks k event s) := by
  intro n p
  rcases event with ⟨ty, id⟩
  cases ty <;> cases hp : s.has_pending_eos <;>
    simp [send_event_locks, set_flushing_locks, set_pool_flushing_locks, log, hp,
      lock_order_ok, held_after, lock_allowed, Held.acquire, Held.release] <;>
    split <;>
    simp [lock_order_ok, held_after, lock_allowed, Held.acquire, Held.release]

theorem negotiate_locks_in_order (e : Env) (negotiated decided : Bool)
    (pool : Option GstBufferPool) (s : GstBaseIdleSrc) :
    in_order_and_balanced (negotiate_locks e negotiated decided pool s) := by
  unfold negotiate_locks
  refine in_order_and_balanced_stream _ ?_
  split
  · split
    · exact in_order_and_balanced_nil
    · exact set_allocation_locks_in_order e pool s
  · exact in_order_and_balanced_nil

theorem new_segment_locks_in_order (segment : GstSegment) (s : GstBaseIdleSrc) :
    in_order_and_balanced (new_segment_locks segment s) := by
  intro n p
  unfold new_segment_locks
  (repeat' split) <;>
    simp [lock_order_ok, held_after, lock_allowed, Held.acquire, Held.release]

theorem default_query_locks_in_order (a : AbsentLocks)
    (hlen : ∀ s, in_order_and_balanced (a.update_length s))
    (type : GstQueryType) (format : GstFormat) (s : GstBaseIdleSrc) :
    in_order_and_balanced (default_query_locks a type format s) := by
  cases type <;> simp only [default_query_locks] <;>
    first
    | exact in_order_and_balanced_nil
    | exact in_order_and_balanced_object
    | (split
       · exact in_order_and_balanced_nil
       · exact in_order_and_balanced_append _ _ (hlen s) in_order_and_balanced_object)

theorem change_state_locks_in_order (e : Env) (a : AbsentLocks)
    (hlive : ∀ s, in_order_and_balanced (a.is_live s))
    (hplay : ∀ b s, in_order_and_balanced (a.set_playing b s))
    (hparent : ∀ t s, in_order_and_balanced (a.parent_change_state t s))
    (transition : GstStateChange) (s : GstBaseIdleSrc) :
    in_order_and_balanced (change_state_locks e a transition s) := by
  unfold change_state_locks
  simp only []
  refine in_order_and_balanced_append _ _ (in_order_and_balanced_append _ _ ?_ (hparent _ _)) ?_
  · cases transition <;> simp only [] <;>
      first
      | exact in_order_and_balanced_nil
      | exact hlive s
      | (split
         · exact in_order_and_balanced_append _ _ (hlive s) (hplay _ s)
         · exact hlive s)
  · cases transition <;> simp only [] <;> split <;>
      first
      | exact in_order_and_balanced_nil
      | (split <;>
          first
          | exact in_order_and_balanced_append _ _ (hlive _) (hplay _ _)
          | exact hlive _
          | exact in_order_and_balanced_object)

/-- The example lock statements for the absent functions are in order. -/
theorem demo_absent_locks_in_order : demo_absent_locks.in_order := by
  refine ⟨fun s => in_order_and_balanced_stream _ (set_flushing_locks_in_order false s),
    fun _ => in_order_and_balanced_object, fun _ => in_order_and_balanced_object, ?_,
    fun _ => in_order_and_balanced_nil, fun _ _ => in_order_and_balanced_nil⟩
  intro b s n p
  simp [demo_absent_locks, lock_order_ok, held_after, lock_allowed, Held.acquire, Held.release]

/-- The check of the locking order rejects the stream lock taken under the
object lock or the live lock, and the live lock taken under the object lock. -/
theorem lock_order_ok_rejects :
    lock_order_ok ⟨0, 0, 0, 0⟩
        [LockOp.lock Lock.OBJECT_LOCK, LockOp.lock Lock.STREAM_LOCK] = false
    ∧ lock_order_ok ⟨0, 0, 0, 0⟩
        [LockOp.lock Lock.LIVE_LOCK, LockOp.lock Lock.STREAM_LOCK] = false
    ∧ lock_order_ok ⟨0, 0, 0, 0⟩
        [LockOp.lock Lock.OBJECT_LOCK, LockOp.lock Lock.LIVE_LOCK] = false := by
  decide

/-- C23: the lock statements of start, start_complete, start_wait, stop,
set_flushing with either value, send_event for every event type, negotiate,
new_segment, the default query for every query type and change_state, run in
the order of the code on every element, never take the stream lock while the
live lock or the object lock of the element is held and never take the live
lock while the object lock of the element is held, and give back every lock
they take; this holds for a caller that holds no lock and for one that holds
the stream lock.  The functions of the element whose bodies are not in the
file (perform_seek, is_async, is_live, set_playing, update_length and the
state change of the parent class) are assumed to do the same.  The lock
statements of set_flushing(TRUE) do not take the stream lock. -/
theorem lock_order_kept (k : GstBaseIdleSrcClass) (e : Env) (a : AbsentLocks)
    (ha : a.in_order) :
    (∀ s, in_order_and_balanced (start_locks k e a s))
    ∧ (∀ ret s, in_order_and_balanced (start_complete_locks k e a ret s))
    ∧ (∀ wakeups s, in_order_and_balanced (start_wait_locks wakeups s))
    ∧ (∀ s, in_order_and_balanced (stop_locks k e s))
    ∧ (∀ flushing s, in_order_and_balanced (set_flushing_locks flushing s))
    ∧ (∀ event s, in_order_and_balanced (send_event_locks k event s))
    ∧ (∀ negotiated decided pool s,
        in_order_and_balanced (negotiate_locks e negotiated decided pool s))
    ∧ (∀ segment s, in_order_and_balanced (new_segment_locks segment s))
    ∧ (∀ type format s, in_order_and_balanced (default_query_locks a type format s))
    ∧ (∀ transition s, in_order_and_balanced (change_state_locks e a transition s))
    ∧ (∀ s, LockOp.lock Lock.STREAM_LOCK ∉ set_flushing_locks true s) := by
  obtain ⟨hseek, hasync, hlive, hplay, hlen, hparent⟩ := ha
  refine ⟨start_locks_in_order k e a hseek hasync,
    start_complete_locks_in_order k e a hseek,
    start_wait_locks_in_order,
    stop_locks_in_order k e,
    set_flushing_locks_in_order,
    send_event_locks_in_order k,
    negotiate_locks_in_order e,
    new_segment_locks_in_order,
    default_query_locks_in_order a hlen,
    change_state_locks_in_order e a hlive hplay hparent, ?_⟩
  intro s
  cases h : s.has_pending_eos <;> simp [set_flushing_locks, set_pool_flushing_locks, h]

/-- C23 at concrete inputs: with the example lock statements for the absent
functions, the lock statements of a FLUSH_STOP event sent to the live playing
element and those of start on the initial element keep the order for a caller
that holds no lock. -/
theorem lock_order_kept_witness :
    demo_absent_locks.in_order
    ∧ lock_order_ok ⟨0, 0, 0, 0⟩
        (send_event_locks demo_class ⟨GST_EVENT_FLUSH_STOP, 9⟩ demo_live_playing) = true
    ∧ lock_order_ok ⟨0, 0, 0, 0⟩
        (start_locks demo_class demo_env demo_absent_locks demo_init) = true :=
  ⟨demo_absent_locks_in_order,
   ((lock_order_kept demo_class demo_env demo_absent_locks
      demo_absent_locks_in_order).2.2.2.2.2.1 _ _ 0 0).1,
   ((lock_order_kept demo_class demo_env demo_absent_locks
      demo_absent_locks_in_order).1 _ 0 0).1⟩


/-! ## The pending EOS members on reachable elements -/

/-- The members of the pending EOS and of the event queue after
gst_base_idle_src_stop. -/
theorem stop_eos_and_events (k : GstBaseIdleSrcClass) (e : Env) (s : GstBaseIdleSrc) :
    (gst_base_idle_src_stop k e s).2.forced_eos = (s.forced_eos && !s.has_pending_eos)
    ∧ (gst_base_idle_src_stop k e s).2.has_pending_eos = false
    ∧ (gst_base_idle_src_stop k e s).2.pending_eos
        = (if s.has_pending_eos then none else s.pending_eos)
    ∧ (gst_base_idle_src_stop k e s).2.pending_events = []
    ∧ (gst_base_idle_src_stop k e s).2.have_events
        = (s.have_events && s.pending_events.isEmpty) := by
  obtain ⟨tr, h⟩ := stop_frame k e s
  rw [h]
  split <;> exact ⟨rfl, rfl, rfl, rfl, rfl⟩

/-- The first half of start_complete writes neither the pending EOS members
nor the event queue. -/
theorem start_complete_setup_eos_and_events (k : GstBaseIdleSrcClass) (s : GstBaseIdleSrc) :
    (start_complete_setup k s).forced_eos = s.forced_eos
    ∧ (start_complete_setup k s).has_pending_eos = s.has_pending_eos
    ∧ (start_complete_setup k s).pending_eos = s.pending_eos
    ∧ (start_complete_setup k s).pending_events = s.pending_events
    ∧ (start_complete_setup k s).have_events = s.have_events := by
  simp only [start_complete_setup, start_complete_size, gst_base_idle_src_seekable, log]
  (repeat' split) <;> exact ⟨rfl, rfl, rfl, rfl, rfl⟩

/-- The property depends on the three members of the pending EOS only. -/
theorem eos_consistent_congr (s t : GstBaseIdleSrc)
    (h1 : t.forced_eos = s.forced_eos) (h2 : t.has_pending_eos = s.has_pending_eos)
    (h3 : t.pending_eos = s.pending_eos) (h : eos_consistent s) : eos_consistent t := by
  unfold eos_consistent
  rw [h1, h2, h3]
  exact h

theorem set_flushing_keeps_eos_consistent (k : GstBaseIdleSrcClass) (b : Bool)
    (s : GstBaseIdleSrc) (h : eos_consistent s) :
    eos_consistent (gst_base_idle_src_set_flushing k b s).2 := by
  obtain ⟨h1, h2⟩ := h
  cases b
  · rw [set_flushing_false_eq]
    exact ⟨h1, h2⟩
  · rw [set_flushing_true_eq]
    refine ⟨by simp [h1], fun _ => ?_⟩
    cases hp : s.has_pending_eos
    · simpa [hp] using h2 hp
    · simp

theorem stop_keeps_eos_consistent (k : GstBaseIdleSrcClass) (e : Env)
    (s : GstBaseIdleSrc) (h : eos_consistent s) :
    eos_consistent (gst_base_idle_src_stop k e s).2 := by
  obtain ⟨h1, h2⟩ := h
  obtain ⟨hf, -, hp, -, -⟩ := stop_eos_and_events k e s
  refine ⟨by rw [hf, h1]; rfl, fun _ => ?_⟩
  rw [hp]
  cases hpe : s.has_pending_eos
  · simpa using h2 hpe
  · simp

theorem start_complete_keeps_eos_consistent (k : GstBaseIdleSrcClass) (e : Env)
    (hseek : ∀ t ev u, eos_consistent t → eos_consistent (e.perform_seek t ev u).2)
    (ret : GstFlowReturn) (s : GstBaseIdleSrc) (h : eos_consistent s) :
    eos_consistent (gst_base_idle_src_start_complete k e ret s) := by
  by_cases hr : ret = GST_FLOW_OK
  · subst hr
    have hsetup : eos_consistent (start_complete_setup k s) := by
      obtain ⟨a1, a2, a3, -, -⟩ := start_complete_setup_eos_and_events k s
      unfold eos_consistent
      rw [a1, a2, a3]
      exact h
    have hsought : eos_consistent (start_complete_seek e (start_complete_setup k s)).2 :=
      hseek _ _ _ hsetup
    have hfail : ∀ t, eos_consistent t →
        eos_consistent (start_complete_error GST_FLOW_ERROR (gst_base_idle_src_stop k e t).2) :=
      fun t ht => stop_keeps_eos_consistent k e t ht
    rw [start_complete_ok_eq]
    cases s.pad_mode with
    | GST_PAD_MODE_PUSH =>
      simp only []
      split
      · exact hsought
      · exact hfail _ hsought
    | GST_PAD_MODE_PULL =>
      simp only []
      split
      · exact hsetup
      · exact hfail _ hsetup
    | GST_PAD_MODE_NONE => exact hfail _ hsetup
  · rw [start_complete_not_ok k e ret s hr]
    exact h

theorem start_keeps_eos_consistent (k : GstBaseIdleSrcClass) (e : Env)
    (hseek : ∀ t ev u, eos_consistent t → eos_consistent (e.perform_seek t ev u).2)
    (s : GstBaseIdleSrc) (h : eos_consistent s) (b : Bool) (s' : GstBaseIdleSrc)
    (hs : gst_base_idle_src_start k e s = some (b, s')) :
    eos_consistent s' := by
  have hprep : eos_consistent (start_prepare e s) := ⟨rfl, h.2⟩
  have hfin : ∀ result t, eos_consistent t → ∀ r, start_finish k e result t = some r →
      eos_consistent r.2 := by
    intro result t ht r hr
    unfold start_finish at hr
    cases result
    · simp only [Bool.not_false, if_true, Option.some.injEq] at hr
      rw [← hr]
      exact start_complete_keeps_eos_consistent k e hseek _ _ ht
    · simp only [Bool.not_true, Bool.false_eq_true, if_false] at hr
      by_cases ha : gst_base_idle_src_is_async t = true
      · simp only [ha, Bool.not_true, Bool.false_eq_true, if_false, Option.some.injEq] at hr
        rw [← hr]
        exact ht
      · simp only [ha, Bool.not_false, if_true, gst_base_idle_src_start_wait,
          start_complete_flag_starting, Bool.false_eq_true, if_false, Option.some.injEq] at hr
        rw [← hr]
        exact start_complete_keeps_eos_consistent k e hseek _ _ ht
  unfold gst_base_idle_src_start at hs
  by_cases h1 : s.flag_starting = true
  · rw [if_pos h1] at hs
    cases hs
    exact h
  · by_cases h2 : s.flag_started = true
    · rw [if_neg h1, if_pos h2] at hs
      cases hs
      exact h
    · rw [if_neg h1, if_neg h2] at hs
      cases hk : k.start with
      | some f =>
        rw [hk] at hs
        exact hfin _ ((start_prepare e s).log Call.hook_start) hprep _ hs
      | none =>
        rw [hk] at hs
        exact hfin _ _ hprep _ hs

theorem send_event_keeps_eos_consistent (k : GstBaseIdleSrcClass) (e : Env)
    (event : GstEvent) (s : GstBaseIdleSrc) (h : eos_consistent s) :
    eos_consistent (gst_base_idle_src_send_event k e event s).2 := by
  have hflush : ∀ b t, eos_consistent t → eos_consistent (gst_base_idle_src_set_flushing k b t).2 :=
    fun b t ht => set_flushing_keeps_eos_consistent k b t ht
  rcases event with ⟨ty, id⟩
  cases ty <;> simp only [gst_base_idle_src_send_event] <;>
    first
    | exact h
    | exact hflush _ (s.log _) h
    | skip
  · -- FLUSH_STOP
    have h3 := hflush false s h
    refine eos_consistent_congr _ _ ?_ ?_ ?_ h3 <;> (repeat' split) <;> rfl
  · -- EOS
    split
    · exact ⟨(hflush false _ (hflush true s h)).1, fun hc => by cases hc⟩
    · refine eos_consistent_congr
        { s with has_pending_eos := true, pending_eos := some ⟨GST_EVENT_EOS, id⟩ } _ ?_ ?_ ?_
        ⟨h.1, fun hc => by cases hc⟩ <;>
        simp only [set_pool_flushing_eq] <;> (repeat' split) <;> rfl

theorem change_state_keeps_eos_consistent (e : Env) (transition : GstStateChange)
    (s : GstBaseIdleSrc) (h : eos_consistent s) :
    eos_consistent (gst_base_idle_src_change_state e transition s).2 := by
  obtain ⟨h1, h2⟩ := h
  unfold eos_consistent
  cases hl : s.is_live <;> cases hpe : s.has_pending_eos <;> cases transition <;>
    simp only [gst_base_idle_src_change_state, gst_base_idle_src_is_live,
      gst_base_idle_src_set_playing, CLEAR_PENDING_EOS, log, hl, hpe] <;>
    (generalize e.parent_change_state _ _ = par
     rcases par with ⟨p', pm⟩
     cases p' <;> simp [h1, hpe, h2])

/-- One call keeps the members of the pending EOS consistent. -/
theorem step_keeps_eos_consistent (k : GstBaseIdleSrcClass) (e : Env)
    (hseek : ∀ t ev u, eos_consistent t → eos_consistent (e.perform_seek t ev u).2)
    (op : Op) (s s' : GstBaseIdleSrc) (h : step k e op s = some s')
    (hinv : eos_consistent s) : eos_consistent s' := by
  cases op with
  | start =>
    simp only [step] at h
    cases hs : gst_base_idle_src_start k e s with
    | none => rw [hs] at h; cases h
    | some r =>
      rw [hs] at h
      simp only [Option.map_some', Option.some.injEq] at h
      subst h
      exact start_keeps_eos_consistent k e hseek s hinv r.1 r.2 hs
  | start_complete ret =>
    simp only [step, Option.some.injEq] at h
    subst h
    exact start_complete_keeps_eos_consistent k e hseek ret s hinv
  | start_wait =>
    simp only [step, gst_base_idle_src_start_wait] at h
    split at h
    · cases h
    · simp only [Option.map_some', Option.some.injEq] at h
      subst h
      exact hinv
  | stop =>
    simp only [step, Option.some.injEq] at h
    subst h
    exact stop_keeps_eos_consistent k e s hinv
  | set_flushing b =>
    simp only [step, Option.some.injEq] at h
    subst h
    exact set_flushing_keeps_eos_consistent k b s hinv
  | send_event ev =>
    simp only [step, Option.some.injEq] at h
    subst h
    exact send_event_keeps_eos_consistent k e ev s hinv
  | change_state tr =>
    simp only [step, Option.some.injEq] at h
    subst h
    exact change_state_keeps_eos_consistent e tr s hinv

/-- A sequence of calls keeps the members of the pending EOS consistent. -/
theorem run_keeps_eos_consistent (k : GstBaseIdleSrcClass) (e : Env)
    (hseek : ∀ t ev u, eos_consistent t → eos_consistent (e.perform_seek t ev u).2)
    (ops : List Op) :
    ∀ (s s' : GstBaseIdleSrc), run k e ops s = some s' →
      eos_consistent s → eos_consistent s' := by
  induction ops with
  | nil =>
    intro s s' h hinv
    simp only [run, Option.some.injEq] at h
    subst h
    exact hinv
  | cons op rest ih =>
    intro s s' h hinv
    simp only [run] at h
    cases hstep : step k e op s with
    | none => rw [hstep] at h; cases h
    | some s1 =>
      rw [hstep] at h
      exact ih s1 s' h (step_keeps_eos_consistent k e hseek op s s1 hstep hinv)

/-- C12: on every element reached from the initial element, whatever the
subclass configured for async and live, by a sequence of start, start_complete
with any result, start_wait, stop, set_flushing, send_event and change_state,
gst_base_idle_src_set_flushing (TRUE) returns TRUE and afterwards flushing is
true, forced_eos is false and no EOS is pending: has_pending_eos is false and
the pending_eos payload is absent.  The pool, if any, is set flushing, the
subclass unlock is called exactly once when present, unlock_stop is not
called.  The seek routine, whose body is not in the file, is assumed to keep
forced_eos clear and to store a pending_eos payload only together with
has_pending_eos, as every function of the file does. -/
theorem set_flushing_true_postcondition (k : GstBaseIdleSrcClass) (e : Env)
    (hseek : ∀ t ev u, eos_consistent t → eos_consistent (e.perform_seek t ev u).2)
    (nb : Int) (bs : Nat) (async live : Bool) (ops : List Op) (s : GstBaseIdleSrc)
    (h : run k e ops { gst_base_idle_src_init nb bs with async := async, is_live := live }
          = some s) :
    (gst_base_idle_src_set_flushing k true s).1 = true
    ∧ (gst_base_idle_src_set_flushing k true s).2.flushing = true
    ∧ (gst_base_idle_src_set_flushing k true s).2.forced_eos = false
    ∧ (gst_base_idle_src_set_flushing k true s).2.has_pending_eos = false
    ∧ (gst_base_idle_src_set_flushing k true s).2.pending_eos = none
    ∧ (gst_base_idle_src_set_flushing k true s).2.pool = s.pool
    ∧ ∃ calls, (gst_base_idle_src_set_flushing k true s).2.trace = s.trace ++ calls
        ∧ (∀ p, s.pool = some p → Call.pool_set_flushing p true ∈ calls)
        ∧ calls.count Call.hook_unlock = (if k.unlock.isSome then 1 else 0)
        ∧ calls.count Call.hook_unlock_stop = 0 := by
  have hinv : eos_consistent s :=
    run_keeps_eos_consistent k e hseek ops _ s h ⟨rfl, fun _ => rfl⟩
  obtain ⟨f1, f2, f3, f4, f5, f6, f7⟩ := set_flushing_true_fields k s
  refine ⟨f1, f2, ?_, f3, ?_, f6, f7⟩
  · cases hp : s.has_pending_eos
    · rw [(f5 hp).1]
      exact hinv.1
    · exact (f4 hp).1
  · cases hp : s.has_pending_eos
    · rw [(f5 hp).2]
      exact hinv.2 hp
    · exact (f4 hp).2

/-- Instance of C12: after a start and an EOS event on the initial element an
EOS is pending with its payload; set_flushing (TRUE) clears both and leaves
forced_eos false. -/
theorem set_flushing_true_postcondition_witness :
    ∃ s, run demo_class demo_env [Op.start, Op.send_event ⟨GST_EVENT_EOS, 1⟩]
          { gst_base_idle_src_init (-1) 4096 with async := false, is_live := false } = some s
      ∧ s.has_pending_eos = true
      ∧ s.pending_eos = some ⟨GST_EVENT_EOS, 1⟩
      ∧ (gst_base_idle_src_set_flushing demo_class true s).2.forced_eos = false
      ∧ (gst_base_idle_src_set_flushing demo_class true s).2.has_pending_eos = false
      ∧ (gst_base_idle_src_set_flushing demo_class true s).2.pending_eos = none :=
  ⟨_, rfl, rfl, rfl,
    (set_flushing_true_postcondition demo_class demo_env (fun _ _ _ ht => ht) (-1) 4096
      false false [Op.start, Op.send_event ⟨GST_EVENT_EOS, 1⟩] _ rfl).2.2.1,
    (set_flushing_true_postcondition demo_class demo_env (fun _ _ _ ht => ht) (-1) 4096
      false false [Op.start, Op.send_event ⟨GST_EVENT_EOS, 1⟩] _ rfl).2.2.2.1,
    (set_flushing_true_postcondition demo_class demo_env (fun _ _ _ ht => ht) (-1) 4096
      false false [Op.start, Op.send_event ⟨GST_EVENT_EOS, 1⟩] _ rfl).2.2.2.2.1⟩

/-! ## The event queue members on reachable elements -/

/-- The property depends on the two members of the event queue only. -/
theorem events_consistent_congr (s t : GstBaseIdleSrc)
    (h1 : t.have_events = s.have_events) (h2 : t.pending_events = s.pending_events)
    (h : events_consistent s) : events_consistent t := by
  unfold events_consistent
  rw [h1, h2]
  exact h

/-- An element whose queue was just emptied by the guarded statement. -/
theorem events_consistent_emptied (s t : GstBaseIdleSrc)
    (h1 : t.have_events = (s.have_events && s.pending_events.isEmpty))
    (h : events_consistent s) : events_consistent t := by
  intro ht
  rw [h1] at ht
  simp only [Bool.and_eq_true, List.isEmpty_iff] at ht
  exact absurd ht.2 (h ht.1)

theorem set_flushing_keeps_events_consistent (k : GstBaseIdleSrcClass) (b : Bool)
    (s : GstBaseIdleSrc) (h : events_consistent s) :
    events_consistent (gst_base_idle_src_set_flushing k b s).2 := by
  cases b
  · rw [set_flushing_false_eq]
    exact events_consistent_emptied s _ rfl h
  · rw [set_flushing_true_eq]
    exact h

theorem stop_keeps_events_consistent (k : GstBaseIdleSrcClass) (e : Env)
    (s : GstBaseIdleSrc) (h : events_consistent s) :
    events_consistent (gst_base_idle_src_stop k e s).2 :=
  events_consistent_emptied s _ (stop_eos_and_events k e s).2.2.2.2 h

theorem start_complete_keeps_events_consistent (k : GstBaseIdleSrcClass) (e : Env)
    (hseek : ∀ t ev u, events_consistent t → events_consistent (e.perform_seek t ev u).2)
    (ret : GstFlowReturn) (s : GstBaseIdleSrc) (h : events_consistent s) :
    events_consistent (gst_base_idle_src_start_complete k e ret s) := by
  by_cases hr : ret = GST_FLOW_OK
  · subst hr
    have hsetup : events_consistent (start_complete_setup k s) := by
      obtain ⟨-, -, -, a4, a5⟩ := start_complete_setup_eos_and_events k s
      exact events_consistent_congr s _ a5 a4 h
    have hsought : events_consistent (start_complete_seek e (start_complete_setup k s)).2 :=
      hseek _ _ _ hsetup
    have hfail : ∀ t, events_consistent t →
        events_consistent
          (start_complete_error GST_FLOW_ERROR (gst_base_idle_src_stop k e t).2) :=
      fun t ht => stop_keeps_events_consistent k e t ht
    rw [start_complete_ok_eq]
    cases s.pad_mode with
    | GST_PAD_MODE_PUSH =>
      simp only []
      split
      · exact hsought
      · exact hfail _ hsought
    | GST_PAD_MODE_PULL =>
      simp only []
      split
      · exact hsetup
      · exact hfail _ hsetup
    | GST_PAD_MODE_NONE => exact hfail _ hsetup
  · rw [start_complete_not_ok k e ret s hr]
    exact h

theorem start_keeps_events_consistent (k : GstBaseIdleSrcClass) (e : Env)
    (hseek : ∀ t ev u, events_consistent t → events_consistent (e.perform_seek t ev u).2)
    (s : GstBaseIdleSrc) (h : events_consistent s) (b : Bool) (s' : GstBaseIdleSrc)
    (hs : gst_base_idle_src_start k e s = some (b, s')) :
    events_consistent s' := by
  have hprep : events_consistent (start_prepare e s) := h
  have hfin : ∀ result t, events_consistent t → ∀ r, start_finish k e result t = some r →
      events_consistent r.2 := by
    intro result t ht r hr
    unfold start_finish at hr
    cases result
    · simp only [Bool.not_false, if_true, Option.some.injEq] at hr
      rw [← hr]
      exact start_complete_keeps_events_consistent k e hseek _ _ ht
    · simp only [Bool.not_true, Bool.false_eq_true, if_false] at hr
      by_cases ha : gst_base_idle_src_is_async t = true
      · simp only [ha, Bool.not_true, Bool.false_eq_true, if_false, Option.some.injEq] at hr
        rw [← hr]
        exact ht
      · simp only [ha, Bool.not_false, if_true, gst_base_idle_src_start_wait,
          start_complete_flag_starting, Bool.false_eq_true, if_false, Option.some.injEq] at hr
        rw [← hr]
        exact start_complete_keeps_events_consistent k e hseek _ _ ht
  unfold gst_base_idle_src_start at hs
  by_cases h1 : s.flag_starting = true
  · rw [if_pos h1] at hs
    cases hs
    exact h
  · by_cases h2 : s.flag_started = true
    · rw [if_neg h1, if_pos h2] at hs
      cases hs
      exact h
    · rw [if_neg h1, if_neg h2] at hs
      cases hk : k.start with
      | some f =>
        rw [hk] at hs
        exact hfin _ ((start_prepare e s).log Call.hook_start) hprep _ hs
      | none =>
        rw [hk] at hs
        exact hfin _ _ hprep _ hs

theorem send_event_keeps_events_consistent (k : GstBaseIdleSrcClass) (e : Env)
    (event : GstEvent) (s : GstBaseIdleSrc) (h : events_consistent s) :
    events_consistent (gst_base_idle_src_send_event k e event s).2 := by
  have hflush : ∀ b t, events_consistent t →
      events_consistent (gst_base_idle_src_set_flushing k b t).2 :=
    fun b t ht => set_flushing_keeps_events_consistent k b t ht
  have hqueued : ∀ ev : GstEvent, events_consistent
      { s with pending_events := s.pending_events ++ [ev], have_events := true } := by
    intro ev _
    simp
  rcases event with ⟨ty, id⟩
  cases ty <;> simp only [gst_base_idle_src_send_event] <;>
    first
    | exact h
    | exact hflush _ (s.log _) h
    | exact hqueued _
    | skip
  · -- FLUSH_STOP
    have h3 := hflush false s h
    refine events_consistent_congr _ _ ?_ ?_ h3 <;> (repeat' split) <;> rfl
  · -- EOS
    split
    · exact hflush false _ (hflush true s h)
    · refine events_consistent_congr s _ ?_ ?_ h <;>
        simp only [set_pool_flushing_eq] <;> (repeat' split) <;> rfl

theorem change_state_keeps_events_consistent (e : Env) (transition : GstStateChange)
    (s : GstBaseIdleSrc) (h : events_consistent s) :
    events_consistent (gst_base_idle_src_change_state e transition s).2 := by
  refine events_consistent_congr s _ ?_ ?_ h <;>
    cases hl : s.is_live <;> cases hpe : s.has_pending_eos <;> cases transition <;>
    simp only [gst_base_idle_src_change_state, gst_base_idle_src_is_live,
      gst_base_idle_src_set_playing, CLEAR_PENDING_EOS, log, hl, hpe] <;>
    (generalize e.parent_change_state _ _ = par
     rcases par with ⟨p', pm⟩
     cases p' <;> simp [hl, hpe])

/-- One call keeps the members of the event queue consistent. -/
theorem step_keeps_events_consistent (k : GstBaseIdleSrcClass) (e : Env)
    (hseek : ∀ t ev u, events_consistent t → events_consistent (e.perform_seek t ev u).2)
    (op : Op) (s s' : GstBaseIdleSrc) (h : step k e op s = some s')
    (hinv : events_consistent s) : events_consistent s' := by
  cases op with
  | start =>
    simp only [step] at h
    cases hs : gst_base_idle_src_start k e s with
    | none => rw [hs] at h; cases h
    | some r =>
      rw [hs] at h
      simp only [Option.map_some', Option.some.injEq] at h
      subst h
      exact start_keeps_events_consistent k e hseek s hinv r.1 r.2 hs
  | start_complete ret =>
    simp only [step, Option.some.injEq] at h
    subst h
    exact start_complete_keeps_events_consistent k e hseek ret s hinv
  | start_wait =>
    simp only [step, gst_base_idle_src_start_wait] at h
    split at h
    · cases h
    · simp only [Option.map_some', Option.some.injEq] at h
      subst h
      exact hinv
  | stop =>
    simp only [step, Option.some.injEq] at h
    subst h
    exact stop_keeps_events_consistent k e s hinv
  | set_flushing b =>
    simp only [step, Option.some.injEq] at h
    subst h
    exact set_flushing_keeps_events_consistent k b s hinv
  | send_event ev =>
    simp only [step, Option.some.injEq] at h
    subst h
    exact send_event_keeps_events_consistent k e ev s hinv
  | change_state tr =>
    simp only [step, Option.some.injEq] at h
    subst h
    exact change_state_keeps_events_consistent e tr s hinv

/-- A sequence of calls keeps the members of the event queue consistent. -/
theorem run_keeps_events_consistent (k : GstBaseIdleSrcClass) (e : Env)
    (hseek : ∀ t ev u, events_consistent t → events_consistent (e.perform_seek t ev u).2)
    (ops : List Op) :
    ∀ (s s' : GstBaseIdleSrc), run k e ops s = some s' →
      events_consistent s → events_consistent s' := by
  induction ops with
  | nil =>
    intro s s' h hinv
    simp only [run, Option.some.injEq] at h
    subst h
    exact hinv
  | cons op rest ih =>
    intro s s' h hinv
    simp only [run] at h
    cases hstep : step k e op s with
    | none => rw [hstep] at h; cases h
    | some s1 =>
      rw [hstep] at h
      exact ih s1 s' h (step_keeps_events_consistent k e hseek op s s1 hstep hinv)

/-- C13: on every element reached from the initial element, whatever the
subclass configured for async and live, by a sequence of start, start_complete
with any result, start_wait, stop, set_flushing, send_event and change_state,
after gst_base_idle_src_set_flushing (FALSE) flushing is false, the queue of
pending events is empty and have_events is false.  The outside calls are, in
this order, the pool (if any) set not flushing and the subclass unlock_stop
(if present), exactly once; unlock is not called.  The pending EOS, the
lifecycle flags and the segment are unchanged.  The seek routine, whose body
is not in the file, is assumed to set have_events only together with a queued
event, as every function of the file does. -/
theorem set_flushing_false_postcondition (k : GstBaseIdleSrcClass) (e : Env)
    (hseek : ∀ t ev u, events_consistent t → events_consistent (e.perform_seek t ev u).2)
    (nb : Int) (bs : Nat) (async live : Bool) (ops : List Op) (s : GstBaseIdleSrc)
    (h : run k e ops { gst_base_idle_src_init nb bs with async := async, is_live := live }
          = some s) :
    (gst_base_idle_src_set_flushing k false s).1 = true
    ∧ (gst_base_idle_src_set_flushing k false s).2.flushing = false
    ∧ (gst_base_idle_src_set_flushing k false s).2.pending_events = []
    ∧ (gst_base_idle_src_set_flushing k false s).2.have_events = false
    ∧ (gst_base_idle_src_set_flushing k false s).2.trace = s.trace
        ++ ((s.pool.map (Call.pool_set_flushing · false)).toList
          ++ (k.unlock_stop.map (fun _ => Call.hook_unlock_stop)).toList)
    ∧ ((s.pool.map (Call.pool_set_flushing · false)).toList
          ++ (k.unlock_stop.map (fun _ => Call.hook_unlock_stop)).toList).count
          Call.hook_unlock_stop = (if k.unlock_stop.isSome then 1 else 0)
    ∧ ((s.pool.map (Call.pool_set_flushing · false)).toList
          ++ (k.unlock_stop.map (fun _ => Call.hook_unlock_stop)).toList).count
          Call.hook_unlock = 0
    ∧ (gst_base_idle_src_set_flushing k false s).2.pool = s.pool
    ∧ (gst_base_idle_src_set_flushing k false s).2.has_pending_eos = s.has_pending_eos
    ∧ (gst_base_idle_src_set_flushing k false s).2.pending_eos = s.pending_eos
    ∧ (gst_base_idle_src_set_flushing k false s).2.forced_eos = s.forced_eos
    ∧ (gst_base_idle_src_set_flushing k false s).2.flag_starting = s.flag_starting
    ∧ (gst_base_idle_src_set_flushing k false s).2.flag_started = s.flag_started
    ∧ (gst_base_idle_src_set_flushing k false s).2.segment = s.segment := by
  have hinv : events_consistent s :=
    run_keeps_events_consistent k e hseek ops _ s h (fun hc => by cases hc)
  obtain ⟨f1, f2, f3, f4, f5, f6, f7, f8, f9, f10, f11, f12, f13, f14⟩ :=
    set_flushing_false_fields k s
  refine ⟨by rw [set_flushing_false_eq], f1, f2, ?_, f5, f6, f7, f8, f9, f10, f11, f12, f13, f14⟩
  by_cases hq : s.pending_events = []
  · rw [f4 hq]
    cases hh : s.have_events
    · rfl
    · exact absurd hq (hinv hh)
  · exact f3 hq

/-- Instance of C13: after a start, a tag and a protection event on the
initial element two events are queued and have_events is set;
set_flushing (FALSE) empties the queue and clears have_events. -/
theorem set_flushing_false_postcondition_witness :
    ∃ s, run demo_class demo_env
          [Op.start, Op.send_event ⟨GST_EVENT_TAG, 2⟩, Op.send_event ⟨GST_EVENT_PROTECTION, 3⟩]
          { gst_base_idle_src_init (-1) 4096 with async := false, is_live := false } = some s
      ∧ s.pending_events = [⟨GST_EVENT_TAG, 2⟩, ⟨GST_EVENT_PROTECTION, 3⟩]
      ∧ s.have_events = true
      ∧ (gst_base_idle_src_set_flushing demo_class false s).2.pending_events = []
      ∧ (gst_base_idle_src_set_flushing demo_class false s).2.have_events = false :=
  ⟨_, rfl, rfl, rfl,
    (set_flushing_false_postcondition demo_class demo_env (fun _ _ _ ht => ht) (-1) 4096
      false false
      [Op.start, Op.send_event ⟨GST_EVENT_TAG, 2⟩, Op.send_event ⟨GST_EVENT_PROTECTION, 3⟩]
      _ rfl).2.2.1,
    (set_flushing_false_postcondition demo_class demo_env (fun _ _ _ ht => ht) (-1) 4096
      false false
      [Op.start, Op.send_event ⟨GST_EVENT_TAG, 2⟩, Op.send_event ⟨GST_EVENT_PROTECTION, 3⟩]
      _ rfl).2.2.2.1⟩

end GstBaseIdleSrc
